import Mathlib

/-!
# Infinite Orangutan Parkour: the simulation core of `script.js`

A shallow embedding of the world generator, the per-frame `animate` loop and the
input handlers of `src/script.js`, followed by theorems about them.

Modelling conventions.

* JavaScript numbers are exact rationals (`ℚ`); integer-valued counters are `ℤ` or `ℕ`.
* `Math.random()` is a stream of draws in `[0,1)` (`RandomSource`); the state counts the
  draws consumed so far, so every call site reads the next element of the stream.
* `Math.sin`, `Math.sqrt` and `Math.PI` come from a `Host`; the per-frame clock readings,
  the OrbitControls camera update and the `Box3` intersection test come from a `Frame`.
* Module-level `let` variables are the fields of `State`; the entity arrays, the `world`
  object and the position in the random stream are grouped in its field `scene : Scene`,
  which is all that the spawners and the pruning read or write.
* Rendering, audio, DOM and `localStorage` writes are not modelled; the run starts when the
  player model has finished loading (`orangutan` is non-null from then on).
-/

namespace Parkour

/-! ## Numbers, vectors and host functions -/

/-- One result of `Math.random()`: a number in `[0,1)`. -/
structure Draw where
  val : ℚ
  nonneg : 0 ≤ val
  lt_one : val < 1

/-- The sequence of results of successive `Math.random()` calls. -/
abbrev RandomSource := ℕ → Draw

/-- Functions of the JavaScript host that have no rational counterpart. -/
structure Host where
  pi : ℚ
  sin : ℚ → ℚ
  sqrt : ℚ → ℚ

/-- The `THREE.Vector3` of a position. -/
structure Vec3 where
  x : ℚ
  y : ℚ
  z : ℚ
  deriving DecidableEq

namespace Vec3

/-- `a.add(b)`. -/
def add (a b : Vec3) : Vec3 := ⟨a.x + b.x, a.y + b.y, a.z + b.z⟩

/-- `subVectors(a, b)`. -/
def sub (a b : Vec3) : Vec3 := ⟨a.x - b.x, a.y - b.y, a.z - b.z⟩

/-- `v.multiplyScalar(k)`. -/
def multiplyScalar (v : Vec3) (k : ℚ) : Vec3 := ⟨v.x * k, v.y * k, v.z * k⟩

/-- `v.setY(y)`. -/
def setY (v : Vec3) (y : ℚ) : Vec3 := ⟨v.x, y, v.z⟩

/-- The squared length `x*x + y*y + z*z`. -/
def lengthSq (v : Vec3) : ℚ := v.x * v.x + v.y * v.y + v.z * v.z

/-- `v.length()`. -/
def length (h : Host) (v : Vec3) : ℚ := h.sqrt v.lengthSq

/-- `v.normalize()`, three.js: `divideScalar(length() || 1)`. -/
def normalize (h : Host) (v : Vec3) : Vec3 :=
  let l := if v.length h = 0 then 1 else v.length h
  ⟨v.x / l, v.y / l, v.z / l⟩

/-- `a.lerp(b, alpha)`. -/
def lerp (a b : Vec3) (alpha : ℚ) : Vec3 :=
  ⟨a.x + (b.x - a.x) * alpha, a.y + (b.y - a.y) * alpha, a.z + (b.z - a.z) * alpha⟩

end Vec3

/-- `dist(a, b)`, that is `a.distanceTo(b)`. -/
def dist (h : Host) (a b : Vec3) : ℚ := h.sqrt (Vec3.sub a b).lengthSq

/-! ## Entities -/

inductive PlatformType where
  | static
  | moving
  deriving DecidableEq

inductive Axis where
  | x
  | z
  deriving DecidableEq

inductive PowerUpKind where
  | speed
  | jump
  | magnet
  deriving DecidableEq

/-- A platform mesh: its position and its `userData`. -/
structure Platform where
  pos : Vec3
  id : ℕ
  type : PlatformType
  movingAxis : Axis
  range : ℚ
  speed : ℚ
  start : ℚ
  tilt : ℚ
  deriving DecidableEq

structure Banana where
  pos : Vec3
  collected : Bool
  deriving DecidableEq

structure PowerUp where
  pos : Vec3
  kind : PowerUpKind
  spawnY : ℚ
  bobOffset : ℚ
  deriving DecidableEq

/-- An obstacle: `santa` records whether the mesh is a clone of the loaded model. -/
structure Obstacle where
  pos : Vec3
  santa : Bool
  axis : Axis
  range : ℚ
  speed : ℚ
  start : ℚ
  deriving DecidableEq

/-- A particle burst made by `createPickupParticles`. -/
structure Particles where
  positions : List Vec3
  velocities : List Vec3
  life : ℚ
  deriving DecidableEq

/-- The `world` object. -/
structure World where
  spawnAhead : ℚ
  pruneBelow : ℚ
  platformCount : ℕ
  difficultyScale : ℤ
  deriving DecidableEq

/-- The key codes the game reads, and any other non-Space code. -/
inductive KeyCode where
  | KeyW | KeyA | KeyS | KeyD
  | ArrowUp | ArrowDown | ArrowLeft | ArrowRight
  | other (name : String)
  deriving DecidableEq

/-- The generated world: the entity arrays, the `world` object, whether the obstacle model is
loaded, and the number of `Math.random()` calls made so far. -/
structure Scene where
  draws : ℕ
  santaLoaded : Bool
  platforms : List Platform
  bananas : List Banana
  powerUps : List PowerUp
  obstacles : List Obstacle
  particles : List Particles
  world : World

/-- The module-level variables of `script.js`. -/
structure State where
  scene : Scene
  orangutan : Vec3
  camera : Vec3
  maxHeight : ℚ
  score : ℤ
  heightScore : ℤ
  bonusScore : ℤ
  keys : KeyCode → Bool
  velocityY : ℚ
  jumping : Bool
  doubleJump : Bool
  moveSpeed : ℚ
  jumpVelocity : ℚ
  alive : Bool
  magnetActive : Bool
  magnetTimer : ℚ
  lastHitTime : ℚ
  highScore : ℤ
  bananasCollected : ℤ
  speedTimeouts : ℕ
  jumpTimeouts : ℕ

/-- `let gravity = -0.02` (never reassigned). -/
def gravity : ℚ := -2 / 100

/-- `let baseMoveSpeed = moveSpeed` (0.15, never reassigned). -/
def baseMoveSpeed : ℚ := 15 / 100

/-- `const hitCooldown = 0.8`. -/
def hitCooldown : ℚ := 8 / 10

/-- The value the next `Math.random()` call returns. -/
def Scene.rand (rnd : RandomSource) (w : Scene) : ℚ := (rnd w.draws).val

/-- The scene after one `Math.random()` call. -/
def Scene.next (w : Scene) : Scene := { w with draws := w.draws + 1 }

/-- JavaScript `a || b` on an optional number: `undefined` and `0` are falsy. -/
def orNum (a : Option ℚ) (b : ℚ) : ℚ :=
  match a with
  | some v => if v = 0 then b else v
  | none => b

/-! ## Particle factory and spawners -/

/-- The `for` loop of `createPickupParticles`: `n` velocities, three draws each. -/
def particleVelocities (rnd : RandomSource) : ℕ → Scene → List Vec3 × Scene
  | 0, w => ([], w)
  | n + 1, w =>
    let r1 := w.rand rnd
    let w := w.next
    let r2 := w.rand rnd
    let w := w.next
    let r3 := w.rand rnd
    let w := w.next
    let v : Vec3 := ⟨(r1 - 1 / 2) * (6 / 10), r2 * (8 / 10) + 2 / 10, (r3 - 1 / 2) * (6 / 10)⟩
    let rest := particleVelocities rnd n w
    (v :: rest.1, rest.2)

/-- `createPickupParticles(pos)`. -/
def createPickupParticles (rnd : RandomSource) (pos : Vec3) (w : Scene) : Scene :=
  let made := particleVelocities rnd 12 w
  { made.2 with
    particles := made.2.particles ++ [⟨List.replicate 12 pos, made.1, 9 / 10⟩] }

/-- The `options` argument of `spawnPlatform`. -/
structure PlatformOptions where
  type : Option PlatformType
  axis : Option Axis
  range : Option ℚ
  speed : Option ℚ

/-- `spawnPlatform(x, y, z, options)`. -/
def spawnPlatform (rnd : RandomSource) (x y z : ℚ) (options : PlatformOptions) (w : Scene) :
    Scene :=
  let count := w.world.platformCount + 1
  let w := { w with world := { w.world with platformCount := count } }
  let r1 := w.rand rnd
  let w := w.next
  let r2 := w.rand rnd
  let w := w.next
  let plat : Platform :=
    { pos := ⟨x, y, z⟩
      id := count
      type := options.type.getD PlatformType.static
      movingAxis := options.axis.getD Axis.x
      range := orNum options.range (if options.type = some PlatformType.moving then 25 / 10 else 0)
      speed := orNum options.speed (2 / 100) * (1 + r1 * (1 / 2))
      start := x
      tilt := (r2 - 1 / 2) * (15 / 100) }
  { w with platforms := w.platforms ++ [plat] }

/-- `spawnBanana(x, y, z)`. -/
def spawnBanana (x y z : ℚ) (w : Scene) : Scene :=
  { w with bananas := w.bananas ++ [⟨⟨x, y, z⟩, false⟩] }

/-- `spawnPowerUp(x, y, z, kind)`. -/
def spawnPowerUp (h : Host) (rnd : RandomSource) (x y z : ℚ) (kind : PowerUpKind) (w : Scene) :
    Scene :=
  let r := w.rand rnd
  let w := w.next
  { w with powerUps := w.powerUps ++ [⟨⟨x, y, z⟩, kind, y, r * h.pi * 2⟩] }

/-- `spawnObstacle(x, y, z, axis, range, speed)`. -/
def spawnObstacle (x y z : ℚ) (axis : Axis) (range speed : ℚ) (w : Scene) : Scene :=
  let pos : Vec3 := if w.santaLoaded then ⟨x, y + 1, z⟩ else ⟨x, y + 1 / 2, z⟩
  let obs : Obstacle :=
    { pos := pos, santa := w.santaLoaded, axis := axis, range := range, speed := speed
      start := if axis = Axis.x then x else z }
  { w with obstacles := w.obstacles ++ [obs] }

/-- `kinds[Math.floor(r * kinds.length)]` with `kinds = ['speed', 'jump', 'magnet']`; an index
outside the array gives `undefined`, which `spawnPowerUp` defaults to `'speed'`. -/
def pickKind (r : ℚ) : PowerUpKind :=
  if ⌊r * 3⌋ = 1 then PowerUpKind.jump
  else if ⌊r * 3⌋ = 2 then PowerUpKind.magnet
  else PowerUpKind.speed

/-- `Math.random() < 0.5 ? 'x' : 'z'`. -/
def pickAxis (r : ℚ) : Axis := if r < 1 / 2 then Axis.x else Axis.z

/-- `Math.random() < 0.18 ? 'moving' : 'static'`. -/
def pickType (r : ℚ) : PlatformType :=
  if r < 18 / 100 then PlatformType.moving else PlatformType.static

/-! ## Initial platforms -/

/-- In `initPlatforms`: `if (Math.random() < 0.35) spawnBanana(lastX, lastY + 0.75, lastZ)`. -/
def initBanana (rnd : RandomSource) (last : Vec3) (w : Scene) : Scene :=
  let r := w.rand rnd
  let w := w.next
  if r < 35 / 100 then spawnBanana last.x (last.y + 75 / 100) last.z w else w

/-- In `initPlatforms`: `if (Math.random() < 0.08) { ... spawnPowerUp(...) }`. -/
def initPowerUp (h : Host) (rnd : RandomSource) (last : Vec3) (w : Scene) : Scene :=
  let r := w.rand rnd
  let w := w.next
  if r < 8 / 100 then
    let rKind := w.rand rnd
    let w := w.next
    let kind := pickKind rKind
    let rx := w.rand rnd
    let w := w.next
    let rz := w.rand rnd
    let w := w.next
    spawnPowerUp h rnd (last.x + (rx - 1 / 2) * (15 / 10)) (last.y + 9 / 10)
      (last.z + (rz - 1 / 2) * (15 / 10)) kind w
  else w

/-- In `initPlatforms`: `if (Math.random() < 0.22) spawnObstacle(...)`. -/
def initObstacle (rnd : RandomSource) (last : Vec3) (w : Scene) : Scene :=
  let r := w.rand rnd
  let w := w.next
  if r < 22 / 100 then
    let rAxis := w.rand rnd
    let w := w.next
    let rRange := w.rand rnd
    let w := w.next
    let rSpeed := w.rand rnd
    let w := w.next
    spawnObstacle last.x (last.y + 1 / 2) last.z (pickAxis rAxis) (16 / 10 + rRange * (16 / 10))
      (3 / 100 + rSpeed * (5 / 100)) w
  else w

/-- The new `lastX, lastY, lastZ` of one iteration of the loop of `initPlatforms`, from the
three draws `dx`, `dz`, `dy`. -/
def initStep (rnd : RandomSource) (last : Vec3) (w : Scene) : Vec3 :=
  let rdx := (rnd w.draws).val
  let rdz := (rnd (w.draws + 1)).val
  let rdy := (rnd (w.draws + 2)).val
  let dx := rdx * 4 - 2
  let dz := rdz * 4 - 2
  let dy := 1 + rdy * (15 / 10)
  ⟨last.x + dx, last.y + dy, last.z + dz⟩

/-- One iteration of the `for` loop of `initPlatforms`; `last` holds `lastX, lastY, lastZ`. -/
def initPlatformsBody (h : Host) (rnd : RandomSource) (last : Vec3) (w : Scene) : Vec3 × Scene :=
  let last := initStep rnd last w
  let w := w.next.next.next
  let rType := w.rand rnd
  let w := w.next
  let pType := pickType rType
  let rAxis := w.rand rnd
  let w := w.next
  let rRange := w.rand rnd
  let w := w.next
  let rSpeed := w.rand rnd
  let w := w.next
  let w := spawnPlatform rnd last.x last.y last.z
    { type := some pType, axis := some (pickAxis rAxis), range := some (2 + rRange * 2)
      speed := some (15 / 1000 + rSpeed * (35 / 1000)) } w
  let w := initBanana rnd last w
  let w := initPowerUp h rnd last w
  let w := initObstacle rnd last w
  (last, w)

/-- The loop `for (let i = 1; i < 12; i++)` of `initPlatforms`, as `n` remaining iterations. -/
def initPlatformsLoop (h : Host) (rnd : RandomSource) : ℕ → Vec3 → Scene → Scene
  | 0, _, w => w
  | n + 1, last, w =>
    let r := initPlatformsBody h rnd last w
    initPlatformsLoop h rnd n r.1 r.2

/-- `initPlatforms()`. -/
def initPlatforms (h : Host) (rnd : RandomSource) (w : Scene) : Scene :=
  let w := { w with platforms := [] }
  let w := spawnPlatform rnd 0 0 0
    { type := some PlatformType.static, axis := none, range := none, speed := none } w
  initPlatformsLoop h rnd 11 ⟨0, 0, 0⟩ w

/-! ## Dynamic spawn and prune -/

/-- In `spawnAheadIfNeeded`: `if (Math.random() < 0.36) spawnBanana(newX, newY + 0.75, newZ)`. -/
def aheadBanana (rnd : RandomSource) (new : Vec3) (w : Scene) : Scene :=
  let r := w.rand rnd
  let w := w.next
  if r < 36 / 100 then spawnBanana new.x (new.y + 75 / 100) new.z w else w

/-- In `spawnAheadIfNeeded`: `if (Math.random() < 0.10) { ... spawnPowerUp(...) }`. -/
def aheadPowerUp (h : Host) (rnd : RandomSource) (new : Vec3) (w : Scene) : Scene :=
  let r := w.rand rnd
  let w := w.next
  if r < 10 / 100 then
    let rx := w.rand rnd
    let w := w.next
    let rz := w.rand rnd
    let w := w.next
    let rKind := w.rand rnd
    let w := w.next
    spawnPowerUp h rnd (new.x + (rx - 1 / 2) * (12 / 10)) (new.y + 9 / 10)
      (new.z + (rz - 1 / 2) * (12 / 10)) (pickKind rKind) w
  else w

/-- In `spawnAheadIfNeeded`: `if (Math.random() < 0.26) spawnObstacle(...)`. -/
def aheadObstacle (rnd : RandomSource) (new : Vec3) (w : Scene) : Scene :=
  let r := w.rand rnd
  let w := w.next
  if r < 26 / 100 then
    let rAxis := w.rand rnd
    let w := w.next
    let rRange := w.rand rnd
    let w := w.next
    let rSpeed := w.rand rnd
    let w := w.next
    spawnObstacle new.x (new.y + 1 / 2) new.z (pickAxis rAxis) (12 / 10 + rRange * 2)
      (3 / 100 + rSpeed * (6 / 100) + w.world.difficultyScale * (1 / 100)) w
  else w

/-- The position `newX, newY, newZ` of the platform one iteration of `spawnAheadIfNeeded`
places after `lastPlat`, from the three draws `dx`, `dz`, `dy`. -/
def aheadStep (rnd : RandomSource) (lastPlat : Platform) (w : Scene) : Vec3 :=
  let rdx := (rnd w.draws).val
  let rdz := (rnd (w.draws + 1)).val
  let rdy := (rnd (w.draws + 2)).val
  let dx := rdx * 4 - 2
  let dz := rdz * 4 - 2
  let dy := 8 / 10 + rdy * 2
  ⟨lastPlat.pos.x + dx, lastPlat.pos.y + dy, lastPlat.pos.z + dz⟩

/-- The body of the `while` loop of `spawnAheadIfNeeded` for `lastPlat`, the last element of
`platforms`, up to the update of `currentHigh`. -/
def spawnAheadBody (h : Host) (rnd : RandomSource) (lastPlat : Platform) (w : Scene) : Scene :=
  let new := aheadStep rnd lastPlat w
  let w := w.next.next.next
  let rType := w.rand rnd
  let w := w.next
  let pType := pickType rType
  let rAxis := w.rand rnd
  let w := w.next
  let axis := pickAxis rAxis
  let rRange := w.rand rnd
  let w := w.next
  let range := 16 / 10 + rRange * (24 / 10)
  let rSpeed := w.rand rnd
  let w := w.next
  let speed := (2 / 100 + rSpeed * (5 / 100)) * (1 + w.world.difficultyScale * (15 / 100))
  let w := spawnPlatform rnd new.x new.y new.z
    { type := some pType, axis := some axis, range := some range, speed := some speed } w
  let w := aheadBanana rnd new w
  let w := aheadPowerUp h rnd new w
  aheadObstacle rnd new w

/-- The height of `platforms[platforms.length - 1]`, if there is one. -/
def lastPlatformY (w : Scene) : Option ℚ := w.platforms.getLast?.map (fun p => p.pos.y)

/-- A bound on the iterations the `while` loop of `spawnAheadIfNeeded` can still make: each
one raises the last platform by at least `0.8`. -/
def spawnAheadFuel (highestY : ℚ) (w : Scene) (currentHigh : ℚ) : ℕ :=
  ⌈(highestY + w.world.spawnAhead - (lastPlatformY w).getD (highestY + w.world.spawnAhead))
      / (8 / 10)⌉₊
    + (if currentHigh < highestY + w.world.spawnAhead then 1 else 0)

set_option linter.unusedVariables false in
/-- The `while` loop of `spawnAheadIfNeeded`; `none` when `platforms[platforms.length - 1]` is
`undefined`, where reading `lastPlat.position` throws a `TypeError`. -/
def spawnAheadLoop (h : Host) (rnd : RandomSource) (highestY : ℚ) (w : Scene) (currentHigh : ℚ) :
    Option Scene :=
  if hc : currentHigh < highestY + w.world.spawnAhead then
    match hl : w.platforms.getLast? with
    | none => none
    | some lastPlat =>
      let newY := (aheadStep rnd lastPlat w).y
      spawnAheadLoop h rnd highestY (spawnAheadBody h rnd lastPlat w) (max currentHigh newY)
  else some w
termination_by spawnAheadFuel highestY w currentHigh
decreasing_by
  have hy : lastPlat.pos.y + 8 / 10 ≤ (aheadStep rnd lastPlat w).y := by
    have h0 := (rnd (w.draws + 2)).nonneg
    simp only [aheadStep]
    linarith
  have hw : (spawnAheadBody h rnd lastPlat w).world.spawnAhead = w.world.spawnAhead := by
    simp only [spawnAheadBody, aheadObstacle, aheadPowerUp, aheadBanana]
    split_ifs <;> rfl
  have hp : lastPlatformY (spawnAheadBody h rnd lastPlat w) = some (aheadStep rnd lastPlat w).y := by
    simp only [lastPlatformY, spawnAheadBody, aheadObstacle, aheadPowerUp, aheadBanana]
    split_ifs <;> simp [spawnPlatform, spawnBanana, spawnPowerUp, spawnObstacle, Scene.next]
  have hl' : lastPlatformY w = some lastPlat.pos.y := by
    simp [lastPlatformY, hl]
  simp only [spawnAheadFuel, hw, hp, hl', Option.getD_some, if_pos hc]
  generalize highestY + w.world.spawnAhead = T at hc ⊢
  generalize (aheadStep rnd lastPlat w).y = newY at hy ⊢
  generalize lastPlat.pos.y = lastY at hy ⊢
  by_cases hlt : lastY < T
  · have hpos : 0 < (T - lastY) / (8 / 10) := by
      apply div_pos <;> linarith
    have hab : (T - newY) / (8 / 10) + 1 ≤ (T - lastY) / (8 / 10) := by
      rw [← sub_nonneg]
      have : (T - lastY) / (8 / 10) - ((T - newY) / (8 / 10) + 1)
          = (newY - lastY - 8 / 10) / (8 / 10) := by ring
      rw [this]
      apply div_nonneg <;> linarith
    have h3 : ⌈(T - newY) / (8 / 10)⌉₊ + 1 ≤ ⌈(T - lastY) / (8 / 10)⌉₊ := by
      by_cases ha : (T - newY) / (8 / 10) ≤ 0
      · rw [Nat.ceil_eq_zero.mpr ha]
        exact Nat.ceil_pos.mpr hpos
      · rw [← Nat.ceil_add_one (le_of_lt (not_le.mp ha))]
        exact Nat.ceil_mono hab
    split_ifs <;> omega
  · have h1 : ⌈(T - newY) / (8 / 10)⌉₊ = 0 := by
      rw [Nat.ceil_eq_zero]
      apply div_nonpos_of_nonpos_of_nonneg <;> linarith [not_lt.mp hlt]
    have h2 : ¬ max currentHigh newY < T := by
      rw [not_lt]
      exact le_trans (by linarith [not_lt.mp hlt]) (le_max_right _ _)
    rw [h1, if_neg h2]
    omega

/-- `spawnAheadIfNeeded(highestY)`: `currentHigh` starts as `Math.max(...)` of the platform
heights, which for an empty array is `-Infinity`, so the loop is entered and throws. -/
def spawnAheadIfNeeded (h : Host) (rnd : RandomSource) (highestY : ℚ) (w : Scene) :
    Option Scene :=
  match w.platforms.map (fun p => p.pos.y) with
  | [] => none
  | y :: ys => spawnAheadLoop h rnd highestY w (ys.foldl max y)

/-- The loop `for (let i = n - 1; i >= 0; i--) body(i)`. -/
def forDown {σ : Type} : ℕ → (ℕ → σ → σ) → σ → σ
  | 0, _, s => s
  | i + 1, body, s => forDown i body (body i s)

/-- The loop body `if (xs[i].position.y < t) xs.splice(i, 1)` on a list with heights `y`. -/
def spliceBelow {α : Type} (y : α → ℚ) (t : ℚ) (i : ℕ) (xs : List α) : List α :=
  match xs[i]? with
  | some e => if y e < t then xs.eraseIdx i else xs
  | none => xs

/-- `pruneBelow(yThreshold)`. -/
def pruneBelow (yThreshold : ℚ) (w : Scene) : Scene :=
  { w with
    platforms :=
      forDown w.platforms.length (spliceBelow (fun p => p.pos.y) yThreshold) w.platforms
    bananas :=
      forDown w.bananas.length (spliceBelow (fun b => b.pos.y) yThreshold) w.bananas
    powerUps :=
      forDown w.powerUps.length (spliceBelow (fun p => p.pos.y) yThreshold) w.powerUps
    obstacles :=
      forDown w.obstacles.length (spliceBelow (fun o => o.pos.y) (yThreshold - 2)) w.obstacles }

/-! ## Input handling -/

/-- The `code` of a keyboard event. -/
inductive Code where
  | Space
  | key (k : KeyCode)
  deriving DecidableEq

/-- The `keydown` listener. -/
def keydown (e : Code) (s : State) : State :=
  match e with
  | Code.Space =>
    if !s.alive then s
    else if !s.jumping then
      { s with velocityY := s.jumpVelocity, jumping := true, doubleJump := false }
    else if !s.doubleJump then
      { s with velocityY := s.jumpVelocity, doubleJump := true }
    else s
  | Code.key k => { s with keys := fun c => if c = k then true else s.keys c }

/-- The `keyup` listener. -/
def keyup (e : Code) (s : State) : State :=
  match e with
  | Code.Space => s
  | Code.key k => { s with keys := fun c => if c = k then false else s.keys c }

/-! ## The main loop -/

/-- What one call of `animate` reads from outside the simulation: `clock.getDelta()`,
`clock.elapsedTime`, the camera position left by `controls.update()`, and the result of
`obsBox.intersectsBox(playerBox)` for an obstacle and a player position. -/
structure Frame where
  delta : ℚ
  elapsedTime : ℚ
  controls : Vec3 → Vec3
  intersects : Obstacle → Vec3 → Bool

/-- `new THREE.Vector2(x, y).normalize()`: `divideScalar(length() || 1)`. -/
def normalize2 (h : Host) (x y : ℚ) : ℚ × ℚ :=
  let l := if h.sqrt (x * x + y * y) = 0 then 1 else h.sqrt (x * x + y * y)
  (x / l, y / l)

/-- The `moveZ` of the movement block: `-1` for W or ArrowUp, `+1` for S or ArrowDown. -/
def moveZ (s : State) : ℚ :=
  let moveZ : ℚ := 0
  let moveZ := if s.keys KeyCode.KeyW || s.keys KeyCode.ArrowUp then moveZ - 1 else moveZ
  if s.keys KeyCode.KeyS || s.keys KeyCode.ArrowDown then moveZ + 1 else moveZ

/-- The `moveX` of the movement block: `-1` for A or ArrowLeft, `+1` for D or ArrowRight. -/
def moveX (s : State) : ℚ :=
  let moveX : ℚ := 0
  let moveX := if s.keys KeyCode.KeyA || s.keys KeyCode.ArrowLeft then moveX - 1 else moveX
  if s.keys KeyCode.KeyD || s.keys KeyCode.ArrowRight then moveX + 1 else moveX

/-- The movement block of `animate`. -/
def movement (h : Host) (s : State) : State :=
  if moveX s ≠ 0 ∨ moveZ s ≠ 0 then
    let normalized := normalize2 h (moveX s) (moveZ s)
    { s with orangutan :=
        ⟨s.orangutan.x + normalized.1 * s.moveSpeed, s.orangutan.y,
          s.orangutan.z + normalized.2 * s.moveSpeed⟩ }
  else s

/-- The gravity block: `velocityY += gravity; orangutan.position.y += velocityY`. -/
def applyGravity (s : State) : State :=
  let velocityY := s.velocityY + gravity
  { s with velocityY := velocityY, orangutan := s.orangutan.setY (s.orangutan.y + velocityY) }

/-- The landing test of the platform collision loop:
`withinX && withinZ && above && closeY && velocityY <= 0`. -/
def landsOn (s : State) (plat : Platform) : Bool :=
  let dx := |s.orangutan.x - plat.pos.x|
  let dz := |s.orangutan.z - plat.pos.z|
  let withinX := decide (dx < 15 / 10)
  let withinZ := decide (dz < 15 / 10)
  let above := decide (s.orangutan.y > plat.pos.y - 1 / 10)
  let closeY := decide (s.orangutan.y < plat.pos.y + 1)
  withinX && withinZ && above && closeY && decide (s.velocityY ≤ 0)

/-- The platform collision loop `for (let plat of platforms) { ... break; }`. -/
def platformCollision : List Platform → State → State
  | [], s => s
  | plat :: rest, s =>
    if landsOn s plat then
      { s with orangutan := s.orangutan.setY (plat.pos.y + 25 / 100), velocityY := 0
               jumping := false, doubleJump := false }
    else platformCollision rest s

/-- The death check: `if (orangutan.position.y < camera.position.y - 28) alive = false`. -/
def deathCheck (s : State) : State :=
  if s.orangutan.y < s.camera.y - 28 then { s with alive := false } else s

/-- The effect of a collected power-up of the given kind; the `setTimeout` calls are counted
in `speedTimeouts` and `jumpTimeouts`. -/
def applyPowerUp (kind : PowerUpKind) (s : State) : State :=
  match kind with
  | PowerUpKind.speed =>
    { s with moveSpeed := baseMoveSpeed * 2, speedTimeouts := s.speedTimeouts + 1 }
  | PowerUpKind.jump => { s with jumpVelocity := 9 / 10, jumpTimeouts := s.jumpTimeouts + 1 }
  | PowerUpKind.magnet => { s with magnetActive := true, magnetTimer := 6 }

/-- The body of the power-up loop for index `i`. -/
def powerUpBody (h : Host) (rnd : RandomSource) (f : Frame) (i : ℕ) (s : State) : State :=
  match s.scene.powerUps[i]? with
  | none => s
  | some pu =>
    let bobY := pu.spawnY + h.sin (f.elapsedTime * 2 + pu.bobOffset) * (12 / 100)
    let pu : PowerUp := { pu with pos := pu.pos.setY bobY }
    let s := { s with scene := { s.scene with powerUps := s.scene.powerUps.set i pu } }
    if dist h s.orangutan pu.pos < 1 then
      let s := applyPowerUp pu.kind s
      let s := { s with scene := createPickupParticles rnd pu.pos s.scene }
      let s := { s with scene := { s.scene with powerUps := s.scene.powerUps.eraseIdx i } }
      { s with bonusScore := s.bonusScore + 150 }
    else s

/-- The power-up loop `for (let i = powerUps.length - 1; i >= 0; i--)`. -/
def powerUpsStep (h : Host) (rnd : RandomSource) (f : Frame) (s : State) : State :=
  forDown s.scene.powerUps.length (powerUpBody h rnd f) s

/-- `collectBanana(banana)`. -/
def collectBanana (rnd : RandomSource) (banana : Banana) (s : State) : State :=
  let s := { s with bananasCollected := s.bananasCollected + 1 }
  let s := { s with bonusScore := s.bonusScore + 25 }
  { s with scene := createPickupParticles rnd banana.pos s.scene }

/-- The magnet pull on one banana, for the clamped frame time `dt`. -/
def magnetPull (h : Host) (dt : ℚ) (player : Vec3) (banana : Banana) : Banana :=
  let dir := Vec3.sub player banana.pos
  let d := dir.length h
  if d > 1 / 10 then
    let dir := (dir.normalize h).multiplyScalar (45 / 100)
    { banana with pos := banana.pos.add (dir.multiplyScalar (dt * 60 * (1 / 100))) }
  else banana

/-- The body of the banana loop for index `i`. -/
def bananaBody (h : Host) (rnd : RandomSource) (dt : ℚ) (i : ℕ) (s : State) : State :=
  match s.scene.bananas[i]? with
  | none => s
  | some banana =>
    let banana := if s.magnetActive then magnetPull h dt s.orangutan banana else banana
    let s := { s with scene := { s.scene with bananas := s.scene.bananas.set i banana } }
    if dist h s.orangutan banana.pos < 1 then
      let s := collectBanana rnd banana s
      { s with scene := { s.scene with bananas := s.scene.bananas.eraseIdx i } }
    else s

/-- The banana loop `for (let i = bananas.length - 1; i >= 0; i--)`. -/
def bananasStep (h : Host) (rnd : RandomSource) (dt : ℚ) (s : State) : State :=
  forDown s.scene.bananas.length (bananaBody h rnd dt) s

/-- The movement of one obstacle: advance along its axis, reverse `speed` past the range. -/
def moveObstacle (difficultyScale : ℤ) (obs : Obstacle) : Obstacle :=
  match obs.axis with
  | Axis.x =>
    let px := obs.pos.x + obs.speed * (1 + difficultyScale * (1 / 10))
    let obs := { obs with pos := ⟨px, obs.pos.y, obs.pos.z⟩ }
    if |obs.pos.x - obs.start| > obs.range then { obs with speed := obs.speed * -1 } else obs
  | Axis.z =>
    let pz := obs.pos.z + obs.speed * (1 + difficultyScale * (1 / 10))
    let obs := { obs with pos := ⟨obs.pos.x, obs.pos.y, pz⟩ }
    if |obs.pos.z - obs.start| > obs.range then { obs with speed := obs.speed * -1 } else obs

/-- The collision block for one obstacle (already moved). -/
def hitObstacle (h : Host) (rnd : RandomSource) (f : Frame) (obs : Obstacle) (s : State) :
    State :=
  if f.intersects obs s.orangutan then
    let heightDiff := |s.orangutan.y - obs.pos.y|
    if heightDiff < 12 / 10 then
      let knock := (((Vec3.sub s.orangutan obs.pos).setY 0).normalize h).multiplyScalar (6 / 10)
      let s := { s with orangutan := s.orangutan.add knock }
      let s := { s with orangutan := s.orangutan.setY (s.orangutan.y + 25 / 100) }
      let s := { s with velocityY := 1 / 10 }
      { s with scene := createPickupParticles rnd s.orangutan s.scene }
    else s
  else s

/-- The loop `for (let obs of obstacles)` over the obstacles from index `i` on. -/
def obstaclesLoop (h : Host) (rnd : RandomSource) (f : Frame) : ℕ → ℕ → State → State
  | 0, _, s => s
  | n + 1, i, s =>
    match s.scene.obstacles[i]? with
    | none => s
    | some obs =>
      let obs := moveObstacle s.scene.world.difficultyScale obs
      let s := { s with scene := { s.scene with obstacles := s.scene.obstacles.set i obs } }
      obstaclesLoop h rnd f n (i + 1) (hitObstacle h rnd f obs s)

/-- The obstacle movement and collision block. -/
def obstaclesStep (h : Host) (rnd : RandomSource) (f : Frame) (s : State) : State :=
  obstaclesLoop h rnd f s.scene.obstacles.length 0 s

/-- The movement of one platform in the `moving` loop. -/
def movePlatform (difficultyScale : ℤ) (plat : Platform) : Platform :=
  match plat.type with
  | PlatformType.moving =>
    match plat.movingAxis with
    | Axis.x =>
      let px := plat.pos.x + plat.speed * (1 + difficultyScale * (8 / 100))
      let plat := { plat with pos := ⟨px, plat.pos.y, plat.pos.z⟩ }
      if |plat.pos.x - plat.start| > plat.range then { plat with speed := plat.speed * -1 }
      else plat
    | Axis.z =>
      let pz := plat.pos.z + plat.speed * (1 + difficultyScale * (8 / 100))
      let plat := { plat with pos := ⟨plat.pos.x, plat.pos.y, pz⟩ }
      if |plat.pos.z - plat.start| > plat.range then { plat with speed := plat.speed * -1 }
      else plat
  | PlatformType.static => plat

/-- The loop `for (let plat of platforms)` that moves the platforms of type `'moving'`. -/
def movePlatforms (s : State) : State :=
  { s with scene := { s.scene with
      platforms := s.scene.platforms.map (movePlatform s.scene.world.difficultyScale) } }

/-- The camera follow: `camera.position.lerp(orangutan.position + (0, 6, 12), 0.08)`. -/
def cameraFollow (s : State) : State :=
  { s with camera := s.camera.lerp (s.orangutan.add ⟨0, 6, 12⟩) (8 / 100) }

/-- The height-based scoring block, with the dynamic difficulty. -/
def heightScoring (s : State) : State :=
  if s.orangutan.y > s.maxHeight then
    let heightGain := s.orangutan.y - s.maxHeight
    let s := { s with maxHeight := s.orangutan.y }
    let heightPoints := ⌊heightGain * 50⌋
    let s := { s with score := s.score + heightPoints }
    let s := { s with heightScore := s.heightScore + heightPoints }
    { s with scene := { s.scene with
        world := { s.scene.world with difficultyScale := ⌊s.maxHeight / 12⌋ } } }
  else s

/-- The total score and high score block: `score = heightScore + bonusScore`, then
`if (score > highScore) highScore = score`. -/
def updateScore (s : State) : State :=
  let s := { s with score := s.heightScore + s.bonusScore }
  if s.score > s.highScore then { s with highScore := s.score } else s

/-- The magnet timer block. -/
def magnetTick (dt : ℚ) (s : State) : State :=
  if s.magnetActive then
    let s := { s with magnetTimer := s.magnetTimer - dt }
    if s.magnetTimer ≤ 0 then { s with magnetActive := false } else s
  else s

/-- The update of one particle burst: `life -= dt`, each position moved by its velocity, each
velocity pulled down by `gravity * 0.6`. -/
def updateParticles (dt : ℚ) (p : Particles) : Particles :=
  { life := p.life - dt
    positions := (p.positions.zip p.velocities).map
        (fun pv => pv.1.add (pv.2.multiplyScalar (dt * 12)))
      ++ p.positions.drop p.velocities.length
    velocities := p.velocities.map (fun v => ⟨v.x, v.y + gravity * (6 / 10), v.z⟩) }

/-- The body of the particle loop for index `i`. -/
def particleBody (dt : ℚ) (i : ℕ) (ps : List Particles) : List Particles :=
  match ps[i]? with
  | none => ps
  | some p =>
    let p := updateParticles dt p
    let ps := ps.set i p
    if p.life ≤ 0 then ps.eraseIdx i else ps

/-- The particle loop `for (let i = particles.length - 1; i >= 0; i--)`. -/
def particlesStep (dt : ℚ) (s : State) : State :=
  { s with scene := { s.scene with
      particles := forDown s.scene.particles.length (particleBody dt) s.scene.particles } }

/-- The blocks of `animate` before the death check: movement, gravity, platform collision. -/
def integrate (h : Host) (s : State) : State :=
  let s := movement h s
  let s := applyGravity s
  platformCollision s.scene.platforms s

/-- The blocks of `animate` between the death check and the scoring: power-ups, bananas,
obstacles, moving platforms, camera follow. -/
def interact (h : Host) (rnd : RandomSource) (f : Frame) (dt : ℚ) (s : State) : State :=
  let s := powerUpsStep h rnd f s
  let s := bananasStep h rnd dt s
  let s := obstaclesStep h rnd f s
  let s := movePlatforms s
  cameraFollow s

/-- The part of the `if (orangutan && alive)` block before the spawn and prune calls. -/
def simulate (h : Host) (rnd : RandomSource) (f : Frame) (dt : ℚ) (s : State) : State :=
  let s := integrate h s
  let s := deathCheck s
  let s := interact h rnd f dt s
  let s := heightScoring s
  let s := updateScore s
  magnetTick dt s

/-- The spawn and prune calls at the end of the `if (orangutan && alive)` block:
`spawnAheadIfNeeded(maxHeight); pruneBelow(maxHeight + world.pruneBelow)`; `none` when
`spawnAheadIfNeeded` throws. -/
def spawnAndPrune (h : Host) (rnd : RandomSource) (s : State) : Option State :=
  match spawnAheadIfNeeded h rnd s.maxHeight s.scene with
  | none => none
  | some w => some { s with scene := pruneBelow (s.maxHeight + w.world.pruneBelow) w }

/-- The state in which `animate` reaches the `if (orangutan && alive)` test: `controls.update()`
has run. -/
def afterControls (f : Frame) (s : State) : State := { s with camera := f.controls s.camera }

/-- The end of the `if (orangutan && alive)` block and the particle loop after it. An exception
thrown by `spawnAheadIfNeeded` ends the call of `animate` with the state as it is then. -/
def finishFrame (h : Host) (rnd : RandomSource) (dt : ℚ) (s : State) : State :=
  match spawnAndPrune h rnd s with
  | none => s
  | some s => particlesStep dt s

/-- One call of `animate()`. -/
def animate (h : Host) (rnd : RandomSource) (f : Frame) (s : State) : State :=
  let dt := min f.delta (5 / 100)
  let s := afterControls f s
  if s.alive then finishFrame h rnd dt (simulate h rnd f dt s)
  else particlesStep dt s

/-! ## Asynchronous callbacks and runs -/

/-- The callback of `setTimeout(() => { moveSpeed = baseMoveSpeed; }, 6000)`. -/
def speedTimeout (s : State) : State :=
  if 0 < s.speedTimeouts then
    { s with moveSpeed := baseMoveSpeed, speedTimeouts := s.speedTimeouts - 1 }
  else s

/-- The callback of `setTimeout(() => { jumpVelocity = 0.6; }, 6000)`. -/
def jumpTimeout (s : State) : State :=
  if 0 < s.jumpTimeouts then
    { s with jumpVelocity := 6 / 10, jumpTimeouts := s.jumpTimeouts - 1 }
  else s

/-- The load callback of the obstacle model: `santaLoaded = true; initPlatforms()`. -/
def santaLoad (h : Host) (rnd : RandomSource) (s : State) : State :=
  if s.scene.santaLoaded then s
  else { s with scene := initPlatforms h rnd { s.scene with santaLoaded := true } }

/-- What can happen after the player model has loaded. -/
inductive Event where
  | frame (f : Frame)
  | keydown (e : Code)
  | keyup (e : Code)
  | speedTimeout
  | jumpTimeout
  | santaLoad

/-- The effect of one event. -/
def step (h : Host) (rnd : RandomSource) (ev : Event) (s : State) : State :=
  match ev with
  | Event.frame f => animate h rnd f s
  | Event.keydown e => keydown e s
  | Event.keyup e => keyup e s
  | Event.speedTimeout => speedTimeout s
  | Event.jumpTimeout => jumpTimeout s
  | Event.santaLoad => santaLoad h rnd s

/-- The values read from `localStorage` at start-up and the camera position when the player
model finishes loading. -/
structure Boot where
  bananasCollected : ℤ
  highScore : ℤ
  camera : Vec3

/-- The state when the player model has loaded: the module-level initial values, the
top-level call `initPlatforms()`, then `orangutan.position.set(0, 1, 0)` and
`maxHeight = orangutan.position.y`. -/
def initialState (h : Host) (rnd : RandomSource) (b : Boot) : State :=
  { scene := initPlatforms h rnd
      { draws := 0, santaLoaded := false, platforms := [], bananas := [], powerUps := []
        obstacles := [], particles := []
        world := { spawnAhead := 60, pruneBelow := -20, platformCount := 0
                   difficultyScale := 1 } }
    orangutan := ⟨0, 1, 0⟩
    camera := b.camera
    maxHeight := 1
    score := 0
    heightScore := 0
    bonusScore := 0
    keys := fun _ => false
    velocityY := 0
    jumping := false
    doubleJump := false
    moveSpeed := 15 / 100
    jumpVelocity := 6 / 10
    alive := true
    magnetActive := false
    magnetTimer := 0
    lastHitTime := -999
    highScore := b.highScore
    bananasCollected := b.bananasCollected
    speedTimeouts := 0
    jumpTimeouts := 0 }

/-- The states a run can reach. -/
inductive Reachable (h : Host) (rnd : RandomSource) (b : Boot) : State → Prop where
  | init : Reachable h rnd b (initialState h rnd b)
  | step (ev : Event) {s : State} : Reachable h rnd b s → Reachable h rnd b (step h rnd ev s)

/-- The state after a sequence of events. -/
def run (h : Host) (rnd : RandomSource) (evs : List Event) (s : State) : State :=
  evs.foldl (fun s ev => step h rnd ev s) s

/-! ## Fixtures, predicates and invariants used by the theorems -/

/-- The platform that one iteration of `spawnAheadIfNeeded` appends. -/
def aheadPlatform (rnd : RandomSource) (lastPlat : Platform) (w : Scene) : Platform :=
  { pos := aheadStep rnd lastPlat w
    id := w.world.platformCount + 1
    type := pickType (rnd (w.draws + 3)).val
    movingAxis := pickAxis (rnd (w.draws + 4)).val
    range := orNum (some (16 / 10 + (rnd (w.draws + 5)).val * (24 / 10)))
      (if pickType (rnd (w.draws + 3)).val = PlatformType.moving then 25 / 10 else 0)
    speed := orNum (some ((2 / 100 + (rnd (w.draws + 6)).val * (5 / 100))
      * (1 + w.world.difficultyScale * (15 / 100)))) (2 / 100)
      * (1 + (rnd (w.draws + 7)).val * (1 / 2))
    start := (aheadStep rnd lastPlat w).x
    tilt := ((rnd (w.draws + 8)).val - 1 / 2) * (15 / 100) }

/-- A host whose `sin` is constantly `0` and whose `sqrt` is the identity (exact on `0` and
`1`); enough to run the code on concrete inputs. -/
def testHost : Host := ⟨22 / 7, fun _ => 0, fun x => x⟩

/-- The random stream in which every draw is `0.5`. -/
def midDraws : RandomSource := fun _ => ⟨1 / 2, by norm_num, by norm_num⟩

/-- No stored bananas or high score; the camera at its initial position `(0, 6, 12)`. -/
def testBoot : Boot := ⟨0, 0, ⟨0, 6, 12⟩⟩

/-- A frame of 1/60 s in which OrbitControls leaves the camera in place and no bounding
boxes intersect. -/
def stillFrame : Frame := ⟨1 / 60, 0, fun c => c, fun _ _ => false⟩

/-- The landing scenario of the specification: a platform at height 2 directly below the
player, who is at height 2.5 with `velocityY = -0.28` before the gravity block. -/
def landingScenario : State :=
  { initialState testHost midDraws testBoot with
    scene :=
      { draws := 0, santaLoaded := false
        platforms := [⟨⟨0, 2, 0⟩, 1, PlatformType.static, Axis.x, 0, 2 / 100, 0, 0⟩]
        bananas := [], powerUps := [], obstacles := [], particles := []
        world := ⟨60, -20, 1, 1⟩ }
    orangutan := ⟨0, 25 / 10, 0⟩
    velocityY := -28 / 100
    jumping := true }

/-- The offset of platform `b` from platform `a` is within the generator's bounds:
`0.8 <= dy <= 2.8`, `|dx| <= 2`, `|dz| <= 2`. -/
def StepOk (a b : Platform) : Prop :=
  8 / 10 ≤ b.pos.y - a.pos.y ∧ b.pos.y - a.pos.y ≤ 28 / 10
    ∧ |b.pos.x - a.pos.x| ≤ 2 ∧ |b.pos.z - a.pos.z| ≤ 2

/-- The fields that the power-up, banana and obstacle blocks never write. -/
structure Keeps (s s' : State) : Prop where
  alive : s'.alive = s.alive
  platforms : s'.scene.platforms = s.scene.platforms
  world : s'.scene.world = s.scene.world
  santaLoaded : s'.scene.santaLoaded = s.scene.santaLoaded
  maxHeight : s'.maxHeight = s.maxHeight
  heightScore : s'.heightScore = s.heightScore
  score : s'.score = s.score
  highScore : s'.highScore = s.highScore
  camera : s'.camera = s.camera
  keys : s'.keys = s.keys
  jumping : s'.jumping = s.jumping
  doubleJump : s'.doubleJump = s.doubleJump
  lastHitTime : s'.lastHitTime = s.lastHitTime

/-- State `s'` is dead and agrees with `s` on the player's position, vertical velocity and
jump flags, on the scores, `maxHeight` and `difficultyScale`, and on the four entity lists. -/
structure Frozen (s s' : State) : Prop where
  alive : s'.alive = false
  orangutan : s'.orangutan = s.orangutan
  velocityY : s'.velocityY = s.velocityY
  jumping : s'.jumping = s.jumping
  doubleJump : s'.doubleJump = s.doubleJump
  heightScore : s'.heightScore = s.heightScore
  bonusScore : s'.bonusScore = s.bonusScore
  score : s'.score = s.score
  maxHeight : s'.maxHeight = s.maxHeight
  difficultyScale : s'.scene.world.difficultyScale = s.scene.world.difficultyScale
  platforms : s'.scene.platforms = s.scene.platforms
  bananas : s'.scene.bananas = s.scene.bananas
  powerUps : s'.scene.powerUps = s.scene.powerUps
  obstacles : s'.scene.obstacles = s.scene.obstacles

/-- A player standing on the platform of `landingScenario` with the camera 100 units up. -/
def fallScenario : State := { landingScenario with camera := ⟨0, 100, 12⟩ }

/-- The options of a platform that moves along `z` with range 2 and base speed 0.04. -/
def movingAlongZ : PlatformOptions :=
  { type := some PlatformType.moving, axis := some Axis.z, range := some 2
    speed := some (4 / 100) }

/-- The obstacle's coordinate on its motion axis. -/
def Obstacle.coord (o : Obstacle) : ℚ :=
  match o.axis with
  | Axis.x => o.pos.x
  | Axis.z => o.pos.z

/-- The obstacle after successive ticks, given the value of `world.difficultyScale` in each. -/
def driveObstacle (ds : List ℤ) (o : Obstacle) : Obstacle :=
  ds.foldl (fun o d => moveObstacle d o) o

/-- One tick of an oscillation on a line: position `pv.1`, speed `pv.2`, anchor `a`, range
`r`, speed factor `c`. -/
def bounce (a r c : ℚ) (pv : ℚ × ℚ) : ℚ × ℚ :=
  (pv.1 + pv.2 * c, if |pv.1 + pv.2 * c - a| > r then pv.2 * -1 else pv.2)

/-- The oscillation invariant: the speed has magnitude `v`, and the position is within the
range, or beyond it by at most `e` and heading back. -/
def Swinging (a r v e : ℚ) (pv : ℚ × ℚ) : Prop :=
  |pv.2| = v ∧
    (|pv.1 - a| ≤ r ∨ (r < pv.1 - a ∧ pv.1 - a ≤ r + e ∧ pv.2 ≤ 0)
      ∨ (r < a - pv.1 ∧ a - pv.1 ≤ r + e ∧ 0 ≤ pv.2))

/-- Platform `b` is at least 0.8 higher than platform `a`. -/
def Climb (a b : Platform) : Prop := a.pos.y + 8 / 10 ≤ b.pos.y

/-- The invariant of the platform list over a run: it is non-empty, every later platform is at
least 0.8 higher than every earlier one, every platform is below `maxHeight + 60 + 2.8`, and
`world.spawnAhead`, `world.pruneBelow` keep their initial values. -/
structure WorldInv (s : State) : Prop where
  nonempty : s.scene.platforms ≠ []
  climb : s.scene.platforms.Pairwise Climb
  below : ∀ p ∈ s.scene.platforms, p.pos.y < s.maxHeight + 60 + 28 / 10
  spawnAhead : s.scene.world.spawnAhead = 60
  pruneBelow : s.scene.world.pruneBelow = -20
  maxHeight : 1 ≤ s.maxHeight

/-- The state of a tick of a live run when the power-up loop starts: `controls.update()`,
movement, gravity, platform collision and the death check have run. -/
def atPowerUps (h : Host) (f : Frame) (s : State) : State :=
  deathCheck (integrate h (afterControls f s))

/-- The state of a tick of a live run when the banana loop starts. -/
def atBananas (h : Host) (rnd : RandomSource) (f : Frame) (s : State) : State :=
  powerUpsStep h rnd f (atPowerUps h f s)

/-- The state of a tick of a live run when the height-based scoring block starts. -/
def atScoring (h : Host) (rnd : RandomSource) (f : Frame) (s : State) : State :=
  interact h rnd f (min f.delta (5 / 100)) (atPowerUps h f s)

/-- The power-up as the power-up loop tests it: its `y` set to the bobbing height. -/
def bobbed (h : Host) (f : Frame) (pu : PowerUp) : PowerUp :=
  { pu with pos := pu.pos.setY (pu.spawnY + h.sin (f.elapsedTime * 2 + pu.bobOffset) * (12 / 100)) }

/-- The power-up loop collects this power-up: after bobbing, its distance to the player is
below 1. -/
def powerUpTaken (h : Host) (f : Frame) (player : Vec3) (pu : PowerUp) : Bool :=
  decide (dist h player (bobbed h f pu).pos < 1)

/-- The power-up loop collects this power-up and its kind is `'magnet'`. -/
def magnetTaken (h : Host) (f : Frame) (player : Vec3) (pu : PowerUp) : Bool :=
  powerUpTaken h f player pu && decide (pu.kind = PowerUpKind.magnet)

/-- The banana as it is at its collision check: pulled towards the player if the magnet is
active. -/
def bananaAtCheck (h : Host) (dt : ℚ) (player : Vec3) (magnet : Bool) (b : Banana) : Banana :=
  if magnet then magnetPull h dt player b else b

/-- The collision check of the banana loop: the distance to the player is below 1. -/
def inReach (h : Host) (player : Vec3) (b : Banana) : Bool :=
  decide (dist h player b.pos < 1)

/-- The number of power-ups that a tick of a live run collects. -/
def powerUpsTaken (h : Host) (f : Frame) (s : State) : ℕ :=
  (atPowerUps h f s).scene.powerUps.countP (powerUpTaken h f (atPowerUps h f s).orangutan)

/-- The number of bananas that a tick of a live run collects. -/
def bananasTaken (h : Host) (rnd : RandomSource) (f : Frame) (s : State) : ℕ :=
  ((atBananas h rnd f s).scene.bananas.map
      (bananaAtCheck h (min f.delta (5 / 100)) (atBananas h rnd f s).orangutan
        (atBananas h rnd f s).magnetActive)).countP
    (inReach h (atBananas h rnd f s).orangutan)

/-- A host whose `sqrt` is exact on the squared distances that occur in the scenarios below
(1/4, 169/400, 1/25, 289/400, and 0 and 1), and whose `sin` is constantly `0`. -/
def tableHost : Host :=
  ⟨22 / 7, fun _ => 0, fun x =>
    if x = 1 / 4 then 1 / 2
    else if x = 169 / 400 then 13 / 20
    else if x = 1 / 25 then 1 / 5
    else if x = 289 / 400 then 17 / 20
    else x⟩

/-- The player of `landingScenario`, with `maxHeight` already at 2.5, and one banana 0.75 above
the platform he lands on (0.5 from the player after landing). -/
def bananaScenario : State :=
  { landingScenario with
    scene := { landingScenario.scene with bananas := [⟨⟨0, 275 / 100, 0⟩, false⟩] }
    maxHeight := 25 / 10 }

/-- The `bananaScenario` with, in addition, a `'speed'` power-up 0.9 above the platform (0.65
from the player after landing). -/
def pickupScenario : State :=
  { bananaScenario with
    scene :=
      { bananaScenario.scene with
        powerUps := [⟨⟨0, 29 / 10, 0⟩, PowerUpKind.speed, 29 / 10, 0⟩] } }

/-- The player of `landingScenario` with a `'magnet'` power-up within reach and the given
magnet state. -/
def magnetScenario (active : Bool) (timer : ℚ) : State :=
  { landingScenario with
    scene :=
      { landingScenario.scene with
        powerUps := [⟨⟨0, 29 / 10, 0⟩, PowerUpKind.magnet, 29 / 10, 0⟩] }
    maxHeight := 25 / 10
    magnetActive := active
    magnetTimer := timer }

/-- A tick like `animate`, for a live run in which `spawnAheadIfNeeded` finds the frontier far
enough ahead and so spawns nothing. -/
def animateNoSpawn (h : Host) (rnd : RandomSource) (f : Frame) (s : State) : State :=
  let dt := min f.delta (5 / 100)
  let s := simulate h rnd f dt (afterControls f s)
  particlesStep dt { s with scene := pruneBelow (s.maxHeight + s.scene.world.pruneBelow) s.scene }

/-- A player about to land on a platform at height 2, at `difficultyScale` 0 with `maxHeight` 5;
a second platform at height 70; and on the first platform a box obstacle (centre 1 above the
platform) moving along `x` at speed 0.05, 0.15 to the side of the player. -/
def hitScenario : State :=
  { landingScenario with
    scene :=
      { draws := 0, santaLoaded := false
        platforms := [⟨⟨0, 2, 0⟩, 1, PlatformType.static, Axis.x, 0, 2 / 100, 0, 0⟩,
                      ⟨⟨0, 70, 0⟩, 2, PlatformType.static, Axis.x, 0, 2 / 100, 0, 0⟩]
        bananas := [], powerUps := []
        obstacles := [⟨⟨15 / 100, 3, 0⟩, false, Axis.x, 2, 5 / 100, 15 / 100⟩]
        particles := []
        world := ⟨60, -20, 2, 0⟩ }
    maxHeight := 5 }

/-- A frame of 1/60 s at clock time `t` in which the bounding boxes of an obstacle and the
player intersect when their centres are at most 1 apart in `x` and `z` and 1.5 in `y`. -/
def overlapFrame (t : ℚ) : Frame :=
  ⟨1 / 60, t, fun c => c, fun o p =>
    decide (|o.pos.x - p.x| ≤ 1) && decide (|o.pos.z - p.z| ≤ 1)
      && decide (|o.pos.y - p.y| ≤ 15 / 10)⟩

/-! # Theorems -/

/-! ## Frame properties of the spawners -/

section SpawnFrame

variable (h : Host) (rnd : RandomSource)

@[simp] theorem Scene.next_platforms (w : Scene) : w.next.platforms = w.platforms := rfl
@[simp] theorem Scene.next_world (w : Scene) : w.next.world = w.world := rfl
@[simp] theorem Scene.next_draws (w : Scene) : w.next.draws = w.draws + 1 := rfl

@[simp] theorem spawnPlatform_world_spawnAhead (x y z : ℚ) (o : PlatformOptions) (w : Scene) :
    (spawnPlatform rnd x y z o w).world.spawnAhead = w.world.spawnAhead := rfl

@[simp] theorem spawnBanana_platforms (x y z : ℚ) (w : Scene) :
    (spawnBanana x y z w).platforms = w.platforms := rfl
@[simp] theorem spawnBanana_world (x y z : ℚ) (w : Scene) :
    (spawnBanana x y z w).world = w.world := rfl
@[simp] theorem spawnPowerUp_platforms (x y z : ℚ) (k : PowerUpKind) (w : Scene) :
    (spawnPowerUp h rnd x y z k w).platforms = w.platforms := rfl
@[simp] theorem spawnPowerUp_world (x y z : ℚ) (k : PowerUpKind) (w : Scene) :
    (spawnPowerUp h rnd x y z k w).world = w.world := rfl
@[simp] theorem spawnObstacle_platforms (x y z : ℚ) (a : Axis) (r v : ℚ) (w : Scene) :
    (spawnObstacle x y z a r v w).platforms = w.platforms := rfl
@[simp] theorem spawnObstacle_world (x y z : ℚ) (a : Axis) (r v : ℚ) (w : Scene) :
    (spawnObstacle x y z a r v w).world = w.world := rfl

@[simp] theorem aheadBanana_platforms (p : Vec3) (w : Scene) :
    (aheadBanana rnd p w).platforms = w.platforms := by
  unfold aheadBanana; dsimp only; split <;> rfl
@[simp] theorem aheadBanana_world (p : Vec3) (w : Scene) :
    (aheadBanana rnd p w).world = w.world := by
  unfold aheadBanana; dsimp only; split <;> rfl
@[simp] theorem aheadPowerUp_platforms (p : Vec3) (w : Scene) :
    (aheadPowerUp h rnd p w).platforms = w.platforms := by
  unfold aheadPowerUp; dsimp only; split <;> rfl
@[simp] theorem aheadPowerUp_world (p : Vec3) (w : Scene) :
    (aheadPowerUp h rnd p w).world = w.world := by
  unfold aheadPowerUp; dsimp only; split <;> rfl
@[simp] theorem aheadObstacle_platforms (p : Vec3) (w : Scene) :
    (aheadObstacle rnd p w).platforms = w.platforms := by
  unfold aheadObstacle; dsimp only; split <;> rfl
@[simp] theorem aheadObstacle_world (p : Vec3) (w : Scene) :
    (aheadObstacle rnd p w).world = w.world := by
  unfold aheadObstacle; dsimp only; split <;> rfl

theorem spawnAheadBody_platforms (lastPlat : Platform) (w : Scene) :
    (spawnAheadBody h rnd lastPlat w).platforms = w.platforms ++ [aheadPlatform rnd lastPlat w] := by
  simp [spawnAheadBody, spawnPlatform, aheadPlatform, Scene.rand, Scene.next]

theorem spawnAheadBody_spawnAhead (lastPlat : Platform) (w : Scene) :
    (spawnAheadBody h rnd lastPlat w).world.spawnAhead = w.world.spawnAhead := by
  simp [spawnAheadBody]

theorem aheadStep_y (lastPlat : Platform) (w : Scene) :
    lastPlat.pos.y + 8 / 10 ≤ (aheadStep rnd lastPlat w).y ∧
      (aheadStep rnd lastPlat w).y < lastPlat.pos.y + 28 / 10 := by
  have h0 := (rnd (w.draws + 2)).nonneg
  have h1 := (rnd (w.draws + 2)).lt_one
  simp only [aheadStep]
  constructor <;> linarith

end SpawnFrame

/-! ## Pruning is filtering -/

theorem forDown_spliceBelow {α : Type} (y : α → ℚ) (t : ℚ) :
    ∀ (n : ℕ) (xs : List α), n ≤ xs.length →
      forDown n (spliceBelow y t) xs
        = (xs.take n).filter (fun e => decide (t ≤ y e)) ++ xs.drop n := by
  intro n
  induction n with
  | zero => intro xs _; simp [forDown]
  | succ n ih =>
    intro xs hn
    have hlt : n < xs.length := hn
    have hget : xs[n]? = some xs[n] := List.getElem?_eq_getElem hlt
    have htake : xs.take (n + 1) = xs.take n ++ [xs[n]] := by
      rw [List.take_succ, hget]; rfl
    simp only [forDown, spliceBelow, hget]
    by_cases hy : y xs[n] < t
    · rw [if_pos hy, ih _ (by rw [List.length_eraseIdx]; simp [hlt]; omega)]
      have h1 : (xs.eraseIdx n).take n = xs.take n := by
        rw [List.eraseIdx_eq_take_drop_succ, List.take_append_of_le_length (by simp; omega)]
        simp [List.take_take]
      have h2 : (xs.eraseIdx n).drop n = xs.drop (n + 1) := by
        rw [List.eraseIdx_eq_take_drop_succ]
        rw [List.drop_append_of_le_length (by simp; omega)]
        simp [List.drop_take]
      rw [h1, h2, htake, List.filter_append]
      simp [not_le.mpr hy]
    · rw [if_neg hy, ih _ (le_of_lt hlt), htake, List.filter_append]
      have hd : xs.drop n = xs[n] :: xs.drop (n + 1) := List.drop_eq_getElem_cons hlt
      rw [hd]
      simp [not_lt.mp hy]

theorem forDown_spliceBelow_length {α : Type} (y : α → ℚ) (t : ℚ) (xs : List α) :
    forDown xs.length (spliceBelow y t) xs = xs.filter (fun e => decide (t ≤ y e)) := by
  rw [forDown_spliceBelow y t xs.length xs le_rfl]
  simp

theorem pruneBelow_eq_filter (t : ℚ) (w : Scene) :
    pruneBelow t w =
      { w with
        platforms := w.platforms.filter (fun p => decide (t ≤ p.pos.y))
        bananas := w.bananas.filter (fun b => decide (t ≤ b.pos.y))
        powerUps := w.powerUps.filter (fun p => decide (t ≤ p.pos.y))
        obstacles := w.obstacles.filter (fun o => decide (t - 2 ≤ o.pos.y)) } := by
  simp only [pruneBelow, forDown_spliceBelow_length]

/-- Claim C7: `pruneBelow(t)` keeps exactly the platforms, bananas and power-ups with `y >= t`
and exactly the obstacles with `y >= t - 2`, each list in its original order (it is a filter of
each list); so an entity is in a list afterwards exactly when it was there before with its
height at or above the list's threshold. -/
theorem C7_pruneBelow_is_filter (t : ℚ) (w : Scene) :
    pruneBelow t w =
        { w with
          platforms := w.platforms.filter (fun p => decide (t ≤ p.pos.y))
          bananas := w.bananas.filter (fun b => decide (t ≤ b.pos.y))
          powerUps := w.powerUps.filter (fun p => decide (t ≤ p.pos.y))
          obstacles := w.obstacles.filter (fun o => decide (t - 2 ≤ o.pos.y)) }
      ∧ (∀ p, p ∈ (pruneBelow t w).platforms ↔ p ∈ w.platforms ∧ t ≤ p.pos.y)
      ∧ (∀ b, b ∈ (pruneBelow t w).bananas ↔ b ∈ w.bananas ∧ t ≤ b.pos.y)
      ∧ (∀ p, p ∈ (pruneBelow t w).powerUps ↔ p ∈ w.powerUps ∧ t ≤ p.pos.y)
      ∧ (∀ o, o ∈ (pruneBelow t w).obstacles ↔ o ∈ w.obstacles ∧ t - 2 ≤ o.pos.y) := by
  have key := pruneBelow_eq_filter t w
  refine ⟨key, ?_, ?_, ?_, ?_⟩ <;> intro e <;> rw [key] <;> simp [List.mem_filter]

/-! ## The jump arc -/

theorem applyGravity_iterate (s : State) (k : ℕ) :
    (applyGravity^[k] s).velocityY = s.velocityY + k * gravity ∧
      (applyGravity^[k] s).orangutan.y
        = s.orangutan.y + k * s.velocityY + gravity * (k * (k + 1) / 2) := by
  induction k with
  | zero => simp
  | succ k ih =>
    rw [Function.iterate_succ_apply']
    obtain ⟨hv, hy⟩ := ih
    simp only [applyGravity, Vec3.setY, hv, hy]
    push_cast
    constructor <;> ring

theorem jump_sum (k : ℕ) :
    ∑ i in Finset.range k, ((6 : ℚ) / 10 - 2 / 100 * (i + 1))
      = k * (6 / 10) + gravity * (k * (k + 1) / 2) := by
  induction k with
  | zero => simp
  | succ k ih =>
    rw [Finset.sum_range_succ, ih]
    simp only [gravity]
    push_cast
    ring

theorem jump_gain_le (k : ℕ) :
    (k : ℚ) * (6 / 10) + gravity * (k * (k + 1) / 2) ≤ 87 / 10 := by
  have hk : (0 : ℚ) ≤ ((k : ℚ) - 29) * ((k : ℚ) - 30) := by
    rcases Nat.lt_or_ge k 30 with h | h
    · have h1 : (k : ℚ) ≤ 29 := by exact_mod_cast Nat.lt_succ_iff.mp h
      exact mul_nonneg_of_nonpos_of_nonpos (by linarith) (by linarith)
    · have h1 : (30 : ℚ) ≤ k := by exact_mod_cast h
      exact mul_nonneg (by linarith) (by linarith)
  simp only [gravity]
  nlinarith [hk]

/-- Claim C6: a jump started by the Space handler from a standing player (`velocityY := 0.6`),
integrated by the tick's rule `velocityY += gravity; y += velocityY` with no landing or hit,
is after `k` ticks at the take-off height plus the sum of `0.6 - 0.02 i` for `i = 1..k`; it is
exactly 8.7 above the take-off height after 30 ticks and never higher; and 8.7 is strictly
greater than 2.8, which bounds the vertical offset of every generated platform from the one
before it. -/
theorem C6_jump_peak_exceeds_max_gap (s : State) (halive : s.alive = true)
    (hstanding : s.jumping = false) (hjump : s.jumpVelocity = 6 / 10) :
    (keydown Code.Space s).velocityY = 6 / 10
      ∧ (∀ k : ℕ, (applyGravity^[k] (keydown Code.Space s)).orangutan.y
          = s.orangutan.y + ∑ i in Finset.range k, ((6 : ℚ) / 10 - 2 / 100 * (i + 1)))
      ∧ (applyGravity^[30] (keydown Code.Space s)).orangutan.y = s.orangutan.y + 87 / 10
      ∧ (∀ k : ℕ, (applyGravity^[k] (keydown Code.Space s)).orangutan.y
          ≤ s.orangutan.y + 87 / 10)
      ∧ (∀ (rnd : RandomSource) (lastPlat : Platform) (w : Scene),
          (aheadStep rnd lastPlat w).y - lastPlat.pos.y ≤ 28 / 10)
      ∧ (∀ (rnd : RandomSource) (last : Vec3) (w : Scene),
          (initStep rnd last w).y - last.y ≤ 28 / 10)
      ∧ (28 : ℚ) / 10 < 87 / 10 := by
  have hs : keydown Code.Space s
      = { s with velocityY := 6 / 10, jumping := true, doubleJump := false } := by
    simp [keydown, halive, hstanding, hjump]
  have hy : ∀ k : ℕ, (applyGravity^[k] (keydown Code.Space s)).orangutan.y
      = s.orangutan.y + (k * (6 / 10) + gravity * (k * (k + 1) / 2)) := by
    intro k
    rw [(applyGravity_iterate _ k).2, hs]
    ring
  refine ⟨by rw [hs], ?_, ?_, ?_, ?_, ?_, by norm_num⟩
  · intro k
    rw [hy k, jump_sum]
  · rw [hy 30]
    simp only [gravity]
    norm_num
  · intro k
    rw [hy k]
    linarith [jump_gain_le k]
  · intro rnd lastPlat w
    linarith [(aheadStep_y rnd lastPlat w).2]
  · intro rnd last w
    have h1 := (rnd (w.draws + 2)).lt_one
    simp only [initStep]
    linarith

theorem C6_jump_peak_exceeds_max_gap_witness :
    (initialState testHost midDraws testBoot).alive = true
      ∧ (applyGravity^[30] (keydown Code.Space (initialState testHost midDraws testBoot))).orangutan.y
          = (initialState testHost midDraws testBoot).orangutan.y + 87 / 10 :=
  ⟨rfl, (C6_jump_peak_exceeds_max_gap (initialState testHost midDraws testBoot) rfl rfl rfl).2.2.1⟩

/-! ## Landing -/

theorem landsOn_iff (s : State) (plat : Platform) :
    landsOn s plat = true ↔
      |s.orangutan.x - plat.pos.x| < 15 / 10 ∧ |s.orangutan.z - plat.pos.z| < 15 / 10
        ∧ plat.pos.y - 1 / 10 < s.orangutan.y ∧ s.orangutan.y < plat.pos.y + 1
        ∧ s.velocityY ≤ 0 := by
  simp [landsOn, and_assoc]

theorem platformCollision_find (ps : List Platform) (s : State) :
    platformCollision ps s =
      match ps.find? (landsOn s) with
      | some plat =>
        { s with orangutan := s.orangutan.setY (plat.pos.y + 25 / 100), velocityY := 0
                 jumping := false, doubleJump := false }
      | none => s := by
  induction ps with
  | nil => rfl
  | cons plat rest ih =>
    by_cases hl : landsOn s plat = true
    · simp [platformCollision, List.find?, hl]
    · simp only [platformCollision, hl, List.find?]
      simpa using ih

/-- Claim C9: the landing step applied to the state `s` left by the gravity block snaps the
player to the first platform in list order that satisfies `|dx| < 1.5`, `|dz| < 1.5`,
`plat.y - 0.1 < y < plat.y + 1.0` and `velocityY <= 0`, and to no other: `position.y` becomes
`plat.y + 0.25`, `velocityY` becomes 0, `jumping` and `doubleJump` become false, nothing else
changes; if no platform satisfies the test the state is left as integrated. In the scenario
with a platform at height 2 and a descending player whose integration ends at
`velocityY = -0.3`, the result is `position.y = 2.25`, `velocityY = 0`, `jumping = false`. -/
theorem C9_landing_first_match (ps : List Platform) (s : State) :
    (platformCollision ps s =
        match ps.find? (landsOn s) with
        | some plat =>
          { s with orangutan := s.orangutan.setY (plat.pos.y + 25 / 100), velocityY := 0
                   jumping := false, doubleJump := false }
        | none => s)
      ∧ (∀ plat, landsOn s plat = true ↔
          |s.orangutan.x - plat.pos.x| < 15 / 10 ∧ |s.orangutan.z - plat.pos.z| < 15 / 10
            ∧ plat.pos.y - 1 / 10 < s.orangutan.y ∧ s.orangutan.y < plat.pos.y + 1
            ∧ s.velocityY ≤ 0)
      ∧ (∀ plat, ps.find? (landsOn s) = some plat →
          plat ∈ ps ∧ landsOn s plat = true
            ∧ ∃ before after, ps = before ++ plat :: after
                ∧ ∀ q ∈ before, landsOn s q = false)
      ∧ (ps.find? (landsOn s) = none ↔ ∀ plat ∈ ps, landsOn s plat = false)
      ∧ (applyGravity landingScenario).velocityY = -3 / 10
      ∧ (platformCollision (applyGravity landingScenario).scene.platforms
            (applyGravity landingScenario)).orangutan.y = 225 / 100
      ∧ (platformCollision (applyGravity landingScenario).scene.platforms
            (applyGravity landingScenario)).velocityY = 0
      ∧ (platformCollision (applyGravity landingScenario).scene.platforms
            (applyGravity landingScenario)).jumping = false := by
  refine ⟨platformCollision_find ps s, landsOn_iff s, ?_, ?_, ?_, ?_, ?_, ?_⟩
  · intro plat hf
    refine ⟨List.mem_of_find?_eq_some hf, List.find?_some hf, ?_⟩
    obtain ⟨_, before, after, hps, hb⟩ := List.find?_eq_some.mp hf
    exact ⟨before, after, hps, fun q hq => by simpa using hb q hq⟩
  · simp [List.find?_eq_none]
  · norm_num [applyGravity, landingScenario, gravity]
  · decide!
  · decide!
  · decide!

/-! ## World generation -/

section Generation

variable (h : Host) (rnd : RandomSource)

@[simp] theorem spawnPlatform_world_pruneBelow (x y z : ℚ) (o : PlatformOptions) (w : Scene) :
    (spawnPlatform rnd x y z o w).world.pruneBelow = w.world.pruneBelow := rfl
@[simp] theorem spawnPlatform_world_difficultyScale (x y z : ℚ) (o : PlatformOptions)
    (w : Scene) :
    (spawnPlatform rnd x y z o w).world.difficultyScale = w.world.difficultyScale := rfl

theorem spawnAheadBody_pruneBelow (lastPlat : Platform) (w : Scene) :
    (spawnAheadBody h rnd lastPlat w).world.pruneBelow = w.world.pruneBelow := by
  simp [spawnAheadBody]

theorem spawnAheadBody_difficultyScale (lastPlat : Platform) (w : Scene) :
    (spawnAheadBody h rnd lastPlat w).world.difficultyScale = w.world.difficultyScale := by
  simp [spawnAheadBody]

theorem aheadPlatform_stepOk (lastPlat : Platform) (w : Scene) :
    StepOk lastPlat (aheadPlatform rnd lastPlat w) := by
  have x0 := (rnd w.draws).nonneg
  have x1 := (rnd w.draws).lt_one
  have z0 := (rnd (w.draws + 1)).nonneg
  have z1 := (rnd (w.draws + 1)).lt_one
  have y0 := (rnd (w.draws + 2)).nonneg
  have y1 := (rnd (w.draws + 2)).lt_one
  simp only [StepOk, aheadPlatform, aheadStep]
  refine ⟨by linarith, by linarith, ?_, ?_⟩ <;> rw [abs_le] <;> constructor <;> linarith

theorem spawnAheadLoop_spec (highestY : ℚ) (w : Scene) (c : ℚ) (hne : w.platforms ≠ []) :
    ∃ w' new, spawnAheadLoop h rnd highestY w c = some w'
      ∧ w'.platforms = w.platforms ++ new
      ∧ w'.world.spawnAhead = w.world.spawnAhead
      ∧ w'.world.pruneBelow = w.world.pruneBelow
      ∧ w'.world.difficultyScale = w.world.difficultyScale
      ∧ (∀ lp, w.platforms.getLast? = some lp → List.Chain StepOk lp new)
      ∧ (highestY + w.world.spawnAhead ≤ c
          ∨ ∃ p ∈ new, highestY + w.world.spawnAhead ≤ p.pos.y)
      ∧ ((∀ lp, w.platforms.getLast? = some lp → lp.pos.y ≤ c) →
          ∀ p ∈ new, p.pos.y < highestY + w.world.spawnAhead + 28 / 10) := by
  induction w, c using spawnAheadLoop.induct h rnd highestY with
  | case1 w c _ hl => exact absurd (List.getLast?_eq_none_iff.mp hl) hne
  | case2 w c hc lastPlat hl newY ih =>
    have hpl := spawnAheadBody_platforms h rnd lastPlat w
    have hlast : (spawnAheadBody h rnd lastPlat w).platforms.getLast?
        = some (aheadPlatform rnd lastPlat w) := by
      rw [hpl]; simp
    obtain ⟨w', new, hr, hp, h1, h2, h3, hch, hex, hb⟩ := ih (by rw [hpl]; simp)
    rw [spawnAheadBody_spawnAhead] at h1 hex hb
    rw [spawnAheadBody_pruneBelow] at h2
    rw [spawnAheadBody_difficultyScale] at h3
    have hstep := aheadPlatform_stepOk rnd lastPlat w
    refine ⟨w', aheadPlatform rnd lastPlat w :: new, ?_, ?_, h1, h2, h3, ?_, ?_, ?_⟩
    · rw [spawnAheadLoop, dif_pos hc]
      split
      · rename_i hn; rw [hl] at hn; cases hn
      · rename_i lp hs
        rw [hl] at hs
        cases hs
        exact hr
    · rw [hp, hpl]; simp
    · intro lp hlp
      rw [hl] at hlp
      cases hlp
      exact List.Chain.cons hstep (hch _ hlast)
    · rcases hex with hex | ⟨p, hp, hpy⟩
      · rcases le_max_iff.mp hex with hex | hex
        · exact Or.inl hex
        · exact Or.inr ⟨_, List.mem_cons_self _ _, hex⟩
      · exact Or.inr ⟨p, List.mem_cons_of_mem _ hp, hpy⟩
    · intro hle p hp
      rcases List.mem_cons.mp hp with rfl | hp
      · have := hle lastPlat hl
        have := hstep.2.1
        have hy := (aheadStep_y rnd lastPlat w).2
        show (aheadStep rnd lastPlat w).y < _
        linarith
      · apply hb _ p hp
        intro lp hlp
        rw [hlast] at hlp
        cases hlp
        exact le_max_right _ _
  | case3 w c hc =>
    refine ⟨w, [], ?_, by simp, rfl, rfl, rfl, fun _ _ => List.Chain.nil,
      Or.inl (not_lt.mp hc), fun _ p hp => absurd hp (List.not_mem_nil p)⟩
    rw [spawnAheadLoop, dif_neg hc]

theorem foldl_max_spec (ys : List ℚ) (y : ℚ) :
    (∀ v ∈ y :: ys, v ≤ ys.foldl max y) ∧ ys.foldl max y ∈ y :: ys := by
  induction ys generalizing y with
  | nil => simp
  | cons a ys ih =>
    obtain ⟨h1, h2⟩ := ih (max y a)
    simp only [List.foldl_cons]
    refine ⟨?_, ?_⟩
    · intro v hv
      rcases List.mem_cons.mp hv with rfl | hv
      · exact le_trans (le_max_left _ _) (h1 _ (List.mem_cons_self _ _))
      · rcases List.mem_cons.mp hv with rfl | hv
        · exact le_trans (le_max_right _ _) (h1 _ (List.mem_cons_self _ _))
        · exact h1 _ (List.mem_cons_of_mem _ hv)
    · rcases List.mem_cons.mp h2 with h2 | h2
      · rw [h2]
        rcases max_choice y a with hm | hm <;> rw [hm] <;> simp
      · exact List.mem_cons_of_mem _ (List.mem_cons_of_mem _ h2)

theorem spawnAheadIfNeeded_spec (highestY : ℚ) (w : Scene) (hne : w.platforms ≠ []) :
    ∃ w' new, spawnAheadIfNeeded h rnd highestY w = some w'
      ∧ w'.platforms = w.platforms ++ new
      ∧ w'.world.spawnAhead = w.world.spawnAhead
      ∧ w'.world.pruneBelow = w.world.pruneBelow
      ∧ w'.world.difficultyScale = w.world.difficultyScale
      ∧ (∀ lp, w.platforms.getLast? = some lp → List.Chain StepOk lp new)
      ∧ (∃ p ∈ w'.platforms, highestY + w.world.spawnAhead ≤ p.pos.y)
      ∧ (∀ p ∈ new, p.pos.y < highestY + w.world.spawnAhead + 28 / 10) := by
  unfold spawnAheadIfNeeded
  cases hm : w.platforms.map (fun p => p.pos.y) with
  | nil => exact absurd (List.map_eq_nil_iff.mp hm) hne
  | cons y ys =>
    obtain ⟨hall, hmem⟩ := foldl_max_spec ys y
    rw [← hm] at hall hmem
    obtain ⟨w', new, hr, hp, h1, h2, h3, hch, hex, hb⟩ :=
      spawnAheadLoop_spec h rnd highestY w (ys.foldl max y) hne
    refine ⟨w', new, hr, hp, h1, h2, h3, hch, ?_, ?_⟩
    · rcases hex with hex | ⟨p, hpn, hpy⟩
      · obtain ⟨p, hpw, hpy⟩ := List.mem_map.mp hmem
        exact ⟨p, by rw [hp]; exact List.mem_append_left _ hpw, by rw [hpy]; exact hex⟩
      · exact ⟨p, by rw [hp]; exact List.mem_append_right _ hpn, hpy⟩
    · apply hb
      intro lp hlp
      exact hall _ (List.mem_map.mpr ⟨lp, List.mem_of_getLast?_eq_some hlp, rfl⟩)

end Generation

/-- Claim C4: on a non-empty platform list, for every `highestY` and every random stream,
`spawnAheadIfNeeded(highestY)` returns (it is a total function, and here it does not throw);
every iteration of its loop appends one platform whose height is at least 0.8 above the last
platform's; on return some platform is at or above `highestY + world.spawnAhead`; and the
platforms present before the call are an unchanged initial segment of the list afterwards. -/
theorem C4_spawnAhead_reaches_frontier (h : Host) (rnd : RandomSource) (highestY : ℚ)
    (w : Scene) (hne : w.platforms ≠ []) :
    (∃ w' new, spawnAheadIfNeeded h rnd highestY w = some w'
        ∧ w'.platforms = w.platforms ++ new
        ∧ ∃ p ∈ w'.platforms, highestY + w.world.spawnAhead ≤ p.pos.y)
      ∧ (∀ (lastPlat : Platform) (v : Scene), ∃ p,
          (spawnAheadBody h rnd lastPlat v).platforms = v.platforms ++ [p]
            ∧ p.pos.y = (aheadStep rnd lastPlat v).y
            ∧ lastPlat.pos.y + 8 / 10 ≤ p.pos.y) := by
  obtain ⟨w', new, hr, hp, _, _, _, _, hex, _⟩ := spawnAheadIfNeeded_spec h rnd highestY w hne
  refine ⟨⟨w', new, hr, hp, hex⟩, ?_⟩
  intro lastPlat v
  exact ⟨aheadPlatform rnd lastPlat v, spawnAheadBody_platforms h rnd lastPlat v, rfl,
    (aheadStep_y rnd lastPlat v).1⟩

theorem C4_spawnAhead_reaches_frontier_witness :
    landingScenario.scene.platforms ≠ []
      ∧ ∃ w' new, spawnAheadIfNeeded testHost midDraws 1 landingScenario.scene = some w'
        ∧ w'.platforms = landingScenario.scene.platforms ++ new
        ∧ ∃ p ∈ w'.platforms, 1 + landingScenario.scene.world.spawnAhead ≤ p.pos.y :=
  ⟨by simp [landingScenario],
    (C4_spawnAhead_reaches_frontier testHost midDraws 1 landingScenario.scene
      (by simp [landingScenario])).1⟩

section InitialPlatforms

variable (h : Host) (rnd : RandomSource)

@[simp] theorem initBanana_platforms (p : Vec3) (w : Scene) :
    (initBanana rnd p w).platforms = w.platforms := by
  unfold initBanana; dsimp only; split <;> rfl
@[simp] theorem initBanana_world (p : Vec3) (w : Scene) :
    (initBanana rnd p w).world = w.world := by
  unfold initBanana; dsimp only; split <;> rfl
@[simp] theorem initPowerUp_platforms (p : Vec3) (w : Scene) :
    (initPowerUp h rnd p w).platforms = w.platforms := by
  unfold initPowerUp; dsimp only; split <;> rfl
@[simp] theorem initPowerUp_world (p : Vec3) (w : Scene) :
    (initPowerUp h rnd p w).world = w.world := by
  unfold initPowerUp; dsimp only; split <;> rfl
@[simp] theorem initObstacle_platforms (p : Vec3) (w : Scene) :
    (initObstacle rnd p w).platforms = w.platforms := by
  unfold initObstacle; dsimp only; split <;> rfl
@[simp] theorem initObstacle_world (p : Vec3) (w : Scene) :
    (initObstacle rnd p w).world = w.world := by
  unfold initObstacle; dsimp only; split <;> rfl

theorem initPlatformsBody_fst (last : Vec3) (w : Scene) :
    (initPlatformsBody h rnd last w).1 = initStep rnd last w := rfl

theorem initPlatformsBody_platforms (last : Vec3) (w : Scene) :
    ∃ p, (initPlatformsBody h rnd last w).2.platforms = w.platforms ++ [p]
      ∧ p.pos = initStep rnd last w := by
  simp [initPlatformsBody, spawnPlatform]

theorem initPlatformsBody_world (last : Vec3) (w : Scene) :
    (initPlatformsBody h rnd last w).2.world.spawnAhead = w.world.spawnAhead
      ∧ (initPlatformsBody h rnd last w).2.world.pruneBelow = w.world.pruneBelow
      ∧ (initPlatformsBody h rnd last w).2.world.difficultyScale = w.world.difficultyScale := by
  simp [initPlatformsBody]

theorem initStep_bounds (last : Vec3) (w : Scene) :
    1 ≤ (initStep rnd last w).y - last.y ∧ (initStep rnd last w).y - last.y ≤ 25 / 10
      ∧ |(initStep rnd last w).x - last.x| ≤ 2 ∧ |(initStep rnd last w).z - last.z| ≤ 2 := by
  have x0 := (rnd w.draws).nonneg
  have x1 := (rnd w.draws).lt_one
  have z0 := (rnd (w.draws + 1)).nonneg
  have z1 := (rnd (w.draws + 1)).lt_one
  have y0 := (rnd (w.draws + 2)).nonneg
  have y1 := (rnd (w.draws + 2)).lt_one
  simp only [initStep]
  refine ⟨by linarith, by linarith, ?_, ?_⟩ <;> rw [abs_le] <;> constructor <;> linarith

theorem initPlatformsLoop_spec (n : ℕ) :
    ∀ (last : Vec3) (w : Scene) (lp : Platform), w.platforms.getLast? = some lp → lp.pos = last →
      ∃ new, (initPlatformsLoop h rnd n last w).platforms = w.platforms ++ new
        ∧ new.length = n ∧ List.Chain StepOk lp new
        ∧ (initPlatformsLoop h rnd n last w).world.spawnAhead = w.world.spawnAhead
        ∧ (initPlatformsLoop h rnd n last w).world.pruneBelow = w.world.pruneBelow
        ∧ (initPlatformsLoop h rnd n last w).world.difficultyScale = w.world.difficultyScale := by
  induction n with
  | zero => intro last w lp _ _; exact ⟨[], by simp [initPlatformsLoop], rfl, List.Chain.nil,
      rfl, rfl, rfl⟩
  | succ n ih =>
    intro last w lp hl hpos
    obtain ⟨p, hp, hpp⟩ := initPlatformsBody_platforms h rnd last w
    obtain ⟨a1, a2, a3⟩ := initPlatformsBody_world h rnd last w
    obtain ⟨new, hn, hlen, hch, b1, b2, b3⟩ :=
      ih (initPlatformsBody h rnd last w).1 (initPlatformsBody h rnd last w).2 p
        (by rw [hp]; simp) (by rw [hpp, initPlatformsBody_fst])
    have hb := initStep_bounds rnd last w
    refine ⟨p :: new, ?_, by simp [hlen], List.Chain.cons ?_ hch, ?_, ?_, ?_⟩
    · simp only [initPlatformsLoop]; rw [hn, hp]; simp
    · simp only [StepOk, hpp, hpos]
      exact ⟨by linarith [hb.1], by linarith [hb.2.1], hb.2.2.1, hb.2.2.2⟩
    · simp only [initPlatformsLoop]; rw [b1, a1]
    · simp only [initPlatformsLoop]; rw [b2, a2]
    · simp only [initPlatformsLoop]; rw [b3, a3]

theorem initPlatforms_spec (w : Scene) :
    ∃ first rest, (initPlatforms h rnd w).platforms = first :: rest
      ∧ first.pos = ⟨0, 0, 0⟩ ∧ rest.length = 11 ∧ List.Chain StepOk first rest
      ∧ (initPlatforms h rnd w).world.spawnAhead = w.world.spawnAhead
      ∧ (initPlatforms h rnd w).world.pruneBelow = w.world.pruneBelow
      ∧ (initPlatforms h rnd w).world.difficultyScale = w.world.difficultyScale := by
  unfold initPlatforms
  dsimp only
  obtain ⟨new, hn, hlen, hch, b1, b2, b3⟩ := initPlatformsLoop_spec h rnd 11 ⟨0, 0, 0⟩
    (spawnPlatform rnd 0 0 0
      { type := some PlatformType.static, axis := none, range := none, speed := none }
      { w with platforms := [] }) _ (by simp [spawnPlatform]; rfl) rfl
  refine ⟨_, new, ?_, rfl, hlen, hch, ?_, ?_, ?_⟩
  · rw [hn]; simp [spawnPlatform]
  · rw [b1]; rfl
  · rw [b2]; rfl
  · rw [b3]; rfl

end InitialPlatforms

/-- Claim C5: every platform that `initPlatforms` creates after its first, and every platform
that an iteration of `spawnAheadIfNeeded` creates, is placed, for every random stream, at an
offset from the last element of the platform list at creation time with `0.8 <= dy <= 2.8`,
`|dx| <= 2` and `|dz| <= 2`; so the list built by `initPlatforms` and the segment appended by a
call of `spawnAheadIfNeeded` are chains of such offsets, with no vertical gap above 2.8. -/
theorem C5_generated_offsets_bounded (h : Host) (rnd : RandomSource) :
    (∀ w : Scene, List.Chain' StepOk (initPlatforms h rnd w).platforms
        ∧ (initPlatforms h rnd w).platforms.length = 12)
      ∧ (∀ (last : Vec3) (w : Scene), ∃ p,
          (initPlatformsBody h rnd last w).2.platforms = w.platforms ++ [p]
            ∧ 8 / 10 ≤ p.pos.y - last.y ∧ p.pos.y - last.y ≤ 28 / 10
            ∧ |p.pos.x - last.x| ≤ 2 ∧ |p.pos.z - last.z| ≤ 2)
      ∧ (∀ (lastPlat : Platform) (w : Scene), ∃ p,
          (spawnAheadBody h rnd lastPlat w).platforms = w.platforms ++ [p] ∧ StepOk lastPlat p)
      ∧ (∀ (highestY : ℚ) (w : Scene) (lastPlat : Platform),
          w.platforms.getLast? = some lastPlat →
            ∃ w' new, spawnAheadIfNeeded h rnd highestY w = some w'
              ∧ w'.platforms = w.platforms ++ new ∧ List.Chain StepOk lastPlat new) := by
  refine ⟨?_, ?_, ?_, ?_⟩
  · intro w
    obtain ⟨first, rest, hp, _, hlen, hch, _⟩ := initPlatforms_spec h rnd w
    rw [hp]
    exact ⟨hch, by simp [hlen]⟩
  · intro last w
    obtain ⟨p, hp, hpp⟩ := initPlatformsBody_platforms h rnd last w
    have hb := initStep_bounds rnd last w
    refine ⟨p, hp, ?_⟩
    rw [hpp]
    exact ⟨by linarith [hb.1], by linarith [hb.2.1], hb.2.2.1, hb.2.2.2⟩
  · intro lastPlat w
    exact ⟨_, spawnAheadBody_platforms h rnd lastPlat w, aheadPlatform_stepOk rnd lastPlat w⟩
  · intro highestY w lastPlat hl
    have hne : w.platforms ≠ [] := by
      intro he; rw [he] at hl; cases hl
    obtain ⟨w', new, hr, hp, _, _, _, hch, _⟩ := spawnAheadIfNeeded_spec h rnd highestY w hne
    exact ⟨w', new, hr, hp, hch _ hl⟩

/-! ## What the collision blocks leave alone -/

theorem keeps_refl (s : State) : Keeps s s :=
  ⟨rfl, rfl, rfl, rfl, rfl, rfl, rfl, rfl, rfl, rfl, rfl, rfl, rfl⟩

theorem keeps_trans {a b c : State} (h1 : Keeps a b) (h2 : Keeps b c) : Keeps a c :=
  ⟨h2.alive.trans h1.alive, h2.platforms.trans h1.platforms, h2.world.trans h1.world,
    h2.santaLoaded.trans h1.santaLoaded, h2.maxHeight.trans h1.maxHeight,
    h2.heightScore.trans h1.heightScore, h2.score.trans h1.score,
    h2.highScore.trans h1.highScore, h2.camera.trans h1.camera, h2.keys.trans h1.keys,
    h2.jumping.trans h1.jumping, h2.doubleJump.trans h1.doubleJump,
    h2.lastHitTime.trans h1.lastHitTime⟩

theorem forDown_keeps (body : ℕ → State → State) (hb : ∀ i s, Keeps s (body i s)) :
    ∀ (n : ℕ) (s : State), Keeps s (forDown n body s) := by
  intro n
  induction n with
  | zero => intro s; exact keeps_refl s
  | succ n ih => intro s; exact keeps_trans (hb n s) (ih _)

section KeepsBlocks

variable (h : Host) (rnd : RandomSource) (f : Frame)

theorem applyPowerUp_keeps (kind : PowerUpKind) (s : State) : Keeps s (applyPowerUp kind s) := by
  cases kind <;> exact ⟨rfl, rfl, rfl, rfl, rfl, rfl, rfl, rfl, rfl, rfl, rfl, rfl, rfl⟩

theorem powerUpBody_keeps (i : ℕ) (s : State) : Keeps s (powerUpBody h rnd f i s) := by
  unfold powerUpBody
  split
  · exact keeps_refl s
  · rename_i pu _
    obtain ⟨pos, kind, spawnY, bob⟩ := pu
    dsimp only
    split_ifs
    · cases kind <;> exact ⟨rfl, rfl, rfl, rfl, rfl, rfl, rfl, rfl, rfl, rfl, rfl, rfl, rfl⟩
    · exact ⟨rfl, rfl, rfl, rfl, rfl, rfl, rfl, rfl, rfl, rfl, rfl, rfl, rfl⟩

theorem powerUpsStep_keeps (s : State) : Keeps s (powerUpsStep h rnd f s) :=
  forDown_keeps _ (powerUpBody_keeps h rnd f) _ s

theorem bananaBody_keeps (dt : ℚ) (i : ℕ) (s : State) : Keeps s (bananaBody h rnd dt i s) := by
  unfold bananaBody
  split
  · exact keeps_refl s
  · dsimp only
    split_ifs <;> exact ⟨rfl, rfl, rfl, rfl, rfl, rfl, rfl, rfl, rfl, rfl, rfl, rfl, rfl⟩

theorem bananasStep_keeps (dt : ℚ) (s : State) : Keeps s (bananasStep h rnd dt s) :=
  forDown_keeps _ (bananaBody_keeps h rnd dt) _ s

theorem hitObstacle_keeps (obs : Obstacle) (s : State) : Keeps s (hitObstacle h rnd f obs s) := by
  unfold hitObstacle
  split
  · dsimp only
    split
    · exact ⟨rfl, rfl, rfl, rfl, rfl, rfl, rfl, rfl, rfl, rfl, rfl, rfl, rfl⟩
    · exact keeps_refl s
  · exact keeps_refl s

theorem obstaclesLoop_keeps (n : ℕ) : ∀ (i : ℕ) (s : State),
    Keeps s (obstaclesLoop h rnd f n i s) := by
  induction n with
  | zero => intro i s; exact keeps_refl s
  | succ n ih =>
    intro i s
    unfold obstaclesLoop
    split
    · exact keeps_refl s
    · rename_i obs _
      dsimp only
      have h1 : Keeps s
          { s with
            scene :=
              { s.scene with
                obstacles :=
                  s.scene.obstacles.set i (moveObstacle s.scene.world.difficultyScale obs) } } :=
        ⟨rfl, rfl, rfl, rfl, rfl, rfl, rfl, rfl, rfl, rfl, rfl, rfl, rfl⟩
      exact keeps_trans (keeps_trans h1 (hitObstacle_keeps h rnd f _ _)) (ih _ _)

theorem obstaclesStep_keeps (s : State) : Keeps s (obstaclesStep h rnd f s) :=
  obstaclesLoop_keeps h rnd f _ 0 s

end KeepsBlocks

/-! ## Stages of a frame -/

section Stages

variable (h : Host) (rnd : RandomSource) (f : Frame)

theorem platformCollision_frame (ps : List Platform) (s : State) :
    (platformCollision ps s).scene = s.scene ∧ (platformCollision ps s).alive = s.alive
      ∧ (platformCollision ps s).camera = s.camera
      ∧ (platformCollision ps s).maxHeight = s.maxHeight := by
  rw [platformCollision_find]
  split <;> exact ⟨rfl, rfl, rfl, rfl⟩

theorem movement_frame (s : State) :
    (movement h s).scene = s.scene ∧ (movement h s).alive = s.alive
      ∧ (movement h s).camera = s.camera ∧ (movement h s).maxHeight = s.maxHeight := by
  unfold movement
  split <;> exact ⟨rfl, rfl, rfl, rfl⟩

theorem integrate_frame (s : State) :
    (integrate h s).scene = s.scene ∧ (integrate h s).alive = s.alive
      ∧ (integrate h s).camera = s.camera ∧ (integrate h s).maxHeight = s.maxHeight := by
  obtain ⟨a1, a2, a3, a4⟩ := movement_frame h s
  obtain ⟨b1, b2, b3, b4⟩ := platformCollision_frame (applyGravity (movement h s)).scene.platforms
    (applyGravity (movement h s))
  unfold integrate
  dsimp only
  exact ⟨b1.trans a1, b2.trans a2, b3.trans a3, b4.trans a4⟩

theorem deathCheck_frame (s : State) :
    (deathCheck s).scene = s.scene ∧ (deathCheck s).maxHeight = s.maxHeight
      ∧ (deathCheck s).orangutan = s.orangutan ∧ (deathCheck s).camera = s.camera := by
  unfold deathCheck
  split <;> exact ⟨rfl, rfl, rfl, rfl⟩

theorem deathCheck_alive (s : State) :
    (deathCheck s).alive = (if s.orangutan.y < s.camera.y - 28 then false else s.alive) := by
  unfold deathCheck
  split <;> rfl

theorem interact_frame (dt : ℚ) (s : State) :
    (interact h rnd f dt s).alive = s.alive
      ∧ (interact h rnd f dt s).scene.world = s.scene.world
      ∧ (interact h rnd f dt s).maxHeight = s.maxHeight
      ∧ (interact h rnd f dt s).scene.platforms
          = s.scene.platforms.map (movePlatform s.scene.world.difficultyScale)
      ∧ (interact h rnd f dt s).scene.santaLoaded = s.scene.santaLoaded := by
  have k1 := powerUpsStep_keeps h rnd f s
  have k2 := bananasStep_keeps h rnd dt (powerUpsStep h rnd f s)
  have k3 := obstaclesStep_keeps h rnd f (bananasStep h rnd dt (powerUpsStep h rnd f s))
  have k := keeps_trans (keeps_trans k1 k2) k3
  unfold interact
  simp only [cameraFollow, movePlatforms]
  exact ⟨k.alive, k.world, k.maxHeight, by rw [k.platforms, k.world], k.santaLoaded⟩

theorem heightScoring_frame (s : State) :
    (heightScoring s).alive = s.alive
      ∧ (heightScoring s).scene.platforms = s.scene.platforms
      ∧ (heightScoring s).scene.world.spawnAhead = s.scene.world.spawnAhead
      ∧ (heightScoring s).scene.world.pruneBelow = s.scene.world.pruneBelow
      ∧ (heightScoring s).scene.santaLoaded = s.scene.santaLoaded
      ∧ (heightScoring s).maxHeight = max s.maxHeight s.orangutan.y := by
  unfold heightScoring
  split
  · rename_i hgt
    exact ⟨rfl, rfl, rfl, rfl, rfl, (max_eq_right (le_of_lt hgt)).symm⟩
  · rename_i hgt
    exact ⟨rfl, rfl, rfl, rfl, rfl, (max_eq_left (not_lt.mp hgt)).symm⟩

theorem updateScore_frame (s : State) :
    (updateScore s).alive = s.alive ∧ (updateScore s).scene = s.scene
      ∧ (updateScore s).maxHeight = s.maxHeight := by
  unfold updateScore
  dsimp only
  split <;> exact ⟨rfl, rfl, rfl⟩

theorem magnetTick_frame (dt : ℚ) (s : State) :
    (magnetTick dt s).alive = s.alive ∧ (magnetTick dt s).scene = s.scene
      ∧ (magnetTick dt s).maxHeight = s.maxHeight := by
  unfold magnetTick
  split
  · dsimp only
    split <;> exact ⟨rfl, rfl, rfl⟩
  · exact ⟨rfl, rfl, rfl⟩

theorem simulate_alive (dt : ℚ) (s : State) :
    (simulate h rnd f dt s).alive = (deathCheck (integrate h s)).alive := by
  unfold simulate
  dsimp only
  rw [(magnetTick_frame dt _).1, (updateScore_frame _).1, (heightScoring_frame _).1,
    (interact_frame h rnd f dt _).1]

theorem simulate_difficultyScale (dt : ℚ) (s : State) :
    (simulate h rnd f dt s).scene.world.difficultyScale
      = (heightScoring (interact h rnd f dt (deathCheck (integrate h s)))).scene.world.difficultyScale := by
  unfold simulate
  dsimp only
  rw [(magnetTick_frame dt _).2.1, (updateScore_frame _).2.1]

theorem spawnAndPrune_frame (s : State) :
    match spawnAndPrune h rnd s with
    | none => True
    | some s' => s'.alive = s.alive ∧ s'.maxHeight = s.maxHeight
        ∧ s'.scene.world.difficultyScale = s.scene.world.difficultyScale
        ∧ s'.orangutan = s.orangutan ∧ s'.camera = s.camera := by
  unfold spawnAndPrune
  by_cases hne : s.scene.platforms = []
  · simp [spawnAheadIfNeeded, hne]
  · obtain ⟨w', new, hr, _, _, _, h3, _⟩ := spawnAheadIfNeeded_spec h rnd s.maxHeight s.scene hne
    rw [hr]
    exact ⟨rfl, rfl, h3, rfl, rfl⟩

theorem finishFrame_frame (dt : ℚ) (s : State) :
    (finishFrame h rnd dt s).alive = s.alive ∧ (finishFrame h rnd dt s).maxHeight = s.maxHeight
      ∧ (finishFrame h rnd dt s).scene.world.difficultyScale = s.scene.world.difficultyScale
      ∧ (finishFrame h rnd dt s).orangutan = s.orangutan
      ∧ (finishFrame h rnd dt s).camera = s.camera := by
  have hsp := spawnAndPrune_frame h rnd s
  unfold finishFrame
  cases hs : spawnAndPrune h rnd s with
  | none => exact ⟨rfl, rfl, rfl, rfl, rfl⟩
  | some s' =>
    rw [hs] at hsp
    obtain ⟨h1, h2, h3, h4, h5⟩ := hsp
    exact ⟨h1, h2, h3, h4, h5⟩

theorem animate_dead (s : State) (hd : s.alive = false) :
    animate h rnd f s = particlesStep (min f.delta (5 / 100)) (afterControls f s) := by
  have : (afterControls f s).alive = false := hd
  simp [animate, this]

theorem animate_alive (s : State) (ha : s.alive = true) :
    animate h rnd f s = finishFrame h rnd (min f.delta (5 / 100))
      (simulate h rnd f (min f.delta (5 / 100)) (afterControls f s)) := by
  have : (afterControls f s).alive = true := ha
  simp [animate, this]

end Stages

/-! ## Death is terminal -/

theorem frozen_trans {a b c : State} (h1 : Frozen a b) (h2 : Frozen b c) : Frozen a c :=
  ⟨h2.alive, h2.orangutan.trans h1.orangutan, h2.velocityY.trans h1.velocityY,
    h2.jumping.trans h1.jumping, h2.doubleJump.trans h1.doubleJump,
    h2.heightScore.trans h1.heightScore, h2.bonusScore.trans h1.bonusScore,
    h2.score.trans h1.score, h2.maxHeight.trans h1.maxHeight,
    h2.difficultyScale.trans h1.difficultyScale, h2.platforms.trans h1.platforms,
    h2.bananas.trans h1.bananas, h2.powerUps.trans h1.powerUps, h2.obstacles.trans h1.obstacles⟩

theorem step_dead (h : Host) (rnd : RandomSource) (ev : Event) (hev : ev ≠ Event.santaLoad)
    (s : State) (hd : s.alive = false) : Frozen s (step h rnd ev s) := by
  cases ev with
  | frame f =>
    simp only [step]
    rw [animate_dead h rnd f s hd]
    exact ⟨hd, rfl, rfl, rfl, rfl, rfl, rfl, rfl, rfl, rfl, rfl, rfl, rfl, rfl⟩
  | keydown e =>
    cases e with
    | Space =>
      simp only [step, keydown, hd]
      exact ⟨hd, rfl, rfl, rfl, rfl, rfl, rfl, rfl, rfl, rfl, rfl, rfl, rfl, rfl⟩
    | key k => exact ⟨hd, rfl, rfl, rfl, rfl, rfl, rfl, rfl, rfl, rfl, rfl, rfl, rfl, rfl⟩
  | keyup e =>
    cases e <;> exact ⟨hd, rfl, rfl, rfl, rfl, rfl, rfl, rfl, rfl, rfl, rfl, rfl, rfl, rfl⟩
  | speedTimeout =>
    simp only [step, speedTimeout]
    split <;> exact ⟨hd, rfl, rfl, rfl, rfl, rfl, rfl, rfl, rfl, rfl, rfl, rfl, rfl, rfl⟩
  | jumpTimeout =>
    simp only [step, jumpTimeout]
    split <;> exact ⟨hd, rfl, rfl, rfl, rfl, rfl, rfl, rfl, rfl, rfl, rfl, rfl, rfl, rfl⟩
  | santaLoad => exact absurd rfl hev

theorem run_dead (h : Host) (rnd : RandomSource) (evs : List Event) :
    ∀ (s : State), (∀ ev ∈ evs, ev ≠ Event.santaLoad) → s.alive = false →
      Frozen s (run h rnd evs s) := by
  induction evs with
  | nil =>
    intro s _ hd
    exact ⟨hd, rfl, rfl, rfl, rfl, rfl, rfl, rfl, rfl, rfl, rfl, rfl, rfl, rfl⟩
  | cons ev evs ih =>
    intro s hevs hd
    have h1 := step_dead h rnd ev (hevs ev (List.mem_cons_self _ _)) s hd
    have h2 := ih (step h rnd ev s) (fun e he => hevs e (List.mem_cons_of_mem _ he)) h1.alive
    exact frozen_trans h1 h2

/-- Claim C10: if at the death check of a tick of a live run the player's `y` is below
`camera.y - 28`, then `alive` is false when that tick ends; and after every later sequence of
events other than the load callback of the obstacle model (so after any ticks and any Space
key presses) `alive` is still false and the player's position, `velocityY`, the jump flags,
`heightScore`, `bonusScore`, `score`, `maxHeight`, `difficultyScale` and the platform, banana,
power-up and obstacle lists are as that tick left them; every later tick skips the
`if (orangutan && alive)` block, death check included, and only runs `controls.update()` and the
particle loop. -/
theorem C10_death_is_terminal (h : Host) (rnd : RandomSource) (f : Frame) (s : State)
    (halive : s.alive = true)
    (hfall : (integrate h (afterControls f s)).orangutan.y
      < (integrate h (afterControls f s)).camera.y - 28) :
    (animate h rnd f s).alive = false
      ∧ (∀ evs : List Event, (∀ ev ∈ evs, ev ≠ Event.santaLoad) →
          Frozen (animate h rnd f s) (run h rnd evs (animate h rnd f s)))
      ∧ (∀ (evs : List Event) (f' : Frame), (∀ ev ∈ evs, ev ≠ Event.santaLoad) →
          animate h rnd f' (run h rnd evs (animate h rnd f s))
            = particlesStep (min f'.delta (5 / 100))
                (afterControls f' (run h rnd evs (animate h rnd f s)))) := by
  have hdead : (animate h rnd f s).alive = false := by
    rw [animate_alive h rnd f s halive, (finishFrame_frame h rnd _ _).1, simulate_alive,
      deathCheck_alive, if_pos hfall]
  refine ⟨hdead, fun evs hevs => run_dead h rnd evs _ hevs hdead, ?_⟩
  intro evs f' hevs
  exact animate_dead h rnd f' _ (run_dead h rnd evs _ hevs hdead).alive

theorem C10_death_is_terminal_witness :
    fallScenario.alive = true
      ∧ (animate testHost midDraws stillFrame fallScenario).alive = false :=
  ⟨rfl, (C10_death_is_terminal testHost midDraws stillFrame fallScenario rfl (by decide!)).1⟩

/-! ## Difficulty -/

theorem animate_difficultyScale (h : Host) (rnd : RandomSource) (f : Frame) (s : State)
    (ha : s.alive = true) :
    (animate h rnd f s).scene.world.difficultyScale
      = (simulate h rnd f (min f.delta (5 / 100)) (afterControls f s)).scene.world.difficultyScale := by
  rw [animate_alive h rnd f s ha, (finishFrame_frame h rnd _ _).2.2.1]

theorem heightScoring_difficultyScale (s : State)
    (hsync : s.scene.world.difficultyScale ≤ ⌊s.maxHeight / 12⌋) :
    s.scene.world.difficultyScale ≤ (heightScoring s).scene.world.difficultyScale
      ∧ (heightScoring s).scene.world.difficultyScale ≤ ⌊(heightScoring s).maxHeight / 12⌋ := by
  unfold heightScoring
  split
  · rename_i hgt
    have hmono : ⌊s.maxHeight / 12⌋ ≤ ⌊s.orangutan.y / 12⌋ :=
      Int.floor_mono (div_le_div_of_nonneg_right (le_of_lt hgt) (by norm_num))
    exact ⟨le_trans hsync hmono, le_refl _⟩
  · exact ⟨le_refl _, hsync⟩

/-- Once `difficultyScale` is at most `floor(maxHeight / 12)`, which holds from the first
height gain of a run on, no tick lowers it. -/
theorem animate_difficultyScale_mono (h : Host) (rnd : RandomSource) (f : Frame) (s : State)
    (hsync : s.scene.world.difficultyScale ≤ ⌊s.maxHeight / 12⌋) :
    s.scene.world.difficultyScale ≤ (animate h rnd f s).scene.world.difficultyScale
      ∧ (animate h rnd f s).scene.world.difficultyScale
          ≤ ⌊(animate h rnd f s).maxHeight / 12⌋ := by
  by_cases ha : s.alive = true
  · obtain ⟨a1, _, _, a4⟩ := integrate_frame h (afterControls f s)
    obtain ⟨b1, b2, _, _⟩ := deathCheck_frame (integrate h (afterControls f s))
    obtain ⟨_, c2, c3, _, _⟩ := interact_frame h rnd f (min f.delta (5 / 100))
      (deathCheck (integrate h (afterControls f s)))
    have hw : (interact h rnd f (min f.delta (5 / 100))
        (deathCheck (integrate h (afterControls f s)))).scene.world = s.scene.world := by
      rw [c2, b1, a1]; rfl
    have hm : (interact h rnd f (min f.delta (5 / 100))
        (deathCheck (integrate h (afterControls f s)))).maxHeight = s.maxHeight := by
      rw [c3, b2, a4]; rfl
    have hs := heightScoring_difficultyScale (interact h rnd f (min f.delta (5 / 100))
      (deathCheck (integrate h (afterControls f s)))) (by rw [hw, hm]; exact hsync)
    rw [hw] at hs
    have hmax : (animate h rnd f s).maxHeight
        = (heightScoring (interact h rnd f (min f.delta (5 / 100))
            (deathCheck (integrate h (afterControls f s))))).maxHeight := by
      rw [animate_alive h rnd f s ha, (finishFrame_frame h rnd _ _).2.1]
      unfold simulate
      dsimp only
      rw [(magnetTick_frame _ _).2.2, (updateScore_frame _).2.2]
    rw [animate_difficultyScale h rnd f s ha, simulate_difficultyScale, hmax]
    exact hs
  · have hd : s.alive = false := by simpa using ha
    rw [animate_dead h rnd f s hd]
    exact ⟨le_refl _, hsync⟩

/-- Claim C1, at a failing run: the run starts with `difficultyScale = 1` and `maxHeight` equal
to the player's start height 1; the player presses Space, and the next tick lifts the player to
`y = 1.58`, a new maximum height, so the scoring block sets
`difficultyScale = floor(1.58 / 12) = 0`, which is below its value 1 before that tick. -/
theorem C1_difficultyScale_drops_on_first_gain :
    (initialState testHost midDraws testBoot).scene.world.difficultyScale = 1
      ∧ (initialState testHost midDraws testBoot).maxHeight
          = (initialState testHost midDraws testBoot).orangutan.y
      ∧ (step testHost midDraws (Event.keydown Code.Space)
          (initialState testHost midDraws testBoot)).scene.world.difficultyScale = 1
      ∧ (step testHost midDraws (Event.frame stillFrame)
          (step testHost midDraws (Event.keydown Code.Space)
            (initialState testHost midDraws testBoot))).maxHeight = 158 / 100
      ∧ (step testHost midDraws (Event.frame stillFrame)
          (step testHost midDraws (Event.keydown Code.Space)
            (initialState testHost midDraws testBoot))).scene.world.difficultyScale = 0 := by
  have ha : (step testHost midDraws (Event.keydown Code.Space)
      (initialState testHost midDraws testBoot)).alive = true := rfl
  refine ⟨by decide!, rfl, by decide!, ?_, ?_⟩
  · show (animate _ _ _ _).maxHeight = _
    rw [animate_alive _ _ _ _ ha, (finishFrame_frame _ _ _ _).2.1]
    decide!
  · show (animate _ _ _ _).scene.world.difficultyScale = _
    rw [animate_difficultyScale _ _ _ _ ha]
    decide!

/-! ## Moving platforms -/

/-- Claim C3, at failing inputs. A `'moving'` platform with axis `'z'` gets `userData.start = x`,
the spawn coordinate on the other axis, where `spawnObstacle` stores
`axis === 'x' ? x : z`. (a) Spawned at `x = 2, z = 0` with range 2 and per-tick step 0.054, the
platform is after 40 ticks at `z = 2.16`, beyond `spawn z + range + step = 2.054`, and has
never reversed. (b) Spawned at `x = 5, z = 0`, it reverses direction in its first tick at
`z = 0.054`, well inside `[spawn z - range, spawn z + range]`. -/
theorem C3_moving_platform_z_anchor_is_x :
    (∃ p, (spawnPlatform midDraws 2 1 0 movingAlongZ landingScenario.scene).platforms.getLast?
          = some p
        ∧ p.type = PlatformType.moving ∧ p.movingAxis = Axis.z ∧ p.range = 2
        ∧ p.pos.z = 0 ∧ p.start = 2 ∧ p.speed = 5 / 100
        ∧ ((movePlatform 1)^[40] p).pos.z = 216 / 100
        ∧ p.pos.z + p.range + |p.speed| * (1 + 1 * (8 / 100)) < ((movePlatform 1)^[40] p).pos.z
        ∧ ((movePlatform 1)^[40] p).speed = p.speed)
      ∧ (∃ p, (spawnPlatform midDraws 5 1 0 movingAlongZ landingScenario.scene).platforms.getLast?
          = some p
        ∧ p.pos.z = 0 ∧ p.start = 5 ∧ p.range = 2
        ∧ (movePlatform 1 p).pos.z = 54 / 1000
        ∧ |(movePlatform 1 p).pos.z - p.pos.z| ≤ p.range
        ∧ (movePlatform 1 p).speed = -p.speed)
      ∧ (∀ (x y z range speed : ℚ) (w : Scene),
          (spawnObstacle x y z Axis.z range speed w).obstacles.getLast?.map (fun o => o.start)
            = some z) := by
  refine ⟨⟨_, rfl, ?_⟩, ⟨_, rfl, ?_⟩, ?_⟩
  · decide!
  · decide!
  · intro x y z range speed w
    simp [spawnObstacle]

/-! ## Oscillating obstacles -/

theorem moveObstacle_bounce (d : ℤ) (o : Obstacle) :
    ((moveObstacle d o).coord, (moveObstacle d o).speed)
        = bounce o.start o.range (1 + d * (1 / 10)) (o.coord, o.speed)
      ∧ (moveObstacle d o).start = o.start ∧ (moveObstacle d o).range = o.range
      ∧ (moveObstacle d o).axis = o.axis := by
  obtain ⟨pos, santa, axis, range, speed, start⟩ := o
  cases axis <;> simp only [moveObstacle, bounce, Obstacle.coord] <;> split_ifs <;> simp

theorem Swinging.bound {a r v e : ℚ} {pv : ℚ × ℚ} (hs : Swinging a r v e pv) (hr : 0 ≤ r)
    (he : 0 ≤ e) : |pv.1 - a| ≤ r + e := by
  rcases hs.2 with h1 | ⟨h1, h2, _⟩ | ⟨h1, h2, _⟩
  · linarith
  · rw [abs_le]; constructor <;> linarith
  · rw [abs_le]; constructor <;> linarith

theorem bounce_swinging (a r v e c : ℚ) (pv : ℚ × ℚ) (hr : 0 ≤ r) (hc : 0 < c)
    (he : e ≤ v * c) (hs : Swinging a r v e pv) :
    Swinging a r v (v * c) (bounce a r c pv) := by
  obtain ⟨p, s⟩ := pv
  obtain ⟨hv, hpos⟩ := hs
  simp only at hv hpos
  have hv0 : 0 ≤ v := hv ▸ abs_nonneg s
  have hsc : |s * c| = v * c := by rw [abs_mul, hv, abs_of_pos hc]
  have hsc' := abs_le.mp (le_of_eq hsc)
  simp only [bounce, Swinging]
  by_cases hout : |p + s * c - a| > r
  · rw [if_pos hout]
    refine ⟨by rw [mul_neg, mul_one, abs_neg]; exact hv, Or.inr ?_⟩
    rcases hpos with hin | ⟨h1, h2, h3⟩ | ⟨h1, h2, h3⟩
    · have hin' := abs_le.mp hin
      rcases lt_abs.mp hout with hgt | hgt
      · left
        have hspos : 0 < s * c := by linarith
        have : 0 < s := pos_of_mul_pos_left hspos (le_of_lt hc)
        exact ⟨hgt, by linarith [hsc'.2], by linarith⟩
      · right
        have hsneg : s * c < 0 := by linarith
        have : s < 0 := by
          by_contra hn
          have := mul_nonneg (not_lt.mp hn) (le_of_lt hc)
          linarith
        exact ⟨by linarith, by linarith [hsc'.1], by linarith⟩
    · right
      have hs' : s = -v := by rw [← hv, abs_of_nonpos h3, neg_neg]
      have hsce : s * c = -(v * c) := by rw [hs']; ring
      rcases lt_abs.mp hout with hgt | hgt
      · exfalso; linarith
      · exact ⟨by linarith, by linarith, by linarith⟩
    · left
      have hs' : s = v := by rw [← hv, abs_of_nonneg h3]
      have hsce : s * c = v * c := by rw [hs']
      rcases lt_abs.mp hout with hgt | hgt
      · exact ⟨hgt, by linarith, by linarith⟩
      · exfalso; linarith
  · rw [if_neg hout]
    exact ⟨hv, Or.inl (not_lt.mp hout)⟩

theorem driveObstacle_swinging (v : ℚ) (ds : List ℤ) :
    ∀ (o : Obstacle) (e : ℚ), 0 ≤ o.range → 0 ≤ e →
      Swinging o.start o.range v e (o.coord, o.speed) →
      ds.Pairwise (fun a b => a ≤ b) → (∀ d ∈ ds, 0 ≤ d) →
      (∀ d ∈ ds, e ≤ v * (1 + d * (1 / 10))) →
      ∃ e', Swinging o.start o.range v e' ((driveObstacle ds o).coord, (driveObstacle ds o).speed)
        ∧ 0 ≤ e' ∧ (e' = e ∨ ∃ d ∈ ds, e' = v * (1 + d * (1 / 10))) := by
  induction ds with
  | nil => intro o e _ he hs _ _ _; exact ⟨e, hs, he, Or.inl rfl⟩
  | cons d ds ih =>
    intro o e hr he hs hmono hpos hstep
    obtain ⟨hb, hst, hrg, _⟩ := moveObstacle_bounce d o
    have hd0 : (0 : ℚ) ≤ d := by exact_mod_cast hpos d (List.mem_cons_self _ _)
    have hc : (0 : ℚ) < 1 + d * (1 / 10) := by linarith
    have hv0 : 0 ≤ v := hs.1 ▸ abs_nonneg _
    have hsw := bounce_swinging o.start o.range v e _ _ hr hc
      (hstep d (List.mem_cons_self _ _)) hs
    rw [← hb, ← hst, ← hrg] at hsw
    obtain ⟨hdle, hmono'⟩ := List.pairwise_cons.mp hmono
    obtain ⟨e', hsw', he', hor⟩ := ih (moveObstacle d o) (v * (1 + d * (1 / 10)))
      (by rw [hrg]; exact hr) (mul_nonneg hv0 (le_of_lt hc)) hsw hmono'
      (fun x hx => hpos x (List.mem_cons_of_mem _ hx))
      (fun x hx => by
        have : (d : ℚ) ≤ x := by exact_mod_cast hdle x hx
        apply mul_le_mul_of_nonneg_left _ hv0
        linarith)
    rw [hst, hrg] at hsw'
    refine ⟨e', hsw', he', ?_⟩
    rcases hor with h1 | ⟨x, hx, h1⟩
    · exact Or.inr ⟨d, List.mem_cons_self _ _, h1⟩
    · exact Or.inr ⟨x, List.mem_cons_of_mem _ hx, h1⟩

theorem hitObstacle_obstacles (h : Host) (rnd : RandomSource) (f : Frame) (obs : Obstacle)
    (s : State) : (hitObstacle h rnd f obs s).scene.obstacles = s.scene.obstacles := by
  unfold hitObstacle
  split
  · dsimp only
    split <;> rfl
  · rfl

theorem obstaclesLoop_obstacles (h : Host) (rnd : RandomSource) (f : Frame) (n : ℕ) :
    ∀ (i : ℕ) (s : State), i + n = s.scene.obstacles.length →
      (obstaclesLoop h rnd f n i s).scene.obstacles
        = s.scene.obstacles.take i
          ++ (s.scene.obstacles.drop i).map (moveObstacle s.scene.world.difficultyScale) := by
  induction n with
  | zero =>
    intro i s hi
    simp only [obstaclesLoop]
    rw [List.take_of_length_le (by omega), List.drop_of_length_le (by omega)]
    simp
  | succ n ih =>
    intro i s hi
    have hlt : i < s.scene.obstacles.length := by omega
    have hget : s.scene.obstacles[i]? = some s.scene.obstacles[i] := List.getElem?_eq_getElem hlt
    unfold obstaclesLoop
    simp only [hget]
    rw [ih]
    · rw [(hitObstacle_keeps h rnd f _ _).world, hitObstacle_obstacles]
      simp only [List.set_eq_take_append_cons_drop, if_pos hlt]
      have h1 : (List.take i s.scene.obstacles
          ++ moveObstacle s.scene.world.difficultyScale s.scene.obstacles[i]
            :: List.drop (i + 1) s.scene.obstacles).take (i + 1)
          = List.take i s.scene.obstacles
            ++ [moveObstacle s.scene.world.difficultyScale s.scene.obstacles[i]] := by
        rw [List.take_append_eq_append_take]
        simp [List.length_take, Nat.min_eq_left (le_of_lt hlt)]
      have h2 : (List.take i s.scene.obstacles
          ++ moveObstacle s.scene.world.difficultyScale s.scene.obstacles[i]
            :: List.drop (i + 1) s.scene.obstacles).drop (i + 1)
          = List.drop (i + 1) s.scene.obstacles := by
        rw [List.drop_append_eq_append_drop]
        simp [List.length_take, Nat.min_eq_left (le_of_lt hlt)]
      rw [h1, h2, List.drop_eq_getElem_cons hlt]
      simp only [List.map_cons, List.append_assoc, List.singleton_append]
    · rw [hitObstacle_obstacles]
      simp only [List.length_set]
      omega

/-- In a tick, the obstacle block replaces every obstacle by `moveObstacle` of it, at the
current `world.difficultyScale`. -/
theorem obstaclesStep_obstacles (h : Host) (rnd : RandomSource) (f : Frame) (s : State) :
    (obstaclesStep h rnd f s).scene.obstacles
      = s.scene.obstacles.map (moveObstacle s.scene.world.difficultyScale) := by
  unfold obstaclesStep
  rw [obstaclesLoop_obstacles h rnd f _ 0 s (by simp)]
  simp

/-- The claim C2 as stated fails when `difficultyScale` drops: an obstacle spawned with range
1.6 and speed 0.0501 moves for 30 ticks at `difficultyScale = 1` (step 0.05511), overshoots to
1.6533 and reverses; one tick at `difficultyScale = 0` (step 0.0501) leaves it at 1.6032, still
beyond the range, so it reverses again, outwards; the next tick at `difficultyScale = 1` takes
it to 1.65831, farther from the anchor than the range plus the largest single step. -/
theorem C2_counterexample_difficulty_drop :
    ∃ o, (spawnObstacle 0 0 0 Axis.x (16 / 10) (501 / 10000) landingScenario.scene).obstacles
          = [o]
      ∧ 0 ≤ o.range ∧ o.start = o.coord
      ∧ (∀ d : ℤ, d ∈ List.replicate 30 (1 : ℤ) ++ [0, 1] →
          |o.speed| * (1 + d * (1 / 10)) ≤ 5511 / 100000)
      ∧ |o.speed| * (1 + (1 : ℤ) * (1 / 10)) = 5511 / 100000
      ∧ (driveObstacle (List.replicate 30 (1 : ℤ) ++ [0, 1]) o).coord = 165831 / 100000
      ∧ ¬ (|(driveObstacle (List.replicate 30 (1 : ℤ) ++ [0, 1]) o).coord - o.start|
            ≤ o.range + 5511 / 100000) := by
  refine ⟨_, rfl, ?_, ?_, ?_, ?_, ?_, ?_⟩ <;> decide!

/-- Claim C2, amended: for every obstacle created by `spawnObstacle` with range `r >= 0` (its
anchor `userData.start` is its spawn coordinate on its motion axis), and every sequence of
ticks along which `world.difficultyScale` is non-negative and never decreases, after every tick
the obstacle's coordinate `p` on its motion axis satisfies `|p - a| <= r + epsilon`, where
`epsilon` bounds the distance `|speed| * (1 + 0.1 * difficultyScale)` moved in each tick. -/
theorem C2_obstacle_within_range_while_difficulty_rises (x y z : ℚ) (axis : Axis) (r v : ℚ)
    (w : Scene) (ds : List ℤ) (eps : ℚ) (hr : 0 ≤ r) (h0 : 0 ≤ eps)
    (hmono : ds.Pairwise (fun a b => a ≤ b)) (hpos : ∀ d ∈ ds, 0 ≤ d)
    (heps : ∀ d ∈ ds, |v| * (1 + d * (1 / 10)) ≤ eps) :
    ∃ o, (spawnObstacle x y z axis r v w).obstacles = w.obstacles ++ [o]
      ∧ o.range = r ∧ o.speed = v ∧ o.start = o.coord
      ∧ ∀ k : ℕ, |(driveObstacle (ds.take k) o).coord - o.start| ≤ r + eps := by
  refine ⟨_, rfl, rfl, rfl, ?_, ?_⟩
  · cases axis <;> simp [Obstacle.coord] <;> split <;> rfl
  · intro k
    have hstart : ∀ o : Obstacle, o.start = o.coord → o.range = r → o.speed = v →
        |(driveObstacle (ds.take k) o).coord - o.start| ≤ r + eps := by
      intro o hst hrg hsp
      have hinit : Swinging o.start o.range |v| 0 (o.coord, o.speed) := by
        refine ⟨by rw [hsp], Or.inl ?_⟩
        simp only [hst, sub_self, abs_zero, hrg]
        exact hr
      obtain ⟨e', hsw, he', hor⟩ := driveObstacle_swinging |v| (ds.take k) o 0
        (by rw [hrg]; exact hr) le_rfl hinit
        (hmono.sublist (List.take_sublist k ds))
        (fun d hd => hpos d (List.mem_of_mem_take hd))
        (fun d hd => by
          have hd0 : (0 : ℚ) ≤ d := by exact_mod_cast hpos d (List.mem_of_mem_take hd)
          exact mul_nonneg (abs_nonneg v) (by linarith))
      have hb := hsw.bound (by rw [hrg]; exact hr) he'
      simp only [hrg] at hb
      rcases hor with h1 | ⟨d, hd, h1⟩
      · rw [h1] at hb; linarith
      · have := heps d (List.mem_of_mem_take hd)
        rw [h1] at hb; linarith
    apply hstart
    · cases axis <;> simp [Obstacle.coord] <;> split <;> rfl
    · rfl
    · rfl

theorem C2_obstacle_within_range_while_difficulty_rises_witness :
    (∀ d : ℤ, d ∈ [(0 : ℤ), 0, 1, 2] → |(5 / 100 : ℚ)| * (1 + d * (1 / 10)) ≤ 6 / 100)
      ∧ ∃ o, (spawnObstacle 0 0 0 Axis.x 2 (5 / 100) landingScenario.scene).obstacles
            = landingScenario.scene.obstacles ++ [o]
          ∧ o.range = 2 ∧ o.speed = 5 / 100 ∧ o.start = o.coord
          ∧ ∀ k : ℕ, |(driveObstacle (([0, 0, 1, 2] : List ℤ).take k) o).coord - o.start|
              ≤ 2 + 6 / 100 :=
  ⟨by decide!,
    C2_obstacle_within_range_while_difficulty_rises 0 0 0 Axis.x 2 (5 / 100)
      landingScenario.scene [0, 0, 1, 2] (6 / 100) (by norm_num) (by norm_num) (by decide)
      (by decide) (by decide!)⟩

/-! ## The live platforms stay in a window -/

theorem chain_stepOk_climb (l : List Platform) : ∀ a : Platform, List.Chain StepOk a l →
    (∀ b ∈ l, Climb a b) ∧ l.Pairwise Climb := by
  induction l with
  | nil => intro a _; exact ⟨fun b hb => absurd hb (List.not_mem_nil b), List.Pairwise.nil⟩
  | cons b l ih =>
    intro a hc
    obtain ⟨hab, hbl⟩ := List.chain_cons.mp hc
    obtain ⟨h1, h2⟩ := ih b hbl
    have hab' : Climb a b := hab.1 |> fun h => by unfold Climb; linarith
    refine ⟨?_, List.pairwise_cons.mpr ⟨h1, h2⟩⟩
    intro c hc
    rcases List.mem_cons.mp hc with rfl | hc
    · exact hab'
    · have := h1 c hc
      unfold Climb at *
      linarith

theorem chain_stepOk_upper (l : List Platform) : ∀ a : Platform, List.Chain StepOk a l →
    ∀ b ∈ l, b.pos.y ≤ a.pos.y + 28 / 10 * l.length := by
  induction l with
  | nil => intro a _ b hb; exact absurd hb (List.not_mem_nil b)
  | cons c l ih =>
    intro a hc b hb
    obtain ⟨hac, hcl⟩ := List.chain_cons.mp hc
    have h2 := hac.2.1
    have hl : (0 : ℚ) ≤ l.length := Nat.cast_nonneg _
    simp only [List.length_cons, Nat.cast_add, Nat.cast_one]
    rcases List.mem_cons.mp hb with rfl | hb
    · linarith
    · have := ih c hcl b hb
      linarith

theorem pairwise_climb_le_last (l : List Platform) (lp : Platform) (hp : l.Pairwise Climb)
    (hl : l.getLast? = some lp) : ∀ a ∈ l, a.pos.y ≤ lp.pos.y := by
  obtain ⟨ys, rfl⟩ := List.getLast?_eq_some_iff.mp hl
  intro a ha
  rcases List.mem_append.mp ha with ha | ha
  · have := (List.pairwise_append.mp hp).2.2 a ha lp (List.mem_singleton_self lp)
    unfold Climb at this
    linarith
  · rw [List.mem_singleton.mp ha]

theorem pairwise_climb_span (l : List Platform) : ∀ lo : ℚ, l.Pairwise Climb →
    (∀ p ∈ l, lo ≤ p.pos.y) → l ≠ [] →
    ∃ p ∈ l, lo + 8 / 10 * ((l.length : ℚ) - 1) ≤ p.pos.y := by
  induction l with
  | nil => intro lo _ _ hne; exact absurd rfl hne
  | cons a l ih =>
    intro lo hp hlo _
    obtain ⟨ha, hl⟩ := List.pairwise_cons.mp hp
    by_cases hne : l = []
    · subst hne
      exact ⟨a, List.mem_cons_self _ _, by simpa using hlo a (List.mem_cons_self _ _)⟩
    · have hlo' : ∀ p ∈ l, lo + 8 / 10 ≤ p.pos.y := by
        intro p hp
        have h1 := ha p hp
        have h2 := hlo a (List.mem_cons_self _ _)
        unfold Climb at h1
        linarith
      obtain ⟨p, hp, hpy⟩ := ih (lo + 8 / 10) hl hlo' hne
      refine ⟨p, List.mem_cons_of_mem _ hp, ?_⟩
      simp only [List.length_cons, Nat.cast_add, Nat.cast_one]
      linarith

theorem movePlatform_y (d : ℤ) (p : Platform) : (movePlatform d p).pos.y = p.pos.y := by
  unfold movePlatform
  split
  · split <;> dsimp only <;> split <;> rfl
  · rfl

section Window

variable (h : Host) (rnd : RandomSource)

theorem simulate_world (f : Frame) (dt : ℚ) (s : State) :
    (simulate h rnd f dt s).scene.platforms
        = s.scene.platforms.map (movePlatform s.scene.world.difficultyScale)
      ∧ (simulate h rnd f dt s).scene.world.spawnAhead = s.scene.world.spawnAhead
      ∧ (simulate h rnd f dt s).scene.world.pruneBelow = s.scene.world.pruneBelow
      ∧ s.maxHeight ≤ (simulate h rnd f dt s).maxHeight := by
  obtain ⟨a1, _, _, a4⟩ := integrate_frame h s
  obtain ⟨b1, b2, _, _⟩ := deathCheck_frame (integrate h s)
  obtain ⟨_, c2, c3, c4, _⟩ := interact_frame h rnd f dt (deathCheck (integrate h s))
  obtain ⟨_, d2, d3, d4, _, d6⟩ :=
    heightScoring_frame (interact h rnd f dt (deathCheck (integrate h s)))
  have hsc : (deathCheck (integrate h s)).scene = s.scene := b1.trans a1
  have hmh : (deathCheck (integrate h s)).maxHeight = s.maxHeight := b2.trans a4
  unfold simulate
  dsimp only
  rw [(magnetTick_frame dt _).2.1, (updateScore_frame _).2.1, (magnetTick_frame dt _).2.2,
    (updateScore_frame _).2.2, d2, d3, d4, d6, c2, c3, c4, hsc, hmh]
  exact ⟨rfl, rfl, rfl, le_max_left _ _⟩

theorem finishFrame_platforms (dt : ℚ) (s : State) (hne : s.scene.platforms ≠ []) :
    ∃ new, (finishFrame h rnd dt s).scene.platforms
          = (s.scene.platforms ++ new).filter
              (fun p => decide (s.maxHeight + s.scene.world.pruneBelow ≤ p.pos.y))
      ∧ (∀ lp, s.scene.platforms.getLast? = some lp → List.Chain StepOk lp new)
      ∧ (∃ p ∈ s.scene.platforms ++ new, s.maxHeight + s.scene.world.spawnAhead ≤ p.pos.y)
      ∧ (∀ p ∈ new, p.pos.y < s.maxHeight + s.scene.world.spawnAhead + 28 / 10)
      ∧ (finishFrame h rnd dt s).scene.world.spawnAhead = s.scene.world.spawnAhead
      ∧ (finishFrame h rnd dt s).scene.world.pruneBelow = s.scene.world.pruneBelow
      ∧ (finishFrame h rnd dt s).maxHeight = s.maxHeight := by
  obtain ⟨w', new, hr, hp, h1, h2, _, hch, hex, hb⟩ :=
    spawnAheadIfNeeded_spec h rnd s.maxHeight s.scene hne
  refine ⟨new, ?_, hch, by rw [← hp]; exact hex, hb, ?_, ?_, ?_⟩
  all_goals
    simp only [finishFrame, spawnAndPrune, hr, particlesStep]
  · rw [pruneBelow_eq_filter _ w', hp, h2]
  · exact h1
  · exact h2

theorem worldInv_initPlatforms (s : State) (w : Scene) (hs : w.world.spawnAhead = 60)
    (hp : w.world.pruneBelow = -20) (hm : 1 ≤ s.maxHeight) :
    WorldInv { s with scene := initPlatforms h rnd w } := by
  obtain ⟨first, rest, hpl, hpos, hlen, hch, h1, h2, _⟩ := initPlatforms_spec h rnd w
  obtain ⟨c1, c2⟩ := chain_stepOk_climb rest first hch
  have hup := chain_stepOk_upper rest first hch
  refine ⟨?_, ?_, ?_, h1.trans hs, h2.trans hp, hm⟩
  · show (initPlatforms h rnd w).platforms ≠ []
    rw [hpl]; simp
  · show (initPlatforms h rnd w).platforms.Pairwise Climb
    rw [hpl]; exact List.pairwise_cons.mpr ⟨c1, c2⟩
  · intro p hpm
    change p ∈ (initPlatforms h rnd w).platforms at hpm
    show p.pos.y < s.maxHeight + 60 + 28 / 10
    rw [hpl] at hpm
    rcases List.mem_cons.mp hpm with rfl | hpm
    · rw [hpos]; linarith
    · have := hup p hpm
      rw [hpos, hlen] at this
      norm_num at this
      linarith

theorem worldInv_frame (f : Frame) (s : State) (hi : WorldInv s) :
    WorldInv (animate h rnd f s)
      ∧ (s.alive = true → ∀ p ∈ (animate h rnd f s).scene.platforms,
          (animate h rnd f s).maxHeight - 20 ≤ p.pos.y) := by
  by_cases ha : s.alive = true
  · obtain ⟨s1p, s1a, s1b, s1m⟩ :=
      simulate_world h rnd f (min f.delta (5 / 100)) (afterControls f s)
    change _ = s.scene.platforms.map _ at s1p
    change _ = s.scene.world.spawnAhead at s1a
    change _ = s.scene.world.pruneBelow at s1b
    change s.maxHeight ≤ _ at s1m
    rw [hi.spawnAhead] at s1a
    rw [hi.pruneBelow] at s1b
    set s1 := simulate h rnd f (min f.delta (5 / 100)) (afterControls f s) with hs1
    have hne1 : s1.scene.platforms ≠ [] := by
      rw [s1p]; simpa using hi.nonempty
    have hcl1 : s1.scene.platforms.Pairwise Climb := by
      rw [s1p, List.pairwise_map]
      refine hi.climb.imp ?_
      intro a b hab
      unfold Climb at *
      rw [movePlatform_y, movePlatform_y]
      exact hab
    have hbl1 : ∀ p ∈ s1.scene.platforms, p.pos.y < s1.maxHeight + 60 + 28 / 10 := by
      intro p hp
      rw [s1p] at hp
      obtain ⟨q, hq, rfl⟩ := List.mem_map.mp hp
      rw [movePlatform_y]
      linarith [hi.below q hq]
    obtain ⟨new, hpl, hch, hex, hb, f1, f2, f3⟩ :=
      finishFrame_platforms h rnd (min f.delta (5 / 100)) s1 hne1
    rw [s1a] at hex hb f1
    rw [s1b] at hpl f2
    rw [animate_alive h rnd f s ha, ← hs1]
    obtain ⟨lp, hlp⟩ : ∃ lp, s1.scene.platforms.getLast? = some lp := by
      cases hq : s1.scene.platforms.getLast? with
      | none => exact absurd (List.getLast?_eq_none_iff.mp hq) hne1
      | some lp => exact ⟨lp, rfl⟩
    obtain ⟨c1, c2⟩ := chain_stepOk_climb new lp (hch lp hlp)
    have hall : (s1.scene.platforms ++ new).Pairwise Climb := by
      rw [List.pairwise_append]
      refine ⟨hcl1, c2, ?_⟩
      intro a ha b hb
      have h1 := pairwise_climb_le_last _ lp hcl1 hlp a ha
      have h2 := c1 b hb
      unfold Climb at *
      linarith
    refine ⟨⟨?_, ?_, ?_, f1, f2, ?_⟩, ?_⟩
    · rw [hpl]
      obtain ⟨p, hp, hpy⟩ := hex
      intro hnil
      have : p ∈ (s1.scene.platforms ++ new).filter
          (fun p => decide (s1.maxHeight + -20 ≤ p.pos.y)) := by
        rw [List.mem_filter]
        exact ⟨hp, by simp only [decide_eq_true_eq]; linarith⟩
      rw [hnil] at this
      exact absurd this (List.not_mem_nil p)
    · rw [hpl]
      exact hall.filter _
    · intro p hp
      rw [hpl] at hp
      rw [f3]
      rcases List.mem_append.mp (List.mem_filter.mp hp).1 with hp | hp
      · exact hbl1 p hp
      · exact hb p hp
    · rw [f3]; linarith [hi.maxHeight]
    · intro _ p hp
      rw [hpl] at hp
      rw [f3]
      have := (List.mem_filter.mp hp).2
      simp only [decide_eq_true_eq] at this
      linarith
  · have hd : s.alive = false := by simpa using ha
    rw [animate_dead h rnd f s hd]
    exact ⟨⟨hi.nonempty, hi.climb, hi.below, hi.spawnAhead, hi.pruneBelow, hi.maxHeight⟩,
      fun h' => absurd h' ha⟩

theorem worldInv_step (ev : Event) (s : State) (hi : WorldInv s) :
    WorldInv (step h rnd ev s) := by
  cases ev with
  | frame f => exact (worldInv_frame h rnd f s hi).1
  | keydown e =>
    cases e with
    | Space =>
      simp only [step, keydown]
      split_ifs <;>
        exact ⟨hi.nonempty, hi.climb, hi.below, hi.spawnAhead, hi.pruneBelow, hi.maxHeight⟩
    | key k => exact ⟨hi.nonempty, hi.climb, hi.below, hi.spawnAhead, hi.pruneBelow, hi.maxHeight⟩
  | keyup e =>
    cases e <;>
      exact ⟨hi.nonempty, hi.climb, hi.below, hi.spawnAhead, hi.pruneBelow, hi.maxHeight⟩
  | speedTimeout =>
    simp only [step, speedTimeout]
    split <;> exact ⟨hi.nonempty, hi.climb, hi.below, hi.spawnAhead, hi.pruneBelow, hi.maxHeight⟩
  | jumpTimeout =>
    simp only [step, jumpTimeout]
    split <;> exact ⟨hi.nonempty, hi.climb, hi.below, hi.spawnAhead, hi.pruneBelow, hi.maxHeight⟩
  | santaLoad =>
    simp only [step, santaLoad]
    split
    · exact hi
    · exact worldInv_initPlatforms h rnd s _ hi.spawnAhead hi.pruneBelow hi.maxHeight

theorem worldInv_reachable (b : Boot) (s : State) (hr : Reachable h rnd b s) : WorldInv s := by
  induction hr with
  | init =>
    exact worldInv_initPlatforms h rnd (initialState h rnd b) _ rfl rfl (le_refl _)
  | step ev _ ih => exact worldInv_step h rnd ev _ ih

end Window

/-- Claim C8: in every state reachable from the initial state (`initPlatforms`, player at its
start height) by ticks and the other events of a run, a tick of a live run, which ends with
`spawnAheadIfNeeded(maxHeight)` and `pruneBelow(maxHeight - 20)`, leaves every platform with
`maxHeight - 20 <= y < maxHeight + 60 + 2.8`, and at most 104 platforms, whatever `maxHeight`
is. -/
theorem C8_live_platforms_bounded (h : Host) (rnd : RandomSource) (b : Boot) (s : State)
    (f : Frame) (hr : Reachable h rnd b s) (ha : s.alive = true) :
    (∀ p ∈ (animate h rnd f s).scene.platforms,
        (animate h rnd f s).maxHeight - 20 ≤ p.pos.y
          ∧ p.pos.y < (animate h rnd f s).maxHeight + 60 + 28 / 10)
      ∧ (animate h rnd f s).scene.platforms.length ≤ 104 := by
  obtain ⟨hi, hlow⟩ := worldInv_frame h rnd f s (worldInv_reachable h rnd b s hr)
  refine ⟨fun p hp => ⟨hlow ha p hp, hi.below p hp⟩, ?_⟩
  obtain ⟨p, hp, hpy⟩ := pairwise_climb_span _ ((animate h rnd f s).maxHeight - 20) hi.climb
    (hlow ha) hi.nonempty
  have hup := hi.below p hp
  have hlen : ((animate h rnd f s).scene.platforms.length : ℚ) < 105 := by linarith
  have : (animate h rnd f s).scene.platforms.length < 105 := by exact_mod_cast hlen
  omega

theorem C8_live_platforms_bounded_witness :
    (initialState testHost midDraws testBoot).alive = true
      ∧ (animate testHost midDraws stillFrame
          (initialState testHost midDraws testBoot)).scene.platforms.length ≤ 104 :=
  ⟨rfl, (C8_live_platforms_bounded testHost midDraws testBoot _ stillFrame Reachable.init rfl).2⟩

/-! ## Which fields each block writes -/

section Shapes

variable (h : Host) (rnd : RandomSource) (f : Frame)

theorem integrate_shape (s : State) :
    ∃ pos vy j dj, integrate h s
      = { s with orangutan := pos, velocityY := vy, jumping := j, doubleJump := dj } := by
  have hm : ∃ pos, movement h s = { s with orangutan := pos } := by
    unfold movement
    split
    · exact ⟨_, rfl⟩
    · exact ⟨s.orangutan, rfl⟩
  obtain ⟨pos, hm⟩ := hm
  unfold integrate
  dsimp only
  rw [hm, platformCollision_find]
  split <;> exact ⟨_, _, _, _, rfl⟩

theorem deathCheck_shape (s : State) : ∃ a, deathCheck s = { s with alive := a } := by
  unfold deathCheck
  split
  · exact ⟨false, rfl⟩
  · exact ⟨s.alive, rfl⟩

theorem atPowerUps_shape (s : State) :
    ∃ pos vy j dj a, atPowerUps h f s
      = { s with camera := f.controls s.camera, orangutan := pos, velocityY := vy
                 jumping := j, doubleJump := dj, alive := a } := by
  obtain ⟨pos, vy, j, dj, h1⟩ := integrate_shape h (afterControls f s)
  obtain ⟨a, h2⟩ := deathCheck_shape (integrate h (afterControls f s))
  refine ⟨pos, vy, j, dj, a, ?_⟩
  unfold atPowerUps
  rw [h2, h1]
  rfl

theorem hitObstacle_shape (obs : Obstacle) (s : State) :
    ∃ w pos vy, hitObstacle h rnd f obs s
      = { s with scene := w, orangutan := pos, velocityY := vy } := by
  unfold hitObstacle
  split
  · dsimp only
    split
    · exact ⟨_, _, _, rfl⟩
    · exact ⟨s.scene, s.orangutan, s.velocityY, rfl⟩
  · exact ⟨s.scene, s.orangutan, s.velocityY, rfl⟩

theorem obstaclesLoop_shape (n : ℕ) : ∀ (i : ℕ) (s : State),
    ∃ w pos vy, obstaclesLoop h rnd f n i s
      = { s with scene := w, orangutan := pos, velocityY := vy } := by
  induction n with
  | zero => intro i s; exact ⟨s.scene, s.orangutan, s.velocityY, rfl⟩
  | succ n ih =>
    intro i s
    unfold obstaclesLoop
    split
    · exact ⟨s.scene, s.orangutan, s.velocityY, rfl⟩
    · rename_i obs _
      dsimp only
      obtain ⟨w1, p1, v1, h1⟩ := hitObstacle_shape h rnd f
        (moveObstacle s.scene.world.difficultyScale obs)
        { s with
          scene :=
            { s.scene with
              obstacles :=
                s.scene.obstacles.set i (moveObstacle s.scene.world.difficultyScale obs) } }
      rw [h1]
      obtain ⟨w2, p2, v2, h2⟩ := ih (i + 1)
        { s with scene := w1, orangutan := p1, velocityY := v1 }
      exact ⟨w2, p2, v2, h2⟩

theorem obstaclesStep_shape (s : State) :
    ∃ w pos vy, obstaclesStep h rnd f s
      = { s with scene := w, orangutan := pos, velocityY := vy } :=
  obstaclesLoop_shape h rnd f _ 0 s

theorem magnetTick_shape (dt : ℚ) (s : State) :
    ∃ a t, magnetTick dt s = { s with magnetActive := a, magnetTimer := t } := by
  unfold magnetTick
  split
  · dsimp only
    split
    · exact ⟨false, _, rfl⟩
    · exact ⟨s.magnetActive, _, rfl⟩
  · exact ⟨s.magnetActive, s.magnetTimer, rfl⟩

theorem finishFrame_shape (dt : ℚ) (s : State) :
    ∃ w, finishFrame h rnd dt s = { s with scene := w } := by
  unfold finishFrame spawnAndPrune
  cases spawnAheadIfNeeded h rnd s.maxHeight s.scene with
  | none => exact ⟨s.scene, rfl⟩
  | some w => exact ⟨_, rfl⟩

theorem updateScore_shape (s : State) :
    updateScore s = { s with score := s.heightScore + s.bonusScore
                             highScore := max s.highScore (s.heightScore + s.bonusScore) } := by
  unfold updateScore
  dsimp only
  split
  · rename_i hgt
    rw [max_eq_right (le_of_lt hgt)]
  · rename_i hgt
    rw [max_eq_left (not_lt.mp hgt)]

theorem heightScoring_tally (s : State) :
    (heightScoring s).heightScore = s.heightScore + ⌊50 * max 0 (s.orangutan.y - s.maxHeight)⌋
      ∧ (heightScoring s).maxHeight = max s.maxHeight s.orangutan.y
      ∧ (heightScoring s).bonusScore = s.bonusScore
      ∧ (heightScoring s).bananasCollected = s.bananasCollected
      ∧ (heightScoring s).highScore = s.highScore
      ∧ (heightScoring s).orangutan = s.orangutan
      ∧ (heightScoring s).magnetActive = s.magnetActive
      ∧ (heightScoring s).magnetTimer = s.magnetTimer := by
  unfold heightScoring
  split
  · rename_i hgt
    refine ⟨?_, (max_eq_right (le_of_lt hgt)).symm, rfl, rfl, rfl, rfl, rfl, rfl⟩
    show s.heightScore + ⌊(s.orangutan.y - s.maxHeight) * 50⌋ = _
    rw [max_eq_right (by linarith), mul_comm]
  · rename_i hgt
    refine ⟨?_, (max_eq_left (not_lt.mp hgt)).symm, rfl, rfl, rfl, rfl, rfl, rfl⟩
    rw [max_eq_left (by linarith [not_lt.mp hgt])]
    simp

theorem interact_heightScore (dt : ℚ) (s : State) :
    (interact h rnd f dt s).heightScore = s.heightScore := by
  have k1 := powerUpsStep_keeps h rnd f s
  have k2 := bananasStep_keeps h rnd dt (powerUpsStep h rnd f s)
  have k3 := obstaclesStep_keeps h rnd f (bananasStep h rnd dt (powerUpsStep h rnd f s))
  exact (keeps_trans (keeps_trans k1 k2) k3).heightScore

theorem atScoring_frame (s : State) :
    (atScoring h rnd f s).heightScore = s.heightScore
      ∧ (atScoring h rnd f s).maxHeight = s.maxHeight := by
  obtain ⟨pos, vy, j, dj, a, hp⟩ := atPowerUps_shape h f s
  unfold atScoring
  rw [interact_heightScore, (interact_frame h rnd f _ _).2.2.1, hp]
  exact ⟨rfl, rfl⟩

/-- The end of a tick of a live run, from the state at the scoring block. -/
theorem animate_from_scoring (s : State) (ha : s.alive = true) :
    animate h rnd f s = finishFrame h rnd (min f.delta (5 / 100))
      (magnetTick (min f.delta (5 / 100)) (updateScore (heightScoring (atScoring h rnd f s)))) := by
  rw [animate_alive h rnd f s ha]
  rfl

theorem finishFrame_fields (dt : ℚ) (s : State) :
    (finishFrame h rnd dt s).heightScore = s.heightScore
      ∧ (finishFrame h rnd dt s).bonusScore = s.bonusScore
      ∧ (finishFrame h rnd dt s).bananasCollected = s.bananasCollected
      ∧ (finishFrame h rnd dt s).score = s.score
      ∧ (finishFrame h rnd dt s).highScore = s.highScore
      ∧ (finishFrame h rnd dt s).magnetActive = s.magnetActive
      ∧ (finishFrame h rnd dt s).magnetTimer = s.magnetTimer
      ∧ (finishFrame h rnd dt s).velocityY = s.velocityY
      ∧ (finishFrame h rnd dt s).lastHitTime = s.lastHitTime := by
  obtain ⟨w, hw⟩ := finishFrame_shape h rnd dt s
  rw [hw]
  exact ⟨rfl, rfl, rfl, rfl, rfl, rfl, rfl, rfl, rfl⟩

theorem magnetTick_fields (dt : ℚ) (s : State) :
    (magnetTick dt s).heightScore = s.heightScore
      ∧ (magnetTick dt s).bonusScore = s.bonusScore
      ∧ (magnetTick dt s).bananasCollected = s.bananasCollected
      ∧ (magnetTick dt s).score = s.score
      ∧ (magnetTick dt s).highScore = s.highScore
      ∧ (magnetTick dt s).orangutan = s.orangutan
      ∧ (magnetTick dt s).velocityY = s.velocityY
      ∧ (magnetTick dt s).lastHitTime = s.lastHitTime := by
  obtain ⟨a, t, hm⟩ := magnetTick_shape dt s
  rw [hm]
  exact ⟨rfl, rfl, rfl, rfl, rfl, rfl, rfl, rfl⟩

theorem updateScore_fields (s : State) :
    (updateScore s).heightScore = s.heightScore
      ∧ (updateScore s).bonusScore = s.bonusScore
      ∧ (updateScore s).bananasCollected = s.bananasCollected
      ∧ (updateScore s).score = s.heightScore + s.bonusScore
      ∧ (updateScore s).highScore = max s.highScore (s.heightScore + s.bonusScore)
      ∧ (updateScore s).orangutan = s.orangutan
      ∧ (updateScore s).magnetActive = s.magnetActive
      ∧ (updateScore s).magnetTimer = s.magnetTimer
      ∧ (updateScore s).velocityY = s.velocityY
      ∧ (updateScore s).lastHitTime = s.lastHitTime := by
  rw [updateScore_shape]
  exact ⟨rfl, rfl, rfl, rfl, rfl, rfl, rfl, rfl, rfl, rfl⟩

theorem animate_scores (s : State) (ha : s.alive = true) :
    (animate h rnd f s).heightScore = (heightScoring (atScoring h rnd f s)).heightScore
      ∧ (animate h rnd f s).maxHeight = (heightScoring (atScoring h rnd f s)).maxHeight
      ∧ (animate h rnd f s).bonusScore = (atScoring h rnd f s).bonusScore
      ∧ (animate h rnd f s).bananasCollected = (atScoring h rnd f s).bananasCollected
      ∧ (animate h rnd f s).score
          = (animate h rnd f s).heightScore + (animate h rnd f s).bonusScore := by
  obtain ⟨_, _, t3, t4, _⟩ := heightScoring_tally (atScoring h rnd f s)
  obtain ⟨f1, f2, f3, f4, _⟩ := finishFrame_fields h rnd (min f.delta (5 / 100))
    (magnetTick (min f.delta (5 / 100)) (updateScore (heightScoring (atScoring h rnd f s))))
  obtain ⟨m1, m2, m3, m4, _⟩ := magnetTick_fields (min f.delta (5 / 100))
    (updateScore (heightScoring (atScoring h rnd f s)))
  obtain ⟨u1, u2, u3, u4, _⟩ := updateScore_fields (heightScoring (atScoring h rnd f s))
  rw [animate_from_scoring h rnd f s ha, f1, f2, f3, f4, m1, m2, m3, m4, u1, u2, u3, u4,
    (finishFrame_frame h rnd _ _).2.1, (magnetTick_frame _ _).2.2, (updateScore_frame _).2.2,
    t3, t4]
  exact ⟨rfl, rfl, rfl, rfl, rfl⟩

end Shapes

/-! ## Height scoring -/

theorem step_maxHeight (h : Host) (rnd : RandomSource) (ev : Event) (s : State) :
    s.maxHeight ≤ (step h rnd ev s).maxHeight
      ∧ ((step h rnd ev s).heightScore ≠ s.heightScore →
          s.maxHeight < (step h rnd ev s).maxHeight) := by
  cases ev with
  | frame f =>
    simp only [step]
    by_cases ha : s.alive = true
    · obtain ⟨a1, a2, _⟩ := animate_scores h rnd f s ha
      obtain ⟨b1, b2⟩ := atScoring_frame h rnd f s
      obtain ⟨t1, t2, _⟩ := heightScoring_tally (atScoring h rnd f s)
      rw [a1, a2, t1, t2, b1, b2]
      refine ⟨le_max_left _ _, fun hne => ?_⟩
      by_contra hlt
      have hle : (atScoring h rnd f s).orangutan.y ≤ s.maxHeight := by
        by_contra hgt
        exact hlt (lt_max_of_lt_right (not_le.mp hgt))
      apply hne
      rw [max_eq_left (by linarith)]
      simp
    · have hd : s.alive = false := by simpa using ha
      rw [animate_dead h rnd f s hd]
      exact ⟨le_refl _, fun hne => absurd rfl hne⟩
  | keydown e =>
    cases e with
    | Space =>
      simp only [step, keydown]
      split_ifs <;> exact ⟨le_refl _, fun hne => absurd rfl hne⟩
    | key k => exact ⟨le_refl _, fun hne => absurd rfl hne⟩
  | keyup e => cases e <;> exact ⟨le_refl _, fun hne => absurd rfl hne⟩
  | speedTimeout =>
    simp only [step, speedTimeout]
    split <;> exact ⟨le_refl _, fun hne => absurd rfl hne⟩
  | jumpTimeout =>
    simp only [step, jumpTimeout]
    split <;> exact ⟨le_refl _, fun hne => absurd rfl hne⟩
  | santaLoad =>
    simp only [step, santaLoad]
    split <;> exact ⟨le_refl _, fun hne => absurd rfl hne⟩

theorem run_maxHeight (h : Host) (rnd : RandomSource) (evs : List Event) :
    ∀ s : State, s.maxHeight ≤ (run h rnd evs s).maxHeight := by
  induction evs with
  | nil => intro s; exact le_refl _
  | cons ev evs ih =>
    intro s
    exact le_trans (step_maxHeight h rnd ev s).1 (ih (step h rnd ev s))

/-- Claim C11: in every tick of a live run, with `y` the player's height when the scoring block
runs, `heightScore` increases by exactly `floor(50 * max(0, y - maxHeight))` and `maxHeight`
becomes `max(maxHeight, y)`; so no event of a run lowers `maxHeight`, over any sequence of
events it is non-decreasing, and an event changes `heightScore` only if it is a tick that sets
a new maximum height. -/
theorem C11_height_score_gain (h : Host) (rnd : RandomSource) (f : Frame) (s : State)
    (ha : s.alive = true) :
    (animate h rnd f s).heightScore
        = s.heightScore + ⌊50 * max 0 ((atScoring h rnd f s).orangutan.y - s.maxHeight)⌋
      ∧ (animate h rnd f s).maxHeight = max s.maxHeight (atScoring h rnd f s).orangutan.y
      ∧ (∀ (ev : Event) (t : State), t.maxHeight ≤ (step h rnd ev t).maxHeight)
      ∧ (∀ (evs : List Event) (t : State), t.maxHeight ≤ (run h rnd evs t).maxHeight)
      ∧ (∀ (ev : Event) (t : State), (step h rnd ev t).heightScore ≠ t.heightScore →
          (∃ g, ev = Event.frame g) ∧ t.maxHeight < (step h rnd ev t).maxHeight) := by
  obtain ⟨a1, a2, _⟩ := animate_scores h rnd f s ha
  obtain ⟨b1, b2⟩ := atScoring_frame h rnd f s
  obtain ⟨t1, t2, _⟩ := heightScoring_tally (atScoring h rnd f s)
  refine ⟨by rw [a1, t1, b1, b2], by rw [a2, t2, b2],
    fun ev t => (step_maxHeight h rnd ev t).1, fun evs t => run_maxHeight h rnd evs t, ?_⟩
  intro ev t hne
  refine ⟨?_, (step_maxHeight h rnd ev t).2 hne⟩
  cases ev with
  | frame g => exact ⟨g, rfl⟩
  | keydown e =>
    exfalso
    have := (step_maxHeight h rnd (Event.keydown e) t).2 hne
    cases e with
    | Space =>
      simp only [step, keydown] at this
      split_ifs at this <;> exact lt_irrefl _ this
    | key k => exact lt_irrefl _ this
  | keyup e =>
    exfalso
    have := (step_maxHeight h rnd (Event.keyup e) t).2 hne
    cases e <;> exact lt_irrefl _ this
  | speedTimeout =>
    exfalso
    have := (step_maxHeight h rnd Event.speedTimeout t).2 hne
    simp only [step, speedTimeout] at this
    split_ifs at this <;> exact lt_irrefl _ this
  | jumpTimeout =>
    exfalso
    have := (step_maxHeight h rnd Event.jumpTimeout t).2 hne
    simp only [step, jumpTimeout] at this
    split_ifs at this <;> exact lt_irrefl _ this
  | santaLoad =>
    exfalso
    have := (step_maxHeight h rnd Event.santaLoad t).2 hne
    simp only [step, santaLoad] at this
    split_ifs at this <;> exact lt_irrefl _ this

theorem C11_height_score_gain_witness :
    (step testHost midDraws (Event.keydown Code.Space)
        (initialState testHost midDraws testBoot)).alive = true
      ∧ (animate testHost midDraws stillFrame (step testHost midDraws (Event.keydown Code.Space)
          (initialState testHost midDraws testBoot))).heightScore
        = (step testHost midDraws (Event.keydown Code.Space)
            (initialState testHost midDraws testBoot)).heightScore
          + ⌊50 * max 0 ((atScoring testHost midDraws stillFrame
              (step testHost midDraws (Event.keydown Code.Space)
                (initialState testHost midDraws testBoot))).orangutan.y
            - (step testHost midDraws (Event.keydown Code.Space)
                (initialState testHost midDraws testBoot)).maxHeight)⌋
      ∧ ⌊50 * max 0 ((atScoring testHost midDraws stillFrame
              (step testHost midDraws (Event.keydown Code.Space)
                (initialState testHost midDraws testBoot))).orangutan.y
            - (step testHost midDraws (Event.keydown Code.Space)
                (initialState testHost midDraws testBoot)).maxHeight)⌋ = 29 :=
  ⟨rfl, (C11_height_score_gain testHost midDraws stillFrame _ rfl).1, by decide!⟩

/-! ## The score update -/

theorem heightScoring_idle (s : State) (hle : s.orangutan.y ≤ s.maxHeight) :
    heightScoring s = s := by
  unfold heightScoring
  rw [if_neg (not_lt.mpr hle)]

theorem scoreUpdate_idempotent (x : State) :
    updateScore (heightScoring (updateScore (heightScoring x))) = updateScore (heightScoring x) := by
  obtain ⟨_, t2, _, _, _, t6, _⟩ := heightScoring_tally x
  obtain ⟨u1, u2, _, u4, u5, u6, _⟩ := updateScore_fields (heightScoring x)
  have hmh : (updateScore (heightScoring x)).maxHeight = max x.maxHeight x.orangutan.y := by
    rw [(updateScore_frame _).2.2, t2]
  have hy : (updateScore (heightScoring x)).orangutan.y ≤ (updateScore (heightScoring x)).maxHeight := by
    rw [hmh, u6, t6]
    exact le_max_right _ _
  rw [heightScoring_idle _ hy]
  generalize updateScore (heightScoring x) = u at u1 u2 u4 u5
  unfold updateScore
  dsimp only
  have hs : u.heightScore + u.bonusScore = u.score := by rw [u4, u1, u2]
  have hh : ¬ u.heightScore + u.bonusScore > u.highScore := by
    rw [u5, u1, u2]
    exact not_lt.mpr (le_max_right _ _)
  rw [if_neg hh, hs]

/-- Claim C12: after the score-update step (height-based scoring, then total score and high
score), and so at the end of every tick of a live run, `score = heightScore + bonusScore`; and
the step is idempotent: applied a second time to its own result, with the same player height
and no pickup in between, it returns that result unchanged, so `score`, `heightScore`,
`bonusScore`, `maxHeight` and `highScore` all stay as they are. -/
theorem C12_score_update_idempotent (h : Host) (rnd : RandomSource) (f : Frame) (s : State)
    (ha : s.alive = true) :
    (animate h rnd f s).score = (animate h rnd f s).heightScore + (animate h rnd f s).bonusScore
      ∧ (∀ x : State, (updateScore (heightScoring x)).score
          = (updateScore (heightScoring x)).heightScore
            + (updateScore (heightScoring x)).bonusScore)
      ∧ (∀ x : State, updateScore (heightScoring (updateScore (heightScoring x)))
          = updateScore (heightScoring x))
      ∧ (∀ x : State,
          (updateScore (heightScoring (updateScore (heightScoring x)))).score
              = (updateScore (heightScoring x)).score
            ∧ (updateScore (heightScoring (updateScore (heightScoring x)))).heightScore
              = (updateScore (heightScoring x)).heightScore
            ∧ (updateScore (heightScoring (updateScore (heightScoring x)))).bonusScore
              = (updateScore (heightScoring x)).bonusScore
            ∧ (updateScore (heightScoring (updateScore (heightScoring x)))).maxHeight
              = (updateScore (heightScoring x)).maxHeight
            ∧ (updateScore (heightScoring (updateScore (heightScoring x)))).highScore
              = (updateScore (heightScoring x)).highScore) := by
  refine ⟨(animate_scores h rnd f s ha).2.2.2.2, ?_, scoreUpdate_idempotent, ?_⟩
  · intro x
    obtain ⟨u1, u2, _, u4, _⟩ := updateScore_fields (heightScoring x)
    rw [u1, u2, u4]
  · intro x
    rw [scoreUpdate_idempotent x]
    exact ⟨rfl, rfl, rfl, rfl, rfl⟩

theorem C12_score_update_idempotent_witness :
    landingScenario.alive = true
      ∧ (animate testHost midDraws stillFrame landingScenario).score
        = (animate testHost midDraws stillFrame landingScenario).heightScore
          + (animate testHost midDraws stillFrame landingScenario).bonusScore :=
  ⟨rfl, (C12_score_update_idempotent testHost midDraws stillFrame landingScenario rfl).1⟩

/-! ## The last platform is the frontier -/

/-- Claim C16: in every state reachable from the initial state (built by `initPlatforms`) by
ticks and the other events of a run, the platform list is non-empty and its heights are
strictly increasing in list order; so `platforms[platforms.length - 1]`, which
`spawnAheadIfNeeded` reads to place the next platform, exists and is the highest platform, its
height is the `currentHigh` that the loop condition tests first, and `spawnAheadIfNeeded` does
not throw. -/
theorem C16_last_platform_is_highest (h : Host) (rnd : RandomSource) (b : Boot) (s : State)
    (hr : Reachable h rnd b s) :
    s.scene.platforms ≠ []
      ∧ s.scene.platforms.Pairwise (fun p q => p.pos.y < q.pos.y)
      ∧ ∃ lastPlat, s.scene.platforms.getLast? = some lastPlat
          ∧ (∀ p ∈ s.scene.platforms, p.pos.y ≤ lastPlat.pos.y)
          ∧ (∀ y ys, s.scene.platforms.map (fun p => p.pos.y) = y :: ys →
              ys.foldl max y = lastPlat.pos.y)
          ∧ ∃ w', spawnAheadIfNeeded h rnd s.maxHeight s.scene = some w' := by
  have hi := worldInv_reachable h rnd b s hr
  have hlt : s.scene.platforms.Pairwise (fun p q => p.pos.y < q.pos.y) := by
    refine hi.climb.imp ?_
    intro p q hpq
    unfold Climb at hpq
    linarith
  obtain ⟨lp, hlp⟩ : ∃ lp, s.scene.platforms.getLast? = some lp := by
    cases hq : s.scene.platforms.getLast? with
    | none => exact absurd (List.getLast?_eq_none_iff.mp hq) hi.nonempty
    | some lp => exact ⟨lp, rfl⟩
  have hmax := pairwise_climb_le_last _ lp hi.climb hlp
  refine ⟨hi.nonempty, hlt, lp, hlp, hmax, ?_, ?_⟩
  · intro y ys hm
    obtain ⟨hall, hmem⟩ := foldl_max_spec ys y
    rw [← hm] at hall hmem
    obtain ⟨p, hp, hpy⟩ := List.mem_map.mp hmem
    apply le_antisymm
    · rw [← hpy]; exact hmax p hp
    · exact hall _ (List.mem_map.mpr ⟨lp, List.mem_of_getLast?_eq_some hlp, rfl⟩)
  · obtain ⟨w', _, hw, _⟩ := spawnAheadIfNeeded_spec h rnd s.maxHeight s.scene hi.nonempty
    exact ⟨w', hw⟩

theorem C16_last_platform_is_highest_witness :
    (initialState testHost midDraws testBoot).scene.platforms ≠ []
      ∧ (initialState testHost midDraws testBoot).scene.platforms.Pairwise
          (fun p q => p.pos.y < q.pos.y) :=
  ⟨(C16_last_platform_is_highest testHost midDraws testBoot _ Reachable.init).1,
    (C16_last_platform_is_highest testHost midDraws testBoot _ Reachable.init).2.1⟩

/-! ## The pickup loops -/

theorem set_splice {α : Type} (xs : List α) (n : ℕ) (a : α) (hlt : n < xs.length) :
    (xs.set n a).take n = xs.take n ∧ (xs.set n a).drop n = a :: xs.drop (n + 1)
      ∧ ((xs.set n a).eraseIdx n).take n = xs.take n
      ∧ ((xs.set n a).eraseIdx n).drop n = xs.drop (n + 1)
      ∧ xs.take (n + 1) = xs.take n ++ [xs[n]] := by
  have hset : xs.set n a = xs.take n ++ a :: xs.drop (n + 1) := by
    rw [List.set_eq_take_append_cons_drop, if_pos hlt]
  have hlen : (xs.take n).length = n := by
    rw [List.length_take]; omega
  have hers : (xs.set n a).eraseIdx n = xs.take n ++ xs.drop (n + 1) := by
    rw [hset, List.eraseIdx_append_of_length_le (by omega), hlen, Nat.sub_self]
    rfl
  refine ⟨?_, ?_, ?_, ?_, ?_⟩
  · rw [hset, List.take_append_of_le_length (by omega), List.take_take, Nat.min_self]
  · rw [hset, List.drop_append_of_le_length (by omega), List.drop_take, Nat.sub_self]
    simp
  · rw [hers, List.take_append_of_le_length (by omega), List.take_take, Nat.min_self]
  · rw [hers, List.drop_append_of_le_length (by omega), List.drop_take, Nat.sub_self]
    simp
  · rw [List.take_succ, List.getElem?_eq_getElem hlt]
    rfl

section Pickups

variable (h : Host) (rnd : RandomSource) (f : Frame)

theorem bananaBody_at (dt : ℚ) (i : ℕ) (s : State) (b : Banana)
    (hb : s.scene.bananas[i]? = some b) :
    (bananaBody h rnd dt i s).scene.bananas
        = (if inReach h s.orangutan (bananaAtCheck h dt s.orangutan s.magnetActive b) = true then
            (s.scene.bananas.set i (bananaAtCheck h dt s.orangutan s.magnetActive b)).eraseIdx i
          else s.scene.bananas.set i (bananaAtCheck h dt s.orangutan s.magnetActive b))
      ∧ (bananaBody h rnd dt i s).bananasCollected
        = s.bananasCollected
          + (if inReach h s.orangutan (bananaAtCheck h dt s.orangutan s.magnetActive b) = true
              then 1 else 0)
      ∧ (bananaBody h rnd dt i s).bonusScore
        = s.bonusScore
          + (if inReach h s.orangutan (bananaAtCheck h dt s.orangutan s.magnetActive b) = true
              then 25 else 0)
      ∧ (bananaBody h rnd dt i s).orangutan = s.orangutan
      ∧ (bananaBody h rnd dt i s).magnetActive = s.magnetActive
      ∧ (bananaBody h rnd dt i s).magnetTimer = s.magnetTimer
      ∧ (bananaBody h rnd dt i s).scene.powerUps = s.scene.powerUps := by
  unfold bananaBody
  rw [hb]
  simp only [inReach, decide_eq_true_eq]
  by_cases hr : dist h s.orangutan (bananaAtCheck h dt s.orangutan s.magnetActive b).pos < 1
  · have hr' := hr
    unfold bananaAtCheck at hr'
    rw [if_pos hr, if_pos hr, if_pos hr]
    rw [if_pos hr']
    exact ⟨rfl, rfl, rfl, rfl, rfl, rfl, rfl⟩
  · have hr' := hr
    unfold bananaAtCheck at hr'
    rw [if_neg hr, if_neg hr, if_neg hr]
    rw [if_neg hr']
    exact ⟨rfl, by simp, by simp, rfl, rfl, rfl, rfl⟩

theorem bananas_forDown (dt : ℚ) (player : Vec3) (magnet : Bool) (n : ℕ) :
    ∀ s : State, s.orangutan = player → s.magnetActive = magnet → n ≤ s.scene.bananas.length →
      (forDown n (bananaBody h rnd dt) s).scene.bananas
          = ((s.scene.bananas.take n).map (bananaAtCheck h dt player magnet)).filter
              (fun b => !inReach h player b)
            ++ s.scene.bananas.drop n
        ∧ (forDown n (bananaBody h rnd dt) s).bananasCollected
          = s.bananasCollected
            + (((s.scene.bananas.take n).map (bananaAtCheck h dt player magnet)).countP
                (inReach h player) : ℕ)
        ∧ (forDown n (bananaBody h rnd dt) s).bonusScore
          = s.bonusScore
            + 25 * (((s.scene.bananas.take n).map (bananaAtCheck h dt player magnet)).countP
                (inReach h player) : ℕ)
        ∧ (forDown n (bananaBody h rnd dt) s).magnetActive = s.magnetActive
        ∧ (forDown n (bananaBody h rnd dt) s).magnetTimer = s.magnetTimer
        ∧ (forDown n (bananaBody h rnd dt) s).scene.powerUps = s.scene.powerUps := by
  induction n with
  | zero => intro s _ _ _; simp [forDown]
  | succ n ih =>
    intro s hp hm hn
    have hlt : n < s.scene.bananas.length := hn
    have hget : s.scene.bananas[n]? = some s.scene.bananas[n] := List.getElem?_eq_getElem hlt
    obtain ⟨b1, b2, b3, b4, b5, b6, b7⟩ := bananaBody_at h rnd dt n s _ hget
    rw [hp, hm] at b1 b2 b3
    obtain ⟨l1, l2, l3, l4, l5⟩ := set_splice s.scene.bananas n
      (bananaAtCheck h dt player magnet s.scene.bananas[n]) hlt
    simp only [forDown]
    by_cases hr : inReach h player (bananaAtCheck h dt player magnet s.scene.bananas[n]) = true
    · rw [if_pos hr] at b1 b2 b3
      obtain ⟨i1, i2, i3, i4, i5, i6⟩ := ih (bananaBody h rnd dt n s) (b4.trans hp) (b5.trans hm)
        (by rw [b1, List.length_eraseIdx, List.length_set]; simp [hlt]; omega)
      rw [b1, l3, l4] at i1
      rw [b1, l3, b2] at i2
      rw [b1, l3, b3] at i3
      refine ⟨?_, ?_, ?_, i4.trans b5, i5.trans b6, i6.trans b7⟩
      · rw [i1, l5, List.map_append, List.filter_append]
        simp [hr]
      · rw [i2, l5, List.map_append, List.countP_append]
        simp [hr]
        ring
      · rw [i3, l5, List.map_append, List.countP_append]
        simp [hr]
        ring
    · rw [if_neg hr] at b1 b2 b3
      obtain ⟨i1, i2, i3, i4, i5, i6⟩ := ih (bananaBody h rnd dt n s) (b4.trans hp) (b5.trans hm)
        (by rw [b1, List.length_set]; omega)
      rw [b1, l1, l2] at i1
      rw [b1, l1, b2] at i2
      rw [b1, l1, b3] at i3
      refine ⟨?_, ?_, ?_, i4.trans b5, i5.trans b6, i6.trans b7⟩
      · rw [i1, l5, List.map_append, List.filter_append]
        simp [hr]
      · rw [i2, l5, List.map_append, List.countP_append]
        simp [hr]
      · rw [i3, l5, List.map_append, List.countP_append]
        simp [hr]

/-- The banana loop: every banana is brought to its collision-check position; those within
reach are removed and counted, the others stay, in order. -/
theorem bananasStep_spec (dt : ℚ) (s : State) :
    (bananasStep h rnd dt s).scene.bananas
        = ((s.scene.bananas.map (bananaAtCheck h dt s.orangutan s.magnetActive)).filter
            (fun b => !inReach h s.orangutan b))
      ∧ (bananasStep h rnd dt s).bananasCollected
        = s.bananasCollected
          + ((s.scene.bananas.map (bananaAtCheck h dt s.orangutan s.magnetActive)).countP
              (inReach h s.orangutan) : ℕ)
      ∧ (bananasStep h rnd dt s).bonusScore
        = s.bonusScore
          + 25 * ((s.scene.bananas.map (bananaAtCheck h dt s.orangutan s.magnetActive)).countP
              (inReach h s.orangutan) : ℕ)
      ∧ (bananasStep h rnd dt s).magnetActive = s.magnetActive
      ∧ (bananasStep h rnd dt s).magnetTimer = s.magnetTimer
      ∧ (bananasStep h rnd dt s).scene.powerUps = s.scene.powerUps := by
  have := bananas_forDown h rnd dt s.orangutan s.magnetActive s.scene.bananas.length s rfl rfl
    (le_refl _)
  simpa [bananasStep] using this

end Pickups

section PowerUps

variable (h : Host) (rnd : RandomSource) (f : Frame)

theorem applyPowerUp_magnet (kind : PowerUpKind) (s : State) :
    (applyPowerUp kind s).magnetActive
        = (if kind = PowerUpKind.magnet then true else s.magnetActive)
      ∧ (applyPowerUp kind s).magnetTimer
        = (if kind = PowerUpKind.magnet then 6 else s.magnetTimer)
      ∧ (applyPowerUp kind s).bonusScore = s.bonusScore
      ∧ (applyPowerUp kind s).bananasCollected = s.bananasCollected
      ∧ (applyPowerUp kind s).orangutan = s.orangutan
      ∧ (applyPowerUp kind s).scene = s.scene := by
  cases kind <;> simp [applyPowerUp]

theorem powerUpBody_at (i : ℕ) (s : State) (pu : PowerUp)
    (hb : s.scene.powerUps[i]? = some pu) :
    (powerUpBody h rnd f i s).scene.powerUps
        = (if powerUpTaken h f s.orangutan pu = true then
            (s.scene.powerUps.set i (bobbed h f pu)).eraseIdx i
          else s.scene.powerUps.set i (bobbed h f pu))
      ∧ (powerUpBody h rnd f i s).bonusScore
        = s.bonusScore + (if powerUpTaken h f s.orangutan pu = true then 150 else 0)
      ∧ (powerUpBody h rnd f i s).bananasCollected = s.bananasCollected
      ∧ (powerUpBody h rnd f i s).orangutan = s.orangutan
      ∧ (powerUpBody h rnd f i s).scene.bananas = s.scene.bananas
      ∧ (powerUpBody h rnd f i s).magnetActive
        = (if magnetTaken h f s.orangutan pu = true then true else s.magnetActive)
      ∧ (powerUpBody h rnd f i s).magnetTimer
        = (if magnetTaken h f s.orangutan pu = true then 6 else s.magnetTimer) := by
  unfold powerUpBody
  rw [hb]
  simp only [magnetTaken, powerUpTaken, Bool.and_eq_true, decide_eq_true_eq]
  by_cases hr : dist h s.orangutan (bobbed h f pu).pos < 1
  · have hr' := hr
    unfold bobbed at hr'
    simp only [hr, true_and, if_true]
    rw [if_pos hr']
    obtain ⟨pos, kind, spawnY, bob⟩ := pu
    cases kind <;>
      exact ⟨rfl, rfl, rfl, rfl, rfl, by simp [applyPowerUp], by simp [applyPowerUp]⟩
  · have hr' := hr
    unfold bobbed at hr'
    simp only [hr, false_and, if_false]
    rw [if_neg hr']
    simp [bobbed]

theorem powerUps_forDown (player : Vec3) (n : ℕ) :
    ∀ s : State, s.orangutan = player → n ≤ s.scene.powerUps.length →
      (forDown n (powerUpBody h rnd f) s).scene.powerUps
          = ((s.scene.powerUps.take n).filter (fun pu => !powerUpTaken h f player pu)).map
              (bobbed h f)
            ++ s.scene.powerUps.drop n
        ∧ (forDown n (powerUpBody h rnd f) s).bonusScore
          = s.bonusScore
            + 150 * ((s.scene.powerUps.take n).countP (powerUpTaken h f player) : ℕ)
        ∧ (forDown n (powerUpBody h rnd f) s).bananasCollected = s.bananasCollected
        ∧ (forDown n (powerUpBody h rnd f) s).orangutan = s.orangutan
        ∧ (forDown n (powerUpBody h rnd f) s).scene.bananas = s.scene.bananas
        ∧ (forDown n (powerUpBody h rnd f) s).magnetActive
          = (if (s.scene.powerUps.take n).any (magnetTaken h f player) = true then true
              else s.magnetActive)
        ∧ (forDown n (powerUpBody h rnd f) s).magnetTimer
          = (if (s.scene.powerUps.take n).any (magnetTaken h f player) = true then 6
              else s.magnetTimer) := by
  induction n with
  | zero => intro s _ _; simp [forDown]
  | succ n ih =>
    intro s hp hn
    have hlt : n < s.scene.powerUps.length := hn
    have hget : s.scene.powerUps[n]? = some s.scene.powerUps[n] := List.getElem?_eq_getElem hlt
    obtain ⟨b1, b2, b3, b4, b5, b6, b7⟩ := powerUpBody_at h rnd f n s _ hget
    rw [hp] at b1 b2 b6 b7
    obtain ⟨l1, l2, l3, l4, l5⟩ := set_splice s.scene.powerUps n
      (bobbed h f s.scene.powerUps[n]) hlt
    simp only [forDown]
    by_cases hr : powerUpTaken h f player s.scene.powerUps[n] = true
    · rw [if_pos hr] at b1 b2
      obtain ⟨i1, i2, i3, i4, i5, i6, i7⟩ := ih (powerUpBody h rnd f n s) (b4.trans hp)
        (by rw [b1, List.length_eraseIdx, List.length_set]; simp [hlt]; omega)
      rw [b1, l3, l4] at i1
      rw [b1, l3, b2] at i2
      rw [b1, l3, b6] at i6
      rw [b1, l3, b7] at i7
      refine ⟨?_, ?_, i3.trans b3, i4.trans b4, i5.trans b5, ?_, ?_⟩
      · rw [i1, l5, List.filter_append]
        simp [hr]
      · rw [i2, l5, List.countP_append]
        simp [hr]
        ring
      · rw [i6, l5, List.any_append]
        by_cases ha : (List.take n s.scene.powerUps).any (magnetTaken h f player) = true
        · simp [ha]
        · simp [ha]
      · rw [i7, l5, List.any_append]
        by_cases ha : (List.take n s.scene.powerUps).any (magnetTaken h f player) = true
        · simp [ha]
        · simp [ha]
    · rw [if_neg hr] at b1 b2
      have hm : ¬ magnetTaken h f player s.scene.powerUps[n] = true := by
        intro hmt
        simp only [magnetTaken, Bool.and_eq_true] at hmt
        exact hr hmt.1
      rw [if_neg hm] at b6 b7
      obtain ⟨i1, i2, i3, i4, i5, i6, i7⟩ := ih (powerUpBody h rnd f n s) (b4.trans hp)
        (by rw [b1, List.length_set]; omega)
      rw [b1, l1, l2] at i1
      rw [b1, l1, b2] at i2
      rw [b1, l1, b6] at i6
      rw [b1, l1, b7] at i7
      refine ⟨?_, ?_, i3.trans b3, i4.trans b4, i5.trans b5, ?_, ?_⟩
      · rw [i1, l5, List.filter_append]
        simp [hr]
      · rw [i2, l5, List.countP_append]
        simp [hr]
      · rw [i6, l5, List.any_append]
        simp [hm]
      · rw [i7, l5, List.any_append]
        simp [hm]

/-- The power-up loop: every power-up is set to its bobbing height; those within reach are
removed, each adds 150 to `bonusScore`, and a collected magnet sets the magnet timer to 6. -/
theorem powerUpsStep_spec (s : State) :
    (powerUpsStep h rnd f s).scene.powerUps
        = (s.scene.powerUps.filter (fun pu => !powerUpTaken h f s.orangutan pu)).map (bobbed h f)
      ∧ (powerUpsStep h rnd f s).bonusScore
        = s.bonusScore + 150 * (s.scene.powerUps.countP (powerUpTaken h f s.orangutan) : ℕ)
      ∧ (powerUpsStep h rnd f s).bananasCollected = s.bananasCollected
      ∧ (powerUpsStep h rnd f s).orangutan = s.orangutan
      ∧ (powerUpsStep h rnd f s).scene.bananas = s.scene.bananas
      ∧ (powerUpsStep h rnd f s).magnetActive
        = (if s.scene.powerUps.any (magnetTaken h f s.orangutan) = true then true
            else s.magnetActive)
      ∧ (powerUpsStep h rnd f s).magnetTimer
        = (if s.scene.powerUps.any (magnetTaken h f s.orangutan) = true then 6
            else s.magnetTimer) := by
  have := powerUps_forDown h rnd f s.orangutan s.scene.powerUps.length s rfl (le_refl _)
  simpa [powerUpsStep] using this

end PowerUps

/-! ## Pickups over a tick -/

section TickPickups

variable (h : Host) (rnd : RandomSource) (f : Frame)

theorem atPowerUps_fields (s : State) :
    (atPowerUps h f s).scene = s.scene ∧ (atPowerUps h f s).bonusScore = s.bonusScore
      ∧ (atPowerUps h f s).bananasCollected = s.bananasCollected
      ∧ (atPowerUps h f s).magnetActive = s.magnetActive
      ∧ (atPowerUps h f s).magnetTimer = s.magnetTimer
      ∧ (atPowerUps h f s).lastHitTime = s.lastHitTime := by
  obtain ⟨pos, vy, j, dj, a, hp⟩ := atPowerUps_shape h f s
  rw [hp]
  exact ⟨rfl, rfl, rfl, rfl, rfl, rfl⟩

theorem afterBananas_fields (s : State) :
    (cameraFollow (movePlatforms (obstaclesStep h rnd f s))).bonusScore = s.bonusScore
      ∧ (cameraFollow (movePlatforms (obstaclesStep h rnd f s))).bananasCollected
          = s.bananasCollected
      ∧ (cameraFollow (movePlatforms (obstaclesStep h rnd f s))).magnetActive = s.magnetActive
      ∧ (cameraFollow (movePlatforms (obstaclesStep h rnd f s))).magnetTimer = s.magnetTimer := by
  obtain ⟨w, pos, vy, ho⟩ := obstaclesStep_shape h rnd f s
  rw [ho]
  exact ⟨rfl, rfl, rfl, rfl⟩

theorem atScoring_eq (s : State) :
    atScoring h rnd f s
      = cameraFollow (movePlatforms (obstaclesStep h rnd f
          (bananasStep h rnd (min f.delta (5 / 100)) (atBananas h rnd f s)))) := rfl

theorem atScoring_pickups (s : State) :
    (atScoring h rnd f s).bananasCollected = s.bananasCollected + (bananasTaken h rnd f s : ℕ)
      ∧ (atScoring h rnd f s).bonusScore
          = s.bonusScore + 25 * (bananasTaken h rnd f s : ℕ) + 150 * (powerUpsTaken h f s : ℕ) := by
  obtain ⟨_, a2, a3, _⟩ := atPowerUps_fields h f s
  obtain ⟨_, p2, p3, _⟩ := powerUpsStep_spec h rnd f (atPowerUps h f s)
  obtain ⟨_, b2, b3, _⟩ := bananasStep_spec h rnd (min f.delta (5 / 100)) (atBananas h rnd f s)
  obtain ⟨c1, c2, _⟩ := afterBananas_fields h rnd f
    (bananasStep h rnd (min f.delta (5 / 100)) (atBananas h rnd f s))
  rw [atScoring_eq, c1, c2, b2, b3]
  unfold bananasTaken powerUpsTaken
  constructor
  · show (powerUpsStep h rnd f (atPowerUps h f s)).bananasCollected + _ = _
    rw [p3, a3]
  · show (powerUpsStep h rnd f (atPowerUps h f s)).bonusScore + _ = _
    rw [p2, a2]
    ring

end TickPickups

/-- The claim C13 as stated fails in a tick that also collects a power-up: with one banana and
one `'speed'` power-up within reach, the tick collects one banana (`k = 1`) and `bonusScore`
goes from 0 to 175, not to 25. -/
theorem C13_counterexample_power_up_same_tick :
    pickupScenario.alive = true
      ∧ pickupScenario.bonusScore = 0
      ∧ bananasTaken tableHost midDraws stillFrame pickupScenario = 1
      ∧ (animate tableHost midDraws stillFrame pickupScenario).bananasCollected
          = pickupScenario.bananasCollected + 1
      ∧ (animate tableHost midDraws stillFrame pickupScenario).bonusScore = 175
      ∧ ¬ ((animate tableHost midDraws stillFrame pickupScenario).bonusScore
            = pickupScenario.bonusScore
              + 25 * (bananasTaken tableHost midDraws stillFrame pickupScenario : ℕ)) := by
  have ha : pickupScenario.alive = true := rfl
  obtain ⟨_, _, a3, a4, _⟩ := animate_scores tableHost midDraws stillFrame pickupScenario ha
  have hk : bananasTaken tableHost midDraws stillFrame pickupScenario = 1 := by decide!
  have hb : (atScoring tableHost midDraws stillFrame pickupScenario).bonusScore = 175 := by
    decide!
  have hc : (atScoring tableHost midDraws stillFrame pickupScenario).bananasCollected
      = pickupScenario.bananasCollected + 1 := by decide!
  refine ⟨rfl, rfl, hk, by rw [a4, hc], by rw [a3, hb], ?_⟩
  rw [a3, hb, hk]
  decide

/-- Claim C13, amended: in every tick of a live run, the banana loop removes from the banana
list every banana whose distance to the player is below 1.0 at its collision check and keeps
every other banana, in order; if the tick collects `k` bananas and `m` power-ups then
`bananasCollected` increases by exactly `k` and `bonusScore` by exactly `25 k + 150 m` (so by
exactly `25 k` when no power-up is collected), and the score at the end of that same tick is
`heightScore + bonusScore`, so it includes the `25 k`. -/
theorem C13_banana_collection (h : Host) (rnd : RandomSource) (f : Frame) (s : State)
    (ha : s.alive = true) :
    (bananasStep h rnd (min f.delta (5 / 100)) (atBananas h rnd f s)).scene.bananas
        = ((atBananas h rnd f s).scene.bananas.map
            (bananaAtCheck h (min f.delta (5 / 100)) (atBananas h rnd f s).orangutan
              (atBananas h rnd f s).magnetActive)).filter
            (fun b => !inReach h (atBananas h rnd f s).orangutan b)
      ∧ (animate h rnd f s).bananasCollected
          = s.bananasCollected + (bananasTaken h rnd f s : ℕ)
      ∧ (animate h rnd f s).bonusScore
          = s.bonusScore + 25 * (bananasTaken h rnd f s : ℕ) + 150 * (powerUpsTaken h f s : ℕ)
      ∧ (animate h rnd f s).score
          = (animate h rnd f s).heightScore + s.bonusScore
            + 25 * (bananasTaken h rnd f s : ℕ) + 150 * (powerUpsTaken h f s : ℕ) := by
  obtain ⟨_, _, a3, a4, a5⟩ := animate_scores h rnd f s ha
  obtain ⟨q1, q2⟩ := atScoring_pickups h rnd f s
  refine ⟨(bananasStep_spec h rnd _ _).1, by rw [a4, q1], by rw [a3, q2], ?_⟩
  rw [a5, a3, q2]
  ring

theorem C13_banana_collection_witness :
    bananaScenario.alive = true
      ∧ bananasTaken tableHost midDraws stillFrame bananaScenario = 1
      ∧ powerUpsTaken tableHost stillFrame bananaScenario = 0
      ∧ (animate tableHost midDraws stillFrame bananaScenario).bananasCollected
          = bananaScenario.bananasCollected + 1
      ∧ (animate tableHost midDraws stillFrame bananaScenario).bonusScore
          = bananaScenario.bonusScore + 25
      ∧ (animate tableHost midDraws stillFrame bananaScenario).score
          = bananaScenario.score + 25 := by
  have hk : bananasTaken tableHost midDraws stillFrame bananaScenario = 1 := by decide!
  have hm : powerUpsTaken tableHost stillFrame bananaScenario = 0 := by decide!
  obtain ⟨_, c2, c3, c4⟩ := C13_banana_collection tableHost midDraws stillFrame bananaScenario rfl
  have hh : (animate tableHost midDraws stillFrame bananaScenario).heightScore = 0 := by
    rw [(animate_scores tableHost midDraws stillFrame bananaScenario rfl).1]
    decide!
  rw [hk] at c2
  rw [hk, hm] at c3
  rw [hk, hm, hh] at c4
  refine ⟨rfl, hk, hm, ?_, ?_, ?_⟩
  · rw [c2]; rfl
  · rw [c3]; norm_num
  · rw [c4]; decide!

/-! ## The magnet timer -/

theorem magnetTick_active (dt : ℚ) (s : State) (ha : s.magnetActive = true)
    (hpos : 0 < s.magnetTimer - dt) :
    (magnetTick dt s).magnetTimer = s.magnetTimer - dt ∧ (magnetTick dt s).magnetActive = true := by
  unfold magnetTick
  rw [if_pos ha]
  dsimp only
  rw [if_neg (not_le.mpr hpos)]
  exact ⟨rfl, ha⟩

theorem atScoring_magnet (h : Host) (rnd : RandomSource) (f : Frame) (s : State) :
    (atScoring h rnd f s).magnetActive = (atBananas h rnd f s).magnetActive
      ∧ (atScoring h rnd f s).magnetTimer = (atBananas h rnd f s).magnetTimer := by
  obtain ⟨_, _, _, b4, b5, _⟩ :=
    bananasStep_spec h rnd (min f.delta (5 / 100)) (atBananas h rnd f s)
  obtain ⟨_, _, c3, c4⟩ := afterBananas_fields h rnd f
    (bananasStep h rnd (min f.delta (5 / 100)) (atBananas h rnd f s))
  rw [atScoring_eq, c3, c4, b4, b5]
  exact ⟨rfl, rfl⟩

/-- Claim C14: collecting a power-up of kind `'magnet'` sets `magnetActive = true` and
`magnetTimer = 6.0` whatever they were before: so does `applyPowerUp`, so does the power-up loop
whenever a magnet power-up is within reach, and in such a tick the values reach the magnet
timer block unchanged, which leaves the timer at `6.0 - dt` with the magnet still active. In the
scenario of the specification, from an inactive magnet with timer 0 the timer becomes 6.0, and
with 3.0 seconds remaining a second magnet resets it to 6.0, not 9.0. -/
theorem C14_magnet_timer_refreshed :
    (∀ s : State, (applyPowerUp PowerUpKind.magnet s).magnetActive = true
        ∧ (applyPowerUp PowerUpKind.magnet s).magnetTimer = 6)
      ∧ (∀ (h : Host) (rnd : RandomSource) (f : Frame) (s : State),
          s.scene.powerUps.any (magnetTaken h f s.orangutan) = true →
            (powerUpsStep h rnd f s).magnetActive = true
              ∧ (powerUpsStep h rnd f s).magnetTimer = 6)
      ∧ (∀ (h : Host) (rnd : RandomSource) (f : Frame) (s : State), s.alive = true →
          (atPowerUps h f s).scene.powerUps.any
              (magnetTaken h f (atPowerUps h f s).orangutan) = true →
            (atScoring h rnd f s).magnetActive = true
              ∧ (atScoring h rnd f s).magnetTimer = 6
              ∧ (animate h rnd f s).magnetActive = true
              ∧ (animate h rnd f s).magnetTimer = 6 - min f.delta (5 / 100))
      ∧ (magnetScenario false 0).magnetActive = false
      ∧ (magnetScenario false 0).magnetTimer = 0
      ∧ (atBananas tableHost midDraws stillFrame (magnetScenario false 0)).magnetActive = true
      ∧ (atBananas tableHost midDraws stillFrame (magnetScenario false 0)).magnetTimer = 6
      ∧ (magnetScenario true 3).magnetTimer = 3
      ∧ (atBananas tableHost midDraws stillFrame (magnetScenario true 3)).magnetActive = true
      ∧ (atBananas tableHost midDraws stillFrame (magnetScenario true 3)).magnetTimer = 6
      ∧ (atBananas tableHost midDraws stillFrame (magnetScenario true 3)).magnetTimer ≠ 9 := by
  have hloop : ∀ (h : Host) (rnd : RandomSource) (f : Frame) (s : State),
      s.scene.powerUps.any (magnetTaken h f s.orangutan) = true →
        (powerUpsStep h rnd f s).magnetActive = true
          ∧ (powerUpsStep h rnd f s).magnetTimer = 6 := by
    intro h rnd f s hany
    obtain ⟨_, _, _, _, _, p6, p7⟩ := powerUpsStep_spec h rnd f s
    rw [p6, p7, if_pos hany, if_pos hany]
    exact ⟨rfl, rfl⟩
  refine ⟨fun s => ⟨rfl, rfl⟩, hloop, ?_, rfl, rfl, by decide!, by decide!, rfl, by decide!,
    by decide!, by decide!⟩
  intro h rnd f s ha hany
  obtain ⟨l1, l2⟩ := hloop h rnd f (atPowerUps h f s) hany
  obtain ⟨m1, m2⟩ := atScoring_magnet h rnd f s
  have q1 : (atScoring h rnd f s).magnetActive = true := by rw [m1]; exact l1
  have q2 : (atScoring h rnd f s).magnetTimer = 6 := by rw [m2]; exact l2
  obtain ⟨_, _, _, _, _, _, t7, t8⟩ := heightScoring_tally (atScoring h rnd f s)
  obtain ⟨_, _, _, _, _, _, u7, u8, _⟩ := updateScore_fields (heightScoring (atScoring h rnd f s))
  have hdt : min f.delta (5 / 100) ≤ 5 / 100 := min_le_right _ _
  obtain ⟨k1, k2⟩ := magnetTick_active (min f.delta (5 / 100))
    (updateScore (heightScoring (atScoring h rnd f s))) (by rw [u7, t7, q1])
    (by rw [u8, t8, q2]; linarith)
  obtain ⟨_, _, _, _, _, f6, f7, _⟩ := finishFrame_fields h rnd (min f.delta (5 / 100))
    (magnetTick (min f.delta (5 / 100)) (updateScore (heightScoring (atScoring h rnd f s))))
  refine ⟨q1, q2, ?_, ?_⟩
  · rw [animate_from_scoring h rnd f s ha, f6, k2]
  · rw [animate_from_scoring h rnd f s ha, f7, k1, u8, t8, q2]

/-! ## Obstacle knockback has no cooldown -/

theorem spawnAheadIfNeeded_idle (h : Host) (rnd : RandomSource) (highestY : ℚ) (w : Scene)
    (hp : ∃ p ∈ w.platforms, highestY + w.world.spawnAhead ≤ p.pos.y) :
    spawnAheadIfNeeded h rnd highestY w = some w := by
  obtain ⟨p, hpm, hpy⟩ := hp
  unfold spawnAheadIfNeeded
  cases hm : w.platforms.map (fun p => p.pos.y) with
  | nil =>
    rw [List.map_eq_nil_iff.mp hm] at hpm
    exact absurd hpm (List.not_mem_nil p)
  | cons y ys =>
    obtain ⟨hall, _⟩ := foldl_max_spec ys y
    rw [← hm] at hall
    have hge : highestY + w.world.spawnAhead ≤ ys.foldl max y :=
      le_trans hpy (hall _ (List.mem_map.mpr ⟨p, hpm, rfl⟩))
    show spawnAheadLoop h rnd highestY w (ys.foldl max y) = some w
    rw [spawnAheadLoop, dif_neg (not_lt.mpr hge)]

theorem animate_eq_noSpawn (h : Host) (rnd : RandomSource) (f : Frame) (s : State)
    (ha : s.alive = true)
    (hp : ∃ p ∈ (simulate h rnd f (min f.delta (5 / 100)) (afterControls f s)).scene.platforms,
      (simulate h rnd f (min f.delta (5 / 100)) (afterControls f s)).maxHeight
        + (simulate h rnd f (min f.delta (5 / 100)) (afterControls f s)).scene.world.spawnAhead
        ≤ p.pos.y) :
    animate h rnd f s = animateNoSpawn h rnd f s := by
  rw [animate_alive h rnd f s ha]
  unfold finishFrame spawnAndPrune animateNoSpawn
  rw [spawnAheadIfNeeded_idle h rnd _ _ hp]

theorem createPickupParticles_length (rnd : RandomSource) (pos : Vec3) (w : Scene) :
    (createPickupParticles rnd pos w).particles.length = w.particles.length + 1 := by
  have hp : (createPickupParticles rnd pos w).particles
      = w.particles ++ [⟨List.replicate 12 pos, (particleVelocities rnd 12 w).1, 9 / 10⟩] := rfl
  rw [hp]
  simp

theorem heightScoring_lastHitTime (s : State) :
    (heightScoring s).lastHitTime = s.lastHitTime := by
  unfold heightScoring
  split <;> rfl

theorem interact_lastHitTime (h : Host) (rnd : RandomSource) (f : Frame) (dt : ℚ) (s : State) :
    (interact h rnd f dt s).lastHitTime = s.lastHitTime := by
  have k1 := powerUpsStep_keeps h rnd f s
  have k2 := bananasStep_keeps h rnd dt (powerUpsStep h rnd f s)
  have k3 := obstaclesStep_keeps h rnd f (bananasStep h rnd dt (powerUpsStep h rnd f s))
  exact (keeps_trans (keeps_trans k1 k2) k3).lastHitTime

theorem hitObstacle_hit (h : Host) (rnd : RandomSource) (f : Frame) (obs : Obstacle) (s : State)
    (hi : f.intersects obs s.orangutan = true) (hy : |s.orangutan.y - obs.pos.y| < 12 / 10) :
    (hitObstacle h rnd f obs s).velocityY = 1 / 10
      ∧ (hitObstacle h rnd f obs s).orangutan
          = (s.orangutan.add ((((Vec3.sub s.orangutan obs.pos).setY 0).normalize h).multiplyScalar
              (6 / 10))).setY
            ((s.orangutan.add ((((Vec3.sub s.orangutan obs.pos).setY 0).normalize h).multiplyScalar
              (6 / 10))).y + 25 / 100)
      ∧ (hitObstacle h rnd f obs s).scene.particles.length = s.scene.particles.length + 1
      ∧ (hitObstacle h rnd f obs s).lastHitTime = s.lastHitTime := by
  unfold hitObstacle
  rw [if_pos hi]
  dsimp only
  rw [if_pos hy]
  refine ⟨rfl, rfl, ?_, rfl⟩
  exact createPickupParticles_length rnd _ _

theorem step_lastHitTime (h : Host) (rnd : RandomSource) (ev : Event) (s : State) :
    (step h rnd ev s).lastHitTime = s.lastHitTime := by
  cases ev with
  | frame f =>
    simp only [step]
    by_cases ha : s.alive = true
    · obtain ⟨_, _, _, _, _, _, _, _, f9⟩ := finishFrame_fields h rnd (min f.delta (5 / 100))
        (magnetTick (min f.delta (5 / 100)) (updateScore (heightScoring (atScoring h rnd f s))))
      obtain ⟨_, _, _, _, _, _, _, m8⟩ := magnetTick_fields (min f.delta (5 / 100))
        (updateScore (heightScoring (atScoring h rnd f s)))
      obtain ⟨_, _, _, _, _, _, _, _, _, u10⟩ :=
        updateScore_fields (heightScoring (atScoring h rnd f s))
      have hk : (atScoring h rnd f s).lastHitTime = (atPowerUps h f s).lastHitTime := by
        unfold atScoring
        exact interact_lastHitTime h rnd f _ _
      rw [animate_from_scoring h rnd f s ha, f9, m8, u10, heightScoring_lastHitTime, hk,
        (atPowerUps_fields h f s).2.2.2.2.2]
    · have hd : s.alive = false := by simpa using ha
      rw [animate_dead h rnd f s hd]
      rfl
  | keydown e =>
    cases e with
    | Space =>
      simp only [step, keydown]
      split_ifs <;> rfl
    | key k => rfl
  | keyup e => cases e <;> rfl
  | speedTimeout =>
    simp only [step, speedTimeout]
    split <;> rfl
  | jumpTimeout =>
    simp only [step, jumpTimeout]
    split <;> rfl
  | santaLoad =>
    simp only [step, santaLoad]
    split <;> rfl

/-- Claim C15, at a failing run: the code declares `lastHitTime` and `hitCooldown = 0.8` "to
avoid repeated multi-hits" but never reads or writes them. Whenever the boxes intersect and
`|dy| < 1.2` the collision block applies the knockback, whatever `lastHitTime` and the clock
say; no event changes `lastHitTime`; and in the scenario, two consecutive ticks 1/60 s apart
both apply a knockback (each moves the player 0.6 away, sets `velocityY = 0.1` and makes a
particle burst) while the boxes intersect. -/
theorem C15_knockback_twice_within_cooldown :
    (∀ (h : Host) (rnd : RandomSource) (f : Frame) (obs : Obstacle) (s : State),
        f.intersects obs s.orangutan = true → |s.orangutan.y - obs.pos.y| < 12 / 10 →
          (hitObstacle h rnd f obs s).velocityY = 1 / 10
            ∧ (hitObstacle h rnd f obs s).scene.particles.length = s.scene.particles.length + 1
            ∧ (hitObstacle h rnd f obs s).lastHitTime = s.lastHitTime)
      ∧ (∀ (h : Host) (rnd : RandomSource) (ev : Event) (s : State),
          (step h rnd ev s).lastHitTime = s.lastHitTime)
      ∧ hitScenario.alive = true ∧ hitScenario.orangutan.x = 0
      ∧ hitScenario.scene.particles.length = 0
      ∧ (animate tableHost midDraws (overlapFrame 0) hitScenario).orangutan.x = -6 / 10
      ∧ (animate tableHost midDraws (overlapFrame 0) hitScenario).velocityY = 1 / 10
      ∧ (animate tableHost midDraws (overlapFrame 0) hitScenario).scene.particles.length = 1
      ∧ (animate tableHost midDraws (overlapFrame 0) hitScenario).alive = true
      ∧ (overlapFrame (1 / 60)).elapsedTime - (overlapFrame 0).elapsedTime < hitCooldown
      ∧ (animate tableHost midDraws (overlapFrame (1 / 60))
          (animate tableHost midDraws (overlapFrame 0) hitScenario)).orangutan.x = -12 / 10
      ∧ (animate tableHost midDraws (overlapFrame (1 / 60))
          (animate tableHost midDraws (overlapFrame 0) hitScenario)).velocityY = 1 / 10
      ∧ (animate tableHost midDraws (overlapFrame (1 / 60))
          (animate tableHost midDraws (overlapFrame 0) hitScenario)).scene.particles.length = 2 := by
  have e1 : animate tableHost midDraws (overlapFrame 0) hitScenario
      = animateNoSpawn tableHost midDraws (overlapFrame 0) hitScenario :=
    animate_eq_noSpawn _ _ _ _ rfl (by decide!)
  have e2 : animate tableHost midDraws (overlapFrame (1 / 60))
        (animateNoSpawn tableHost midDraws (overlapFrame 0) hitScenario)
      = animateNoSpawn tableHost midDraws (overlapFrame (1 / 60))
          (animateNoSpawn tableHost midDraws (overlapFrame 0) hitScenario) :=
    animate_eq_noSpawn _ _ _ _ (by decide!) (by decide!)
  rw [e1, e2]
  refine ⟨?_, step_lastHitTime, rfl, rfl, rfl, ?_, ?_, ?_, ?_, ?_, ?_, ?_, ?_⟩
  · intro h rnd f obs s hi hy
    obtain ⟨a, _, c, d⟩ := hitObstacle_hit h rnd f obs s hi hy
    exact ⟨a, c, d⟩
  all_goals decide!

end Parkour
